import Mathlib

/-!
# Verification of the ezobjects-mysql property-type transform engine

Shallow embedding of the core of `index.js` (the refined variant): the JS value
model, the EZ object type registry, the set/save/load transforms, property and
class configuration validation, dynamic class accessors, and the generated
`insert`/`load` persistence methods.  Theorems at the end settle the frozen
claims C1..C10 against this embedding.
-/

namespace EzObjects

/-- Model of the JavaScript runtime values this library manipulates.  Numbers
are modelled as integers plus an explicit NaN (every numeric value appearing
in the library's scenarios is integral); `obj` covers both plain objects and
generated-class instances (`ctor` is `constructor.name`, fields keyed by
property name, instance slots keyed by the underscore-prefixed name). -/
inductive JSVal where
  | null
  | undef
  | num (n : Int)
  | nan
  | str (s : String)
  | bool (b : Bool)
  | date (ms : Int)
  | buf (bytes : List Nat)
  | set (elems : List String)
  | arr (elems : List JSVal)
  | obj (ctor : String) (fields : List (String × JSVal))
  | func (id : Nat)

instance : Inhabited JSVal := ⟨JSVal.undef⟩

/-- JavaScript `typeof`. -/
def jsTypeof : JSVal → String
  | .null => "object"
  | .undef => "undefined"
  | .num _ => "number"
  | .nan => "number"
  | .str _ => "string"
  | .bool _ => "boolean"
  | .date _ => "object"
  | .buf _ => "object"
  | .set _ => "object"
  | .arr _ => "object"
  | .obj _ _ => "object"
  | .func _ => "function"

/-- JavaScript truthiness. -/
def jsTruthy : JSVal → Bool
  | .null => false
  | .undef => false
  | .num n => n != 0
  | .nan => false
  | .str s => s ≠ ""
  | .bool b => b
  | _ => true

/-- `x.constructor.name` for the values we model. -/
def jsCtorName : JSVal → String
  | .num _ => "Number"
  | .nan => "Number"
  | .str _ => "String"
  | .bool _ => "Boolean"
  | .date _ => "Date"
  | .buf _ => "Buffer"
  | .set _ => "Set"
  | .arr _ => "Array"
  | .obj c _ => c
  | .func _ => "Function"
  | .null => "null"
  | .undef => "undefined"

/-- Property read `x[k]` on an object (undefined when absent or not an object). -/
def jsField (x : JSVal) (k : String) : JSVal :=
  match x with
  | .obj _ fields =>
    match fields.find? (fun kv => kv.1 = k) with
    | some kv => kv.2
    | none => .undef
  | _ => (.undef)

/-- Write `x[k] = v` on an object's field list (replace first binding or append). -/
def setFieldList (fields : List (String × JSVal)) (k : String) (v : JSVal) :
    List (String × JSVal) :=
  match fields with
  | [] => [(k, v)]
  | kv :: rest =>
    if kv.1 = k then (k, v) :: rest else kv :: setFieldList rest k v

/-- Write `x[k] = v` (no-op on non-objects, as no claim exercises that). -/
def jsSetField (x : JSVal) (k : String) (v : JSVal) : JSVal :=
  match x with
  | .obj c fields => .obj c (setFieldList fields k v)
  | other => other

/-- Delete `x[k]` from a field list. -/
def delFieldList (fields : List (String × JSVal)) (k : String) :
    List (String × JSVal) :=
  match fields with
  | [] => []
  | kv :: rest => if kv.1 = k then rest else kv :: delFieldList rest k

/-! ### String helpers

Kernel-reducible replacements for the JS string operations the library uses.
All strings in play are ASCII. -/

/-- `s.toLowerCase()` (ASCII). -/
def strLower (s : String) : String := ⟨s.data.map Char.toLower⟩

/-- `s.substr(0, n)` for `n ≥ 0` (the only use in the library). -/
def strTake (s : String) (n : Nat) : String := ⟨s.data.take n⟩

/-- `s.substr(0, s.length - n)`: drop the trailing `n` characters, used to trim
`", "` from generated SQL fragments. -/
def strDropRight (s : String) (n : Nat) : String :=
  ⟨s.data.take (s.data.length - n)⟩

/-- Character-wise split, JS `s.split(sep)` for a one-character separator. -/
def splitOnCharAux (sep : Char) : List Char → List Char → List String
  | [], acc => [⟨acc.reverse⟩]
  | c :: rest, acc =>
    if c = sep then ⟨acc.reverse⟩ :: splitOnCharAux sep rest []
    else splitOnCharAux sep rest (c :: acc)

def splitOnChar (s : String) (sep : Char) : List String :=
  splitOnCharAux sep s.data []

/-- Does `pat` occur as a prefix of `l`? -/
def charsHavePrefix : List Char → List Char → Bool
  | [], _ => true
  | _ :: _, [] => false
  | p :: ps, c :: cs => p = c && charsHavePrefix ps cs

/-- JS `s.split(sep)` for a multi-character separator (used for the
`!&|&!` delimiter of text-like array kinds).  Fueled recursion; callers pass
enough fuel for the whole string. -/
def splitOnStrAux (sep : List Char) : Nat → List Char → List Char → List String
  | 0, rest, acc => [⟨acc.reverse ++ rest⟩]
  | _ + 1, [], acc => [⟨acc.reverse⟩]
  | fuel + 1, c :: cs, acc =>
    if charsHavePrefix sep (c :: cs) then
      ⟨acc.reverse⟩ :: splitOnStrAux sep fuel ((c :: cs).drop sep.length) []
    else
      splitOnStrAux sep fuel cs (c :: acc)

def splitOnStr (s : String) (sep : String) : List String :=
  if sep.data.isEmpty then [s]
  else splitOnStrAux sep.data (s.data.length + 1) s.data []

/-- Leading-integer parse: JS `parseInt` applied to a string (sign, then
decimal digits; no digits means NaN, modelled as `none`). -/
def parseIntStr (s : String) : Option Int :=
  let core (l : List Char) (sign : Int) : Option Int :=
    let digits := l.takeWhile (fun c => c.isDigit)
    if digits.isEmpty then none
    else some (sign * (digits.foldl (fun acc c => acc * 10 + (c.toNat - 48)) 0 : Nat))
  match s.data with
  | '-' :: rest => core rest (-1)
  | '+' :: rest => core rest 1
  | l => core l 1

/-- JS `Number(s)` for the strings this library meets: the whole string must be
(whitespace-free) optional sign plus decimal digits; the empty string is `0`.
Fractions are outside the integer model. -/
def numberOfStr (s : String) : Option Int :=
  if s.data.isEmpty then some 0
  else
    let core (l : List Char) (sign : Int) : Option Int :=
      if l.isEmpty ∨ ¬ l.all (fun c => c.isDigit) then none
      else some (sign * (l.foldl (fun acc c => acc * 10 + (c.toNat - 48)) 0 : Nat))
    match s.data with
    | '-' :: rest => core rest (-1)
    | '+' :: rest => core rest 1
    | l => core l 1

/-- Depth budget for the fueled recursions over `JSVal`: no value the
library manipulates approaches this nesting depth, so the budgeted functions
agree with their unbounded JS counterparts on every reachable value. -/
def jsDepthBudget : Nat := 1000000

/-- JS `String(x)` / `x.toString()` for the values we model, structurally
recursive on a depth budget that `jsToString` instantiates with
`jsDepthBudget`.  Buffers render their bytes as characters (utf8 for the
ASCII range); dates are outside any claim's evaluation and render via their
millisecond count.  Array elements join with commas, null and undefined
rendering empty. -/
def jsToStringFuel (fuel : Nat) (x : JSVal) : String :=
  match x with
  | .null => "null"
  | .undef => "undefined"
  | .num n => toString n
  | .nan => "NaN"
  | .str s => s
  | .bool b => if b then "true" else "false"
  | .date ms => "Date(" ++ toString ms ++ ")"
  | .buf bytes => ⟨bytes.map Char.ofNat⟩
  | .set elems => String.intercalate "," elems  -- Set#toString is never reached by claims
  | .arr elems =>
    (match fuel with
     | 0 => ""
     | fuel + 1 =>
       String.intercalate "," (elems.map (fun y =>
         match y with
         | .null => ""
         | .undef => ""
         | other => jsToStringFuel fuel other)))
  | .obj _ _ => "[object Object]"
  | .func id => "function () \x7b" ++ toString id ++ "\x7d"

def jsToString (x : JSVal) : String := jsToStringFuel jsDepthBudget x

/-- One element of an array `join`: null and undefined render as empty. -/
def jsElemToString : JSVal → String
  | .null => ""
  | .undef => ""
  | x => jsToString x

/-- JS `x.join(sep)`. -/
def jsJoin (elems : List JSVal) (sep : String) : String :=
  String.intercalate sep (elems.map jsElemToString)

/-- JS global `isNaN(x)` (numeric coercion then NaN test); one-element arrays
coerce through their single element, with the same depth budget. -/
def jsIsNaNFuel (fuel : Nat) (x : JSVal) : Bool :=
  match x with
  | .num _ => false
  | .nan => true
  | .null => false        -- Number(null) = 0
  | .undef => true
  | .bool _ => false      -- Number(true) = 1
  | .str s => (numberOfStr s).isNone
  | .date _ => false      -- Date valueOf is its timestamp
  | .buf _ => true
  | .set _ => true
  | .arr [] => false      -- Number([]) = 0
  | .arr [y] =>
    (match fuel with
     | 0 => true
     | fuel + 1 => jsIsNaNFuel fuel y)
  | .arr (_ :: _ :: _) => true
  | .obj _ _ => true
  | .func _ => true

def jsIsNaN (x : JSVal) : Bool := jsIsNaNFuel jsDepthBudget x

/-- JS `parseInt(x)`: stringify then leading-integer parse. -/
def jsParseInt (x : JSVal) : JSVal :=
  match parseIntStr (jsToString x) with
  | some n => .num n
  | none => .nan

/-- JS `parseFloat(x)` restricted to the integer model (identical to
`parseInt` on integral input, which is all any claim evaluates). -/
def jsParseFloat (x : JSVal) : JSVal := jsParseInt x

/-- The `/^[0-9\-T:Z.]+$/` date-string shape test used by `setTransform`. -/
def dateStrShape (s : String) : Bool :=
  ¬ s.data.isEmpty ∧
    s.data.all (fun c => c.isDigit ∨ c = '-' ∨ c = 'T' ∨ c = ':' ∨ c = 'Z' ∨ c = '.')

/-- `new Date(s)` for ISO-like strings: parses `YYYY-MM-DD` (with optional
time) into a millisecond count.  Only the shape matters to the claims; the
arithmetic follows days-since-epoch for the date part. -/
def jsDateParse (s : String) : Int :=
  match (splitOnChar s '-').map parseIntStr with
  | [some y, some m, some d] =>
    -- days from civil (proleptic Gregorian), then milliseconds
    let y' : Int := if m ≤ 2 then y - 1 else y
    let era : Int := (if y' ≥ 0 then y' else y' - 399) / 400
    let yoe : Int := y' - era * 400
    let mp : Int := (m + 9) % 12
    let doy : Int := (153 * mp + 2) / 5 + d - 1
    let doe : Int := yoe * 365 + yoe / 4 - yoe / 100 + doy
    (era * 146097 + doe - 719468) * 86400000
  | _ => 0

/-- JS `new Set(iterable)` deduplication, preserving first-occurrence order. -/
def dedupFirst (l : List String) : List String :=
  l.foldl (fun acc s => if acc.contains s then acc else acc ++ [s]) []

/-! ### JSON codec (used by the `object` kinds' save/load transforms) -/

/-- `JSON.stringify` over the value model, depth-budgeted like
`jsToStringFuel`. -/
def jsonStringifyFuel (fuel : Nat) (x : JSVal) : String :=
  match x with
  | .null => "null"
  | .undef => "null"      -- inside arrays JSON.stringify renders undefined as null
  | .num n => toString n
  | .nan => "null"
  | .str s => "\"" ++ s ++ "\""   -- library payloads carry no quotes to escape
  | .bool b => if b then "true" else "false"
  | .date ms => "\"" ++ toString ms ++ "\""
  | .buf _ => "{}"
  | .set _ => "{}"
  | .arr elems =>
    (match fuel with
     | 0 => "[]"
     | fuel + 1 =>
       "[" ++ String.intercalate "," (elems.map (jsonStringifyFuel fuel)) ++ "]")
  | .obj _ fields =>
    (match fuel with
     | 0 => "{}"
     | fuel + 1 =>
       "\x7b" ++ String.intercalate ","
         (fields.map (fun kv => "\"" ++ kv.1 ++ "\":" ++ jsonStringifyFuel fuel kv.2)) ++ "\x7d")
  | .func _ => "null"

def jsonStringify (x : JSVal) : String := jsonStringifyFuel jsDepthBudget x

mutual

/-- Fueled JSON value parser (enough of `JSON.parse` for the payloads the
library round-trips: atoms, strings without escapes, arrays, objects).
Returns the parsed value and the unconsumed input. -/
def jsonParseAux : Nat → List Char → Option (JSVal × List Char)
  | 0, _ => none
  | fuel + 1, input =>
    match input.dropWhile (fun c => c = ' ') with
    | 'n' :: 'u' :: 'l' :: 'l' :: rest => some (.null, rest)
    | 't' :: 'r' :: 'u' :: 'e' :: rest => some (.bool true, rest)
    | 'f' :: 'a' :: 'l' :: 's' :: 'e' :: rest => some (.bool false, rest)
    | '"' :: rest =>
      let s := rest.takeWhile (fun c => c ≠ '"')
      let rest' := rest.drop s.length
      match rest' with
      | '"' :: rest'' => some (.str ⟨s⟩, rest'')
      | _ => none
    | '[' :: rest =>
      (match rest.dropWhile (fun c => c = ' ') with
       | ']' :: rest' => some (.arr [], rest')
       | _ => jsonParseItems fuel rest [])
    | '{' :: rest =>
      (match rest.dropWhile (fun c => c = ' ') with
       | '}' :: rest' => some (.obj "Object" [], rest')
       | _ => jsonParseMembers fuel rest [])
    | '-' :: rest =>
      let digits := rest.takeWhile (fun c => c.isDigit)
      if digits.isEmpty then none
      else
        some (.num (-(digits.foldl (fun acc c => acc * 10 + (c.toNat - 48)) 0 : Nat)),
          rest.drop digits.length)
    | c :: rest =>
      if c.isDigit then
        let digits := (c :: rest).takeWhile (fun c => c.isDigit)
        some (.num ((digits.foldl (fun acc c => acc * 10 + (c.toNat - 48)) 0 : Nat)),
          (c :: rest).drop digits.length)
      else none
    | [] => none

/-- Comma-separated array items up to `]`. -/
def jsonParseItems (fuel : Nat) (input : List Char) (acc : List JSVal) :
    Option (JSVal × List Char) :=
  match fuel with
  | 0 => none
  | fuel + 1 =>
    match jsonParseAux fuel input with
    | none => none
    | some (v, rest) =>
      match rest.dropWhile (fun c => c = ' ') with
      | ',' :: rest' => jsonParseItems fuel rest' (acc ++ [v])
      | ']' :: rest' => some (.arr (acc ++ [v]), rest')
      | _ => none

/-- Comma-separated object members up to `}`. -/
def jsonParseMembers (fuel : Nat) (input : List Char) (acc : List (String × JSVal)) :
    Option (JSVal × List Char) :=
  match fuel with
  | 0 => none
  | fuel + 1 =>
    match input.dropWhile (fun c => c = ' ') with
    | '"' :: rest =>
      let k := rest.takeWhile (fun c => c ≠ '"')
      (match rest.drop k.length with
       | '"' :: rest' =>
         (match rest'.dropWhile (fun c => c = ' ') with
          | ':' :: rest'' =>
            (match jsonParseAux fuel rest'' with
             | none => none
             | some (v, rest3) =>
               match rest3.dropWhile (fun c => c = ' ') with
               | ',' :: rest4 => jsonParseMembers fuel rest4 (acc ++ [(⟨k⟩, v)])
               | '}' :: rest4 => some (.obj "Object" (acc ++ [(⟨k⟩, v)]), rest4)
               | _ => none)
          | _ => none)
       | _ => none)
    | _ => none

end

/-- `JSON.parse(s)`, yielding `undefined` on malformed input (the library never
feeds it malformed input on any claim's path). -/
def jsonParse (s : String) : JSVal :=
  match jsonParseAux (s.data.length + 1) s.data with
  | none => .undef
  | some (v, _) => v

/-! ### Transform identities

The registry entries carry closures; we name each distinct behaviour with a
tag and give the behaviours as evaluation functions further below.  A
user-supplied override is an opaque tag evaluated through the environment. -/

inductive GetTag where
  | otherGet | arrOtherGet | userGet (id : Nat)
deriving DecidableEq

inductive SetTag where
  | setT          -- the shared `setTransform` closure
  | setArrayT     -- the shared `setArrayTransform` closure
  | idT           -- `defaultTransform`, x => x
  | userSet (id : Nat)
deriving DecidableEq

inductive SaveTag where
  | idSave
  | bitSave | dateSave | tsSave | bufSave | setSave | boolSave
  | funcSave | objSave | otherSave
  | arrBufSave | arrJoinCommaSave | arrDateSave | arrTsSave | arrBangSave
  | arrSetSave | arrBoolSave | arrFuncSave | arrObjSave | arrOtherSave
  | userSave (id : Nat)
deriving DecidableEq

inductive LoadTag where
  | idLoad
  | parseIntLoad | dateLoad | bufLoad | setLoad | boolLoad
  | funcLoad | objLoad | otherLoad
  | arrBufLoad | arrIntLoad | arrFloatLoad | arrDateLoad | arrTimeLoad
  | arrBangLoad | arrSetLoad | arrBoolLoad | arrFuncLoad | arrObjLoad
  | arrOtherLoad
  | userLoad (id : Nat)
deriving DecidableEq

inductive VTag where
  | vInput | idV | userV (id : Nat)
deriving DecidableEq

inductive ATag where
  | aInput | aArrayInput | idA | userA (id : Nat)
deriving DecidableEq

/-! ### The EZ object type registry (`ezobjectTypes`, index.js lines 460-555) -/

/-- One registry entry.  The flag fields are `Option Bool` because several
entries leave them undefined in the source and `validatePropertyConfig`
mutates them in place; `none` is JS `undefined`. -/
structure EzType where
  type : String
  jsType : String
  mysqlType : String
  arrayOfType : Option String := none
  default : JSVal
  hasLength : Option Bool := none
  hasDecimals : Option Bool := none
  lengthRequired : Option Bool := none
  hasUnsignedAndZeroFill : Option Bool := none
  hasCharacterSetAndCollate : Option Bool := none
  lengthRequiresDecimals : Option Bool := none
  getTransform : Option GetTag := none
  setTransform : Option SetTag := none
  saveTransform : Option SaveTag := none
  loadTransform : Option LoadTag := none
  validateInput : Option VTag := none
  assignInput : Option ATag := none

abbrev Registry := List EzType

/-- The static type catalog, entry for entry in source order (scalar kinds
first, then the `array` kinds keyed by `arrayOfType`).  The `boolean` entry's
extra `save` field is not read anywhere in the pipeline and is omitted. -/
def ezobjectTypes : Registry := [
  { type := "bit", jsType := "Buffer", mysqlType := "bit", default := .buf [],
    hasLength := some true, setTransform := some .setT, saveTransform := some .bitSave },
  { type := "tinyint", jsType := "number", mysqlType := "tinyint", default := .num 0,
    hasLength := some true, hasUnsignedAndZeroFill := some true,
    setTransform := some .setT, validateInput := some .vInput, assignInput := some .aInput },
  { type := "smallint", jsType := "number", mysqlType := "smallint", default := .num 0,
    hasLength := some true, hasUnsignedAndZeroFill := some true,
    setTransform := some .setT, validateInput := some .vInput, assignInput := some .aInput },
  { type := "mediumint", jsType := "number", mysqlType := "mediumint", default := .num 0,
    hasLength := some true, hasUnsignedAndZeroFill := some true,
    setTransform := some .setT, validateInput := some .vInput, assignInput := some .aInput },
  { type := "int", jsType := "number", mysqlType := "int", default := .num 0,
    hasLength := some true, hasUnsignedAndZeroFill := some true,
    setTransform := some .setT, validateInput := some .vInput, assignInput := some .aInput },
  { type := "bigint", jsType := "number", mysqlType := "bigint", default := .num 0,
    hasLength := some true, hasUnsignedAndZeroFill := some true,
    setTransform := some .setT, loadTransform := some .parseIntLoad,
    validateInput := some .vInput, assignInput := some .aInput },
  { type := "real", jsType := "number", mysqlType := "real", default := .num 0,
    hasLength := some true, hasDecimals := some true, hasUnsignedAndZeroFill := some true,
    lengthRequiresDecimals := some true,
    setTransform := some .setT, validateInput := some .vInput, assignInput := some .aInput },
  { type := "double", jsType := "number", mysqlType := "double", default := .num 0,
    hasLength := some true, hasDecimals := some true, hasUnsignedAndZeroFill := some true,
    lengthRequiresDecimals := some true,
    setTransform := some .setT, validateInput := some .vInput, assignInput := some .aInput },
  { type := "float", jsType := "number", mysqlType := "float", default := .num 0,
    hasLength := some true, hasDecimals := some true, hasUnsignedAndZeroFill := some true,
    lengthRequiresDecimals := some true,
    setTransform := some .setT, validateInput := some .vInput, assignInput := some .aInput },
  { type := "decimal", jsType := "number", mysqlType := "decimal", default := .num 0,
    hasLength := some true, hasDecimals := some true, hasUnsignedAndZeroFill := some true,
    setTransform := some .setT, validateInput := some .vInput, assignInput := some .aInput },
  { type := "numeric", jsType := "number", mysqlType := "numeric", default := .num 0,
    hasLength := some true, hasDecimals := some true, hasUnsignedAndZeroFill := some true,
    setTransform := some .setT, validateInput := some .vInput, assignInput := some .aInput },
  { type := "date", jsType := "Date", mysqlType := "date", default := .null,
    saveTransform := some .dateSave, loadTransform := some .dateLoad,
    setTransform := some .setT, validateInput := some .vInput, assignInput := some .aInput },
  { type := "time", jsType := "string", mysqlType := "time", default := .str "00:00:00",
    setTransform := some .setT, validateInput := some .vInput, assignInput := some .aInput },
  { type := "timestamp", jsType := "Date", mysqlType := "timestamp", default := .null,
    setTransform := some .setT, saveTransform := some .tsSave,
    loadTransform := some .dateLoad,
    validateInput := some .vInput, assignInput := some .aInput },
  { type := "datetime", jsType := "Date", mysqlType := "datetime", default := .null,
    setTransform := some .setT, saveTransform := some .tsSave,
    loadTransform := some .dateLoad,
    validateInput := some .vInput, assignInput := some .aInput },
  { type := "char", jsType := "string", mysqlType := "char", default := .str "",
    hasLength := some true, hasCharacterSetAndCollate := some true,
    setTransform := some .setT, validateInput := some .vInput, assignInput := some .aInput },
  { type := "varchar", jsType := "string", mysqlType := "varchar", default := .str "",
    hasLength := some true, lengthRequired := some true,
    hasCharacterSetAndCollate := some true,
    setTransform := some .setT, validateInput := some .vInput, assignInput := some .aInput },
  { type := "binary", jsType := "Buffer", mysqlType := "binary", default := .buf [],
    hasLength := some true, setTransform := some .setT,
    saveTransform := some .bufSave, loadTransform := some .bufLoad,
    validateInput := some .vInput, assignInput := some .aInput },
  { type := "varbinary", jsType := "Buffer", mysqlType := "varbinary", default := .buf [],
    lengthRequired := some true, hasLength := some true, setTransform := some .setT,
    saveTransform := some .bufSave, loadTransform := some .bufLoad,
    validateInput := some .vInput, assignInput := some .aInput },
  { type := "tinyblob", jsType := "Buffer", mysqlType := "tinyblob", default := .buf [],
    setTransform := some .setT,
    saveTransform := some .bufSave, loadTransform := some .bufLoad,
    validateInput := some .vInput, assignInput := some .aInput },
  { type := "blob", jsType := "Buffer", mysqlType := "blob", default := .buf [],
    hasLength := some true, setTransform := some .setT,
    saveTransform := some .bufSave, loadTransform := some .bufLoad,
    validateInput := some .vInput, assignInput := some .aInput },
  { type := "mediumblob", jsType := "Buffer", mysqlType := "mediumblob", default := .buf [],
    setTransform := some .setT,
    saveTransform := some .bufSave, loadTransform := some .bufLoad,
    validateInput := some .vInput, assignInput := some .aInput },
  { type := "longblob", jsType := "Buffer", mysqlType := "longblob", default := .buf [],
    setTransform := some .setT,
    saveTransform := some .bufSave, loadTransform := some .bufLoad,
    validateInput := some .vInput, assignInput := some .aInput },
  { type := "tinytext", jsType := "string", mysqlType := "tinytext", default := .str "",
    hasCharacterSetAndCollate := some true,
    setTransform := some .setT, validateInput := some .vInput, assignInput := some .aInput },
  { type := "text", jsType := "string", mysqlType := "text", default := .str "",
    hasLength := some true, hasCharacterSetAndCollate := some true,
    setTransform := some .setT, validateInput := some .vInput, assignInput := some .aInput },
  { type := "mediumtext", jsType := "string", mysqlType := "mediumtext", default := .str "",
    hasCharacterSetAndCollate := some true,
    setTransform := some .setT, validateInput := some .vInput, assignInput := some .aInput },
  { type := "longtext", jsType := "string", mysqlType := "longtext", default := .str "",
    hasCharacterSetAndCollate := some true,
    setTransform := some .setT, validateInput := some .vInput, assignInput := some .aInput },
  { type := "set", jsType := "Set", mysqlType := "set", default := .set [],
    hasCharacterSetAndCollate := some true, setTransform := some .setT,
    saveTransform := some .setSave, loadTransform := some .setLoad,
    validateInput := some .vInput, assignInput := some .aInput },
  { type := "boolean", jsType := "boolean", mysqlType := "tinyint", default := .bool false,
    setTransform := some .setT, saveTransform := some .boolSave,
    loadTransform := some .boolLoad,
    validateInput := some .vInput, assignInput := some .aInput },
  { type := "function", jsType := "function", mysqlType := "text", default := .func 0,
    setTransform := some .setT, saveTransform := some .funcSave,
    loadTransform := some .funcLoad,
    validateInput := some .vInput, assignInput := some .aInput },
  { type := "object", jsType := "Object", mysqlType := "text", default := .obj "Object" [],
    setTransform := some .setT, saveTransform := some .objSave,
    loadTransform := some .objLoad,
    validateInput := some .vInput, assignInput := some .aInput },
  { type := "other", jsType := "object", mysqlType := "tinytext", default := .null,
    getTransform := some .otherGet, setTransform := some .setT,
    saveTransform := some .otherSave, loadTransform := some .otherLoad,
    validateInput := some .vInput, assignInput := some .aInput },

  { type := "array", jsType := "Array", mysqlType := "text", default := .arr [],
    arrayOfType := some "bit", setTransform := some .setArrayT,
    saveTransform := some .arrBufSave, loadTransform := some .arrBufLoad,
    assignInput := some .aArrayInput },
  { type := "array", jsType := "Array", mysqlType := "text", default := .arr [],
    arrayOfType := some "tinyint", setTransform := some .setArrayT,
    saveTransform := some .arrJoinCommaSave, loadTransform := some .arrIntLoad,
    assignInput := some .aArrayInput },
  { type := "array", jsType := "Array", mysqlType := "text", default := .arr [],
    arrayOfType := some "smallint", setTransform := some .setArrayT,
    saveTransform := some .arrJoinCommaSave, loadTransform := some .arrIntLoad,
    assignInput := some .aArrayInput },
  { type := "array", jsType := "Array", mysqlType := "text", default := .arr [],
    arrayOfType := some "mediumint", setTransform := some .setArrayT,
    saveTransform := some .arrJoinCommaSave, loadTransform := some .arrIntLoad,
    assignInput := some .aArrayInput },
  { type := "array", jsType := "Array", mysqlType := "text", default := .arr [],
    arrayOfType := some "int", setTransform := some .setArrayT,
    saveTransform := some .arrJoinCommaSave, loadTransform := some .arrIntLoad,
    assignInput := some .aArrayInput },
  { type := "array", jsType := "Array", mysqlType := "text", default := .arr [],
    arrayOfType := some "bigint", setTransform := some .setArrayT,
    saveTransform := some .arrJoinCommaSave, loadTransform := some .arrIntLoad,
    assignInput := some .aArrayInput },
  { type := "array", jsType := "Array", mysqlType := "text", default := .arr [],
    arrayOfType := some "real", setTransform := some .setArrayT,
    saveTransform := some .arrJoinCommaSave, loadTransform := some .arrFloatLoad,
    assignInput := some .aArrayInput },
  { type := "array", jsType := "Array", mysqlType := "text", default := .arr [],
    arrayOfType := some "double", setTransform := some .setArrayT,
    saveTransform := some .arrJoinCommaSave, loadTransform := some .arrFloatLoad,
    assignInput := some .aArrayInput },
  { type := "array", jsType := "Array", mysqlType := "text", default := .arr [],
    arrayOfType := some "float", setTransform := some .setArrayT,
    saveTransform := some .arrJoinCommaSave, loadTransform := some .arrFloatLoad,
    assignInput := some .aArrayInput },
  { type := "array", jsType := "Array", mysqlType := "text", default := .arr [],
    arrayOfType := some "decimal", setTransform := some .setArrayT,
    saveTransform := some .arrJoinCommaSave, loadTransform := some .arrFloatLoad,
    assignInput := some .aArrayInput },
  { type := "array", jsType := "Array", mysqlType := "text", default := .arr [],
    arrayOfType := some "numeric", setTransform := some .setArrayT,
    saveTransform := some .arrJoinCommaSave, loadTransform := some .arrFloatLoad,
    assignInput := some .aArrayInput },
  { type := "array", jsType := "Array", mysqlType := "text", default := .arr [],
    arrayOfType := some "date", setTransform := some .setArrayT,
    saveTransform := some .arrDateSave, loadTransform := some .arrDateLoad,
    assignInput := some .aArrayInput },
  { type := "array", jsType := "Array", mysqlType := "text", default := .arr [],
    arrayOfType := some "time", setTransform := some .setArrayT,
    saveTransform := some .arrJoinCommaSave, loadTransform := some .arrTimeLoad,
    assignInput := some .aArrayInput },
  { type := "array", jsType := "Array", mysqlType := "text", default := .arr [],
    arrayOfType := some "timestamp", setTransform := some .setArrayT,
    saveTransform := some .arrTsSave, loadTransform := some .arrDateLoad,
    assignInput := some .aArrayInput },
  { type := "array", jsType := "Array", mysqlType := "text", default := .arr [],
    arrayOfType := some "datetime", setTransform := some .setArrayT,
    saveTransform := some .arrTsSave, loadTransform := some .arrDateLoad,
    assignInput := some .aArrayInput },
  { type := "array", jsType := "Array", mysqlType := "text", default := .arr [],
    arrayOfType := some "char", setTransform := some .setArrayT,
    saveTransform := some .arrBangSave, loadTransform := some .arrBangLoad,
    assignInput := some .aArrayInput },
  { type := "array", jsType := "Array", mysqlType := "text", default := .arr [],
    arrayOfType := some "varchar", setTransform := some .setArrayT,
    saveTransform := some .arrBangSave, loadTransform := some .arrBangLoad,
    assignInput := some .aArrayInput },
  { type := "array", jsType := "Array", mysqlType := "text", default := .arr [],
    arrayOfType := some "binary", setTransform := some .setArrayT,
    saveTransform := some .arrBufSave, loadTransform := some .arrBufLoad,
    assignInput := some .aArrayInput },
  { type := "array", jsType := "Array", mysqlType := "text", default := .arr [],
    arrayOfType := some "varbinary", setTransform := some .setArrayT,
    saveTransform := some .arrBufSave, loadTransform := some .arrBufLoad,
    assignInput := some .aArrayInput },
  { type := "array", jsType := "Array", mysqlType := "text", default := .arr [],
    arrayOfType := some "tinyblob", setTransform := some .setArrayT,
    saveTransform := some .arrBufSave, loadTransform := some .arrBufLoad,
    assignInput := some .aArrayInput },
  { type := "array", jsType := "Array", mysqlType := "mediumtext", default := .arr [],
    arrayOfType := some "blob", setTransform := some .setArrayT,
    saveTransform := some .arrBufSave, loadTransform := some .arrBufLoad,
    assignInput := some .aArrayInput },
  { type := "array", jsType := "Array", mysqlType := "longtext", default := .arr [],
    arrayOfType := some "mediumblob", setTransform := some .setArrayT,
    saveTransform := some .arrBufSave, loadTransform := some .arrBufLoad,
    assignInput := some .aArrayInput },
  { type := "array", jsType := "Array", mysqlType := "longtext", default := .arr [],
    arrayOfType := some "longblob", setTransform := some .setArrayT,
    saveTransform := some .arrBufSave, loadTransform := some .arrBufLoad,
    assignInput := some .aArrayInput },
  { type := "array", jsType := "Array", mysqlType := "text", default := .arr [],
    arrayOfType := some "tinytext", setTransform := some .setArrayT,
    saveTransform := some .arrBangSave, loadTransform := some .arrBangLoad,
    assignInput := some .aArrayInput },
  { type := "array", jsType := "Array", mysqlType := "mediumtext", default := .arr [],
    arrayOfType := some "text", setTransform := some .setArrayT,
    saveTransform := some .arrBangSave, loadTransform := some .arrBangLoad,
    assignInput := some .aArrayInput },
  { type := "array", jsType := "Array", mysqlType := "longtext", default := .arr [],
    arrayOfType := some "mediumtext", setTransform := some .setArrayT,
    saveTransform := some .arrBangSave, loadTransform := some .arrBangLoad,
    assignInput := some .aArrayInput },
  { type := "array", jsType := "Array", mysqlType := "longtext", default := .arr [],
    arrayOfType := some "longtext", setTransform := some .setArrayT,
    saveTransform := some .arrBangSave, loadTransform := some .arrBangLoad,
    assignInput := some .aArrayInput },
  { type := "array", jsType := "Array", mysqlType := "text", default := .arr [],
    arrayOfType := some "set", setTransform := some .setArrayT,
    saveTransform := some .arrSetSave, loadTransform := some .arrSetLoad,
    assignInput := some .aArrayInput },
  { type := "array", jsType := "Array", mysqlType := "text", default := .arr [],
    arrayOfType := some "boolean", setTransform := some .setArrayT,
    saveTransform := some .arrBoolSave, loadTransform := some .arrBoolLoad,
    assignInput := some .aArrayInput },
  { type := "array", jsType := "Array", mysqlType := "mediumtext", default := .arr [],
    arrayOfType := some "function", setTransform := some .setArrayT,
    saveTransform := some .arrFuncSave, loadTransform := some .arrFuncLoad,
    assignInput := some .aArrayInput },
  { type := "array", jsType := "Array", mysqlType := "mediumtext", default := .arr [],
    arrayOfType := some "object", setTransform := some .setArrayT,
    saveTransform := some .arrObjSave, loadTransform := some .arrObjLoad,
    assignInput := some .aArrayInput },
  { type := "array", jsType := "Array", mysqlType := "text", default := .arr [],
    arrayOfType := some "other", getTransform := some .arrOtherGet,
    setTransform := some .setArrayT,
    saveTransform := some .arrOtherSave, loadTransform := some .arrOtherLoad,
    assignInput := some .aArrayInput }
]

/-! ### Property and class configurations -/

/-- The nested `arrayOf` element configuration of an array-typed property.
`none` in an `Option` field is JS `undefined` (for boolean fields, any
non-boolean value). -/
structure ArrayOfConfig where
  type : Option String := none
  instanceOf : Option String := none
  originalType : Option String := none
  originalInstanceOf : Option String := none
  allowNull : Option Bool := none
  length : Option Int := none
  ezobjectType : Option Nat := none   -- reference into the registry, by index

/-- One property configuration.  Mutated in place by `validatePropertyConfig`;
here validation returns the updated copy.  `ezobjectType` is an index into the
shared registry (the JS code stores a reference to the shared entry object,
which is why entry mutations are globally visible).  Numeric `length` and
`decimals` are modelled post-`parseInt`, collapsing the string-to-number
normalization the source performs on them. -/
structure PropConfig where
  name : Option String := none
  type : Option String := none
  instanceOf : Option String := none
  originalType : Option String := none
  originalInstanceOf : Option String := none
  arrayOf : Option ArrayOfConfig := none
  className : Option String := none
  mysqlType : Option String := none
  length : Option Int := none
  decimals : Option Int := none
  values : Option (List String) := none
  default : Option JSVal := none
  allowNull : Option Bool := none
  store : Option Bool := none
  ezobjectType : Option Nat := none
  getTransform : Option GetTag := none
  setTransform : Option SetTag := none
  saveTransform : Option SaveTag := none
  loadTransform : Option LoadTag := none
  validateInput : Option VTag := none
  assignInput : Option ATag := none

/-- A class configuration.  `extendsConfig` is the parent class configuration
(used both for the recursive property walks of the persistence methods and for
the `super.init` chain). -/
inductive ClassConfig where
  | mk (className : String) (tableName : Option String)
       (otherSearchProperty : Option String)
       (properties : List PropConfig) (extendsConfig : Option ClassConfig)

def ClassConfig.className : ClassConfig → String
  | .mk n _ _ _ _ => n

def ClassConfig.tableName : ClassConfig → Option String
  | .mk _ t _ _ _ => t

def ClassConfig.otherSearchProperty : ClassConfig → Option String
  | .mk _ _ o _ _ => o

def ClassConfig.properties : ClassConfig → List PropConfig
  | .mk _ _ _ ps _ => ps

def ClassConfig.extendsConfig : ClassConfig → Option ClassConfig
  | .mk _ _ _ _ e => e

/-- Failures: `TypeError` (the TypeMismatch / InvalidSignature family) versus
plain `Error` (the ConfigError family).  Messages are abbreviated. -/
inductive JSError where
  | typeError (msg : String)
  | error (msg : String)
deriving DecidableEq

/-- Ambient facilities the transforms close over: the global
`module.exports.objects` class registry, instance construction, the prototype
chain for `instanceOf`, `eval`, and calling a function value. -/
structure Env where
  objects : String → Option ClassConfig
  constructObj : String → JSVal → JSVal
  protoChain : String → List String
  evalCode : String → JSVal
  callFn : Nat → JSVal
  userFn : Nat → JSVal → JSVal

/-- `ezobjects.instanceOf(obj, constructorName)`: walk the prototype chain
looking for a constructor of that name. -/
def jsInstanceOf (env : Env) (x : JSVal) (ctorName : String) : Bool :=
  match x with
  | .obj c _ => c = ctorName ∨ (env.protoChain c).contains ctorName
  | _ => jsCtorName x = ctorName

/-- Truthiness of an `Option Bool` field read as a JS value
(`undefined` is falsy). -/
def optTruthy : Option Bool → Bool
  | some b => b
  | none => false

/-- Entry lookup through a property's `ezobjectType` reference.  An absent
reference would be a JS crash dereferencing `undefined`. -/
def entryOf (R : Registry) : Option Nat → Except JSError EzType
  | some i =>
    match R.get? i with
    | some e => .ok e
    | none => .error (.typeError "cannot read properties of undefined")
  | none => .error (.typeError "cannot read properties of undefined")

/-- Strict-equality test against `null` (the only general value comparison the
transforms perform). -/
def isNull : JSVal → Bool
  | .null => true
  | _ => false

/-- Strict-equality test against `undefined` (`arg === undefined` in the
generated accessor). -/
def isUndef : JSVal → Bool
  | .undef => true
  | _ => false

/-! ### `setTransform` (index.js lines 57-97) -/

/-- Does the value fail as `property.originalType` / lack a matching
`_constructorName`?  Mirrors the `object`-kind validity test. -/
def objectKindMismatch (env : Env) (p : PropConfig) (x : JSVal) : Bool :=
  jsTypeof x != "object" ||
    (p.type.isSome && (p.originalType != some (jsCtorName x)) &&
      (match jsField x "_constructorName" with
       | .str s => p.originalType != some s
       | _ => true)) ||
    (p.instanceOf.isSome && ! jsTruthy (jsField x "_isAddonObject") &&
      ! jsInstanceOf env x (p.originalInstanceOf.getD "undefined"))

/-- The guard half of `setTransform` (lines 60-79): the chain of TypeError
checks. -/
def setTransformChecks (env : Env) (e : EzType) (p : PropConfig) (x : JSVal) :
    Except JSError Unit :=
  if isNull x && ! optTruthy p.allowNull then
    throw (.typeError "Null value passed to setter that doesn't allow nulls.")
  else if ! isNull x && e.jsType == "number" && jsIsNaN x then
    throw (.typeError "Non-numeric value passed to setter.")
  else if ! isNull x && e.jsType == "string" && jsTypeof x != "string" && jsTypeof x != "number" then
    throw (.typeError "Non-string/Non-number value passed to setter.")
  else if ! isNull x && e.jsType == "boolean" && jsTypeof x != "boolean" then
    throw (.typeError "Non-boolean value passed to setter.")
  else if ! isNull x && e.jsType == "function" && jsTypeof x != "function" then
    throw (.typeError "Non-function value passed to setter.")
  else if ! isNull x && e.jsType == "Date" &&
      (jsTypeof x != "string" || ! dateStrShape (jsToString x)) &&
      (jsTypeof x != "object" || jsCtorName x != "Date") then
    throw (.typeError "Non-Date value passed to setter.")
  else if ! isNull x && e.jsType == "Buffer" &&
      (jsTypeof x != "object" || jsCtorName x != "Buffer") then
    throw (.typeError "Non-Buffer value passed to setter.")
  else if ! isNull x && e.jsType == "Set" &&
      (jsTypeof x != "object" || jsCtorName x != "Set") then
    throw (.typeError "Non-Set value passed to setter.")
  else if ! isNull x && e.jsType == "Object" &&
      (jsTypeof x != "object" || jsCtorName x != "Object") then
    throw (.typeError "Non-Object value passed to setter.")
  else if ! isNull x && e.jsType == "object" && objectKindMismatch env p x then
    throw (.typeError "Invalid value passed to setter.")
  else
    pure ()

/-- The coercion half of `setTransform` (lines 81-96): once the checks pass,
the returned value. -/
def setTransformValue (env : Env) (e : EzType) (p : PropConfig) (x : JSVal) :
    JSVal :=
  if p.type == some "varchar" then
    (if isNull x then .null else
      .str (match p.length with
            | some n => strTake (jsToString x) n.toNat
            | none => jsToString x))
  else if optTruthy e.hasDecimals then
    (if isNull x then .null else jsParseFloat x)
  else if e.jsType == "number" then
    (if isNull x then .null else jsParseInt x)
  else if e.jsType == "boolean" then
    (if isNull x then .null else .bool (jsTruthy x))
  else if e.jsType == "Date" && jsTypeof x == "string" then
    .date (jsDateParse (jsToString x))
  else if jsTruthy x && jsTypeof x == "object" && jsCtorName x == "Object" &&
      jsTypeof (jsField x "_constructorName") == "string" then
    env.constructObj (jsToString (jsField x "_constructorName")) x
  else
    (if isNull x then .null else x)

/-- Default set transform for non-array types. -/
def setTransformFn (env : Env) (R : Registry) (p : PropConfig) (x : JSVal) :
    Except JSError JSVal := do
  let e ← entryOf R p.ezobjectType
  setTransformChecks env e p x
  pure (setTransformValue env e p x)

/-! ### `setArrayTransform` (index.js lines 106-174) -/

/-- The `object`-element validity test of the array transform (line 134). -/
def objectElemMismatch (env : Env) (a : ArrayOfConfig) (y : JSVal) : Bool :=
  ! isNull y &&
    (jsTypeof y != "object" ||
      (a.originalType.isSome && (a.originalType != some (jsCtorName y)) &&
        (match jsField y "_constructorName" with
         | .str s => a.originalType != some s
         | _ => true)) ||
      (a.instanceOf.isSome && ! jsTruthy (jsField y "_isAddonObject") &&
        ! jsInstanceOf env y (a.originalInstanceOf.getD "undefined")))

/-- The element-check half of `setArrayTransform` (lines 109-135). -/
def setArrayTransformChecks (env : Env) (ae : EzType) (a : ArrayOfConfig)
    (elems : List JSVal) : Except JSError Unit :=
  if elems.any (fun y => isNull y && ! optTruthy a.allowNull) then
    throw (.typeError "Null value passed as element of Array setter that doesn't allow null elements.")
  else if ae.jsType == "number" && elems.any (fun y => jsIsNaN y && ! isNull y) then
    throw (.typeError "Non-numeric value passed as element of Array setter.")
  else if ae.jsType == "string" &&
      -- line 120 tests `y !== `number`` (the string literal), not `typeof y`
      elems.any (fun y => jsTypeof y != "string" &&
        (match y with | .str s => s != "number" | _ => true) && ! isNull y) then
    throw (.typeError "Non-string value passed as element of Array setter.")
  else if ae.jsType == "boolean" &&
      elems.any (fun y => jsTypeof y != "boolean" && ! isNull y) then
    throw (.typeError "Non-boolean value passed as element of Array setter.")
  else if ae.jsType == "function" &&
      elems.any (fun y => jsTypeof y != "function" && ! isNull y) then
    throw (.typeError "Non-function value passed as element of Array setter.")
  else if ae.jsType == "Date" &&
      elems.any (fun y => (jsTypeof y != "object" || jsCtorName y != "Date") && ! isNull y &&
        (jsTypeof y != "string" || ! dateStrShape (jsToString y))) then
    throw (.typeError "Non-Date value passed as element of Array setter.")
  else if ae.jsType == "Buffer" &&
      elems.any (fun y => (jsTypeof y != "object" || jsCtorName y != "Buffer") && ! isNull y) then
    throw (.typeError "Non-Buffer value passed as element of Array setter.")
  else if ae.jsType == "Set" &&
      elems.any (fun y => (jsTypeof y != "object" || jsCtorName y != "Set") && ! isNull y) then
    throw (.typeError "Non-Set value passed as element of Array setter.")
  else if ae.jsType == "Object" &&
      elems.any (fun y => (jsTypeof y != "object" || jsCtorName y != "Object") && ! isNull y) then
    throw (.typeError "Non-Object value passed as element of Array setter.")
  else if ae.jsType == "object" && elems.any (objectElemMismatch env a) then
    throw (.typeError "Invalid value passed as element of Array setter.")
  else
    pure ()

/-- The element-coercion half of `setArrayTransform` (lines 137-152). -/
def setArrayTransformValue (env : Env) (ae : EzType) (a : ArrayOfConfig)
    (elems : List JSVal) : List JSVal :=
  if a.type == some "varchar" then
    elems.map (fun y => if isNull y then .null else
      .str (match a.length with
            | some n => strTake (jsToString y) n.toNat
            | none => jsToString y))
  else if optTruthy ae.hasDecimals then
    elems.map (fun y => if isNull y then .null else jsParseFloat y)
  else if ae.jsType == "number" then
    elems.map (fun y => if isNull y then .null else jsParseInt y)
  else if ae.jsType == "boolean" then
    elems.map (fun y => if isNull y then .null else .bool (jsTruthy y))
  else if ae.jsType == "Date" then
    elems.map (fun y => if isNull y then .null else
      if jsTypeof y == "string" then .date (jsDateParse (jsToString y)) else y)
  else if ae.jsType == "object" then
    -- line 149: the trailing `typeof x.every(...)` conjunct is the string
    -- "boolean", hence always truthy; the branch fires for every
    -- object-element array
    elems.map (fun y => if isNull y then .null else
      env.constructObj (jsToString (jsField y "_constructorName")) y)
  else
    elems.map (fun y => if isNull y then .null else y)

/-- Default set transform for array types.  Returns the coerced element list;
the in-place mutation instrumentation the source installs on the returned
array (`push`/`unshift`/`fill` routed through `setTransform(·, property)`)
is modelled by `arrayPushFn`/`arrayUnshiftFn`/`arrayFillFn` below. -/
def setArrayTransformFn (env : Env) (R : Registry) (p : PropConfig) (x : JSVal) :
    Except JSError JSVal := do
  if isNull x && ! optTruthy p.allowNull then
    throw (.typeError "Null value passed to Array setter that doesn't allow nulls.")
  else
    match x with
    | .arr elems => do
      let ae ← entryOf R (p.arrayOf.getD {}).ezobjectType
      setArrayTransformChecks env ae (p.arrayOf.getD {}) elems
      pure (.arr (setArrayTransformValue env ae (p.arrayOf.getD {}) elems))
    | _ => throw (.typeError "Non-Array value passed to Array setter.")

/-- The instrumented `push` installed on array property values: each argument
is routed through `setTransform(argument, property)` — note with the *array*
property's configuration — then appended.  Returns the new element list and
the JS return value (the new length). -/
def arrayPushFn (env : Env) (R : Registry) (p : PropConfig) (elems : List JSVal)
    (args : List JSVal) : Except JSError (List JSVal × Int) := do
  let final ← args.foldlM (fun acc a => do
    let v ← setTransformFn env R p a
    pure (acc ++ [v])) elems
  pure (final, final.length)

/-- The instrumented `unshift`: arguments are prepended one at a time (so the
arguments end in reverse order ahead of the old elements), each routed through
`setTransform(argument, property)`. -/
def arrayUnshiftFn (env : Env) (R : Registry) (p : PropConfig) (elems : List JSVal)
    (args : List JSVal) : Except JSError (List JSVal × Int) := do
  let final ← args.foldlM (fun acc a => do
    let v ← setTransformFn env R p a
    pure (v :: acc)) elems
  pure (final, final.length)

/-- JS `Array.prototype.fill(v, start?, end?)` on a list (non-negative
indices, as the library's callers use). -/
def listFill (l : List JSVal) (v : JSVal) (start fin : Nat) : List JSVal :=
  l.mapIdx (fun i x => if start ≤ i ∧ i < fin then v else x)

/-- The instrumented `fill`: the fill value is routed through
`setTransform(value, property)`. -/
def arrayFillFn (env : Env) (R : Registry) (p : PropConfig) (elems : List JSVal)
    (v : JSVal) (start fin : Option Nat) : Except JSError (List JSVal) := do
  let v' ← setTransformFn env R p v
  pure (listFill elems v' (start.getD 0) (fin.getD elems.length))

/-! ### `validatePropertyConfig` (index.js lines 562-769), in source order -/

/-- Truthiness of an `Option String` field read as a JS value (the empty
string is falsy). -/
def optStrTruthy : Option String → Bool
  | some s => s != ""
  | none => false

/-- The `/^[a-zA-Z_][a-zA-Z0-9_]*$/` column-name grammar. -/
def validColName (s : String) : Bool :=
  match s.data with
  | [] => false
  | c :: rest => (c.isAlpha || c = '_') && rest.all (fun c => c.isAlphanum || c = '_')

/-- Lines 562-573: required `name`, name grammar, and `type`/`instanceOf`
presence. -/
def vpcCheckName (p : PropConfig) : Except JSError Unit := do
  match p.name with
  | none => throw (.error "Property configured with missing or invalid name.")
  | some n =>
    if ! validColName n then
      throw (.error "Property name not valid MySQL column name.")
    else if p.type.isNone && p.instanceOf.isNone then
      throw (.error "Property configured with missing or invalid type and/or instanceOf.")
    else
      pure ()

/-- Lines 575-591: record `originalType` / `originalInstanceOf` with preserved
case, then lower-case the working copies (only on the first run: guarded by
the original not yet being recorded). -/
def vpcNormalizeType (p : PropConfig) : PropConfig :=
  let p :=
    if optStrTruthy p.type && p.originalType.isNone then
      { p with originalType := p.type, type := p.type.map strLower }
    else p
  if optStrTruthy p.instanceOf && p.originalInstanceOf.isNone then
    { p with originalInstanceOf := p.instanceOf, instanceOf := p.instanceOf.map strLower }
  else p

/-- Find the registry index of the first entry satisfying the predicate. -/
def regFind (R : Registry) (f : EzType → Bool) : Option Nat :=
  R.findIdx? f

/-- Lines 605-620: the `arrayOf` copy of the case-normalization of lines
575-591 (record originals, lower-case the working copies, first run only). -/
def normalizeArrayOf (a0 : ArrayOfConfig) : ArrayOfConfig :=
  let a := a0
  let a :=
    if optStrTruthy a.type && a.originalType.isNone then
      { a with originalType := a.type, type := a.type.map strLower }
    else a
  if optStrTruthy a.instanceOf && a.originalInstanceOf.isNone then
    { a with originalInstanceOf := a.instanceOf, instanceOf := a.instanceOf.map strLower }
  else a

/-- Lines 630-639: attach the element entry index and default the
element-level `allowNull`. -/
def defaultArrayOfAllowNull (ae : EzType) (aIdx : Option Nat)
    (a1 : ArrayOfConfig) : ArrayOfConfig :=
  if a1.allowNull.isNone && ae.type != "other" && ae.type != "date" &&
      ae.type != "datetime" && ae.type != "timestamp" then
    { a1 with allowNull := some false, ezobjectType := aIdx }
  else if a1.allowNull.isNone then
    { a1 with allowNull := some true, ezobjectType := aIdx }
  else
    { a1 with ezobjectType := aIdx }

/-- Lines 622-625: the array-kind entry lookup (keyed by the element kind,
falling back to `Array[other]`). -/
def arrIdxOf (R : Registry) (p : PropConfig) (a1 : ArrayOfConfig) : Option Nat :=
  match regFind R (fun e => e.type == p.type.getD "" && e.arrayOfType == a1.type) with
  | some i => some i
  | none => regFind R (fun e => e.type == "array" && e.arrayOfType == some "other")

/-- Lines 627-629: the element-kind entry lookup (falling back to `other`). -/
def elemIdxOf (R : Registry) (a1 : ArrayOfConfig) : Option Nat :=
  match a1.type.bind (fun t => regFind R (fun e => e.type == t)) with
  | some i => some i
  | none => regFind R (fun e => e.type == "other")

/-- Lines 642-645: the scalar-kind entry lookup (falling back to `other`). -/
def scalarIdxOf (R : Registry) (p : PropConfig) : Option Nat :=
  match p.type.bind (fun t => regFind R (fun e => e.type == t)) with
  | some i => some i
  | none => regFind R (fun e => e.type == "other")

/-- Lines 593-647: resolve and attach `ezobjectType` (array kinds keyed by
the element kind, with the two-level `other` fallback), normalize the
`arrayOf` configuration, and default the element-level `allowNull`. -/
def vpcAttach (R : Registry) (p : PropConfig) : Except JSError PropConfig := do
  if p.type == some "array" then
    match p.arrayOf with
    | none => throw (.error "Array property with missing or invalid arrayOf.")
    | some a0 => do
      if a0.type.isNone && a0.instanceOf.isNone then
        throw (.error "Array property with missing or invalid arrayOf type and/or instanceOf.")
      else
        let a1 := normalizeArrayOf a0
        match (elemIdxOf R a1).bind (fun i => R.get? i) with
        | none => throw (.typeError "cannot read properties of undefined")
        | some ae =>
          let a2 := defaultArrayOfAllowNull ae (elemIdxOf R a1) a1
          pure { p with arrayOf := some a2, ezobjectType := arrIdxOf R p a1 }
  else
    pure { p with ezobjectType := scalarIdxOf R p }

/-- Line 649-651: the `mysqlType` override written into the shared entry. -/
def mutMysql (m : Option String) (e : EzType) : EzType :=
  match m with
  | some v => { e with mysqlType := v }
  | none => e

/-- Lines 662-663: fill an undefined `hasDecimals` with false. -/
def mutHasDec (e : EzType) : EzType :=
  if e.hasDecimals.isNone then { e with hasDecimals := some false } else e

/-- Lines 665-666: the source tests `hasLength` but assigns `hasDecimals`
(reproduced literally). -/
def mutHasLen (e : EzType) : EzType :=
  if e.hasLength.isNone then { e with hasDecimals := some false } else e

/-- Lines 668-669: fill an undefined `lengthRequired` with false. -/
def mutLenReq (e : EzType) : EzType :=
  if e.lengthRequired.isNone then { e with lengthRequired := some false } else e

/-- Lines 671-672: fill an undefined `hasUnsignedAndZeroFill` with false. -/
def mutUZF (e : EzType) : EzType :=
  if e.hasUnsignedAndZeroFill.isNone then
    { e with hasUnsignedAndZeroFill := some false } else e

/-- Lines 674-675: fill an undefined `hasCharacterSetAndCollate` with false. -/
def mutCSC (e : EzType) : EzType :=
  if e.hasCharacterSetAndCollate.isNone then
    { e with hasCharacterSetAndCollate := some false } else e

/-- Lines 677-678: fill an undefined `lengthRequiresDecimals` with false. -/
def mutLRD (e : EzType) : EzType :=
  if e.lengthRequiresDecimals.isNone then
    { e with lengthRequiresDecimals := some false } else e

/-- The composite per-entry mutation of lines 649-683. -/
def mutateEntry (m : Option String) (e : EzType) : EzType :=
  mutLRD (mutCSC (mutUZF (mutLenReq (mutHasLen (mutHasDec (mutMysql m e))))))

/-- Lines 649-683: in-place mutation of the *shared* registry entry the
property references: `mysqlType` override, then filling of undefined boolean
flags with `false`.  Note line 666 of the source tests `hasLength` but
assigns `hasDecimals` (reproduced literally). -/
def vpcMutateEntry (R : Registry) (p : PropConfig) : Registry :=
  match p.ezobjectType with
  | none => R    -- the pipeline always attaches an entry before this stage
  | some i =>
    match R.get? i with
    | none => R
    | some e => R.set i (mutateEntry p.mysqlType e)

/-- Length bound check for one integer kind: fails when a length is provided
and out of bounds. -/
def lengthOutOfBounds (l : Option Int) (hi : Int) : Bool :=
  match l with
  | some n => n ≤ 0 || n > hi
  | none => false

/-- Lines 685-735: the ConfigError checks on length, decimals, and enum
values, read against the (already mutated) registry entry. -/
def vpcChecks (R : Registry) (p : PropConfig) : Except JSError Unit := do
  let e ← entryOf R p.ezobjectType
  if optTruthy e.lengthRequired && p.length.isNone then
    throw (.error "Property missing required length configuration.")
  else if optTruthy e.hasDecimals && p.decimals.isSome && p.length.isNone then
    throw (.error "Property provided decimals without length configuration.")
  else if (p.type == some "varchar" || p.type == some "varbinary") &&
      lengthOutOfBounds p.length 65535 then
    throw (.error "Property has length out of bounds, must be between 1 and 65535.")
  else if p.type == some "bit" && lengthOutOfBounds p.length 64 then
    throw (.error "Property has length out of bounds, must be between 1 and 64.")
  else if p.type == some "tinyint" && lengthOutOfBounds p.length 4 then
    throw (.error "Property has length out of bounds, must be between 1 and 4.")
  else if p.type == some "smallint" && lengthOutOfBounds p.length 6 then
    throw (.error "Property has length out of bounds, must be between 1 and 6.")
  else if p.type == some "mediumint" && lengthOutOfBounds p.length 8 then
    throw (.error "Property has length out of bounds, must be between 1 and 8.")
  else if p.type == some "int" && lengthOutOfBounds p.length 11 then
    throw (.error "Property has length out of bounds, must be between 1 and 11.")
  else if p.type == some "bigint" && lengthOutOfBounds p.length 20 then
    throw (.error "Property has length out of bounds, must be between 1 and 20.")
  else if optTruthy e.hasDecimals &&
      (match p.decimals with
       | some d => d < 0 || (match p.length with | some l => d > l | none => false)
       | none => false) then
    throw (.error "Property has decimals out of bounds.")
  else if optTruthy e.lengthRequiresDecimals && p.length.isSome && p.decimals.isNone then
    throw (.error "Property used with length, but without decimals.")
  else if e.mysqlType == "enum" && p.values.isNone then
    throw (.error "Property used with missing or invalid values array.")
  else if e.mysqlType == "enum" && p.values == some [] then
    throw (.error "Property used with empty values array.")
  else
    pure ()

/-- Lines 737-742: fill `setTransform` from the entry if unset. -/
def fillSet (e : EzType) (p : PropConfig) : PropConfig :=
  if p.setTransform.isNone then
    { p with setTransform := some (e.setTransform.getD .idT) } else p

/-- Lines 744-746: fill `saveTransform` from the entry if unset. -/
def fillSave (e : EzType) (p : PropConfig) : PropConfig :=
  if p.saveTransform.isNone then
    { p with saveTransform := some (e.saveTransform.getD .idSave) } else p

/-- Lines 748-750: fill `loadTransform` from the entry if unset. -/
def fillLoad (e : EzType) (p : PropConfig) : PropConfig :=
  if p.loadTransform.isNone then
    { p with loadTransform := some (e.loadTransform.getD .idLoad) } else p

/-- Lines 752-754: fill `validateInput` from the entry if unset. -/
def fillValidate (e : EzType) (p : PropConfig) : PropConfig :=
  if p.validateInput.isNone then
    { p with validateInput := some (e.validateInput.getD .idV) } else p

/-- Lines 756-758: fill `assignInput` from the entry if unset. -/
def fillAssign (e : EzType) (p : PropConfig) : PropConfig :=
  if p.assignInput.isNone then
    { p with assignInput := some (e.assignInput.getD .idA) } else p

/-- Lines 760-761: default `store` to true. -/
def fillStore (p : PropConfig) : PropConfig :=
  if p.store.isNone then { p with store := some true } else p

/-- Lines 763-768: default `allowNull` (false except for the `other`, `date`,
`datetime` and `timestamp` entry kinds). -/
def fillAllowNull (e : EzType) (p : PropConfig) : PropConfig :=
  if p.allowNull.isNone && e.type != "other" && e.type != "date" &&
      e.type != "datetime" && e.type != "timestamp" then
    { p with allowNull := some false }
  else if p.allowNull.isNone then
    { p with allowNull := some true }
  else p

/-- Lines 737-768: fill the transform slots from the entry (falling back to
the identity `defaultTransform`), default `store` to true, and default
`allowNull` (false except for the `other`, `date`, `datetime` and `timestamp`
entry kinds). -/
def vpcFill (R : Registry) (p : PropConfig) : Except JSError PropConfig := do
  let e ← entryOf R p.ezobjectType
  pure (fillAllowNull e (fillStore (fillAssign e (fillValidate e
    (fillLoad e (fillSave e (fillSet e p)))))))

/-- `validatePropertyConfig(property)`: the whole pipeline, threading the
shared registry (mutated in place in the source, returned here). -/
def validatePropertyConfig (R : Registry) (p : PropConfig) :
    Except JSError (Registry × PropConfig) := do
  vpcCheckName p
  let p1 := vpcNormalizeType p
  let p2 ← vpcAttach R p1
  let R' := vpcMutateEntry R p2
  vpcChecks R' p2
  let p3 ← vpcFill R' p2
  pure (R', p3)

/-- The `/^[A-Za-z_0-9$]+$/` class-name grammar. -/
def validClassName (s : String) : Bool :=
  ! s.data.isEmpty && s.data.all (fun c => c.isAlphanum || c = '_' || c = '$')

/-- Replace a class configuration's property list. -/
def ClassConfig.withProperties : ClassConfig → List PropConfig → ClassConfig
  | .mk n t o _ e, ps => .mk n t o ps e

/-- `validateClassConfig(obj)` (lines 776-803): class-name check, then each
property is tagged with the owning class name and validated in order (the
`revisionControlled` type check cannot fire in this typed model, and the
`properties` field is a list by construction). -/
def validateClassConfig (R : Registry) (cfg : ClassConfig) :
    Except JSError (Registry × ClassConfig) := do
  if ! validClassName cfg.className then
    throw (.error "Configuration has missing or invalid className.")
  else
    let step := fun (acc : Registry × List PropConfig) (prop : PropConfig) => do
      let prop := { prop with className := some cfg.className }
      let (R', prop') ← validatePropertyConfig acc.1 prop
      pure (R', acc.2 ++ [prop'])
    let (R', props') ← cfg.properties.foldlM step (R, [])
    pure (R', cfg.withProperties props')

/-! ### Moment-style date formatting (used by the date/timestamp save
transforms).  Standard civil-from-days arithmetic on the millisecond count. -/

def civilFromDays (z0 : Int) : Int × Int × Int :=
  let z := z0 + 719468
  let era := (if z ≥ 0 then z else z - 146096) / 146097
  let doe := z - era * 146097
  let yoe := (doe - doe / 1460 + doe / 36524 - doe / 146096) / 365
  let y := yoe + era * 400
  let doy := doe - (365 * yoe + yoe / 4 - yoe / 100)
  let mp := (5 * doy + 2) / 153
  let d := doy - (153 * mp + 2) / 5 + 1
  let m := mp + (if mp < 10 then 3 else -9)
  (y + (if m ≤ 2 then 1 else 0), m, d)

def pad2 (n : Int) : String := if 0 ≤ n ∧ n < 10 then "0" ++ toString n else toString n

/-- `moment(x).format('YYYY-MM-DD')` of a millisecond timestamp. -/
def formatDateMs (ms : Int) : String :=
  let days := (ms - (ms % 86400000)) / 86400000
  let ymd := civilFromDays days
  toString ymd.1 ++ "-" ++ pad2 ymd.2.1 ++ "-" ++ pad2 ymd.2.2

/-- `moment(x).format('YYYY-MM-DD HH:mm:ss.SSSSSS')`. -/
def formatTsMs (ms : Int) : String :=
  let rem := ms % 86400000
  let h := rem / 3600000
  let mnt := (rem % 3600000) / 60000
  let s := (rem % 60000) / 1000
  let milli := rem % 1000
  formatDateMs ms ++ " " ++ pad2 h ++ ":" ++ pad2 mnt ++ ":" ++ pad2 s ++ "." ++
    toString milli ++ "000"

/-- `moment(x).format(...)` dispatch on the value's runtime shape. -/
def momentFormat (x : JSVal) (ts : Bool) : String :=
  match x with
  | .date ms => if ts then formatTsMs ms else formatDateMs ms
  | .str s => if ts then formatTsMs (jsDateParse s) else formatDateMs (jsDateParse s)
  | _ => "Invalid date"

/-! ### Save transforms (the `saveTransform` closures of the registry) -/

/-- Evaluate one save transform.  Shape mismatches that would crash in JS
(e.g. `.join` on a non-array) are thrown as TypeErrors. -/
def evalSaveTransform (env : Env) (tag : SaveTag) (x : JSVal) :
    Except JSError JSVal :=
  match tag, x with
  | .idSave, x => .ok x
  | .userSave i, x => .ok (env.userFn i x)
  | .bitSave, .buf bytes =>
    .ok (if bytes.length > 0
         then .num (bytes.foldl (fun acc b => acc * 2 + (b : Int)) 0)
         else .num 0)
  | .bitSave, _ => .error (.typeError "x.join is not a function")
  | .dateSave, x => .ok (if jsTruthy x then .str (momentFormat x false) else .null)
  | .tsSave, x => .ok (if jsTruthy x then .str (momentFormat x true) else .null)
  | .bufSave, x => .ok (.str (jsToString x))
  | .setSave, .set elems => .ok (.str (String.intercalate "," elems))
  | .setSave, _ => .error (.typeError "x.values is not a function")
  | .boolSave, x => .ok (.num (if jsTruthy x then 1 else 0))
  | .funcSave, x => .ok (.str (jsToString x))
  | .objSave, x => .ok (.str (jsonStringify x))
  | .otherSave, x =>
    .ok (if jsTruthy x
         then .str (jsCtorName x ++ "," ++ jsToString (jsField x "_id"))
         else .null)
  | .arrBufSave, .arr elems =>
    .ok (.str (String.intercalate "," (elems.map (fun y =>
      match y with
      | .buf bytes => String.intercalate "|" (bytes.map (fun b => toString b))
      | other => jsToString other))))
  | .arrBufSave, _ => .error (.typeError "x.map is not a function")
  | .arrJoinCommaSave, .arr elems => .ok (.str (jsJoin elems ","))
  | .arrJoinCommaSave, _ => .error (.typeError "x.join is not a function")
  | .arrDateSave, .arr elems =>
    .ok (.str (String.intercalate "," (elems.map (fun y =>
      if jsTruthy y then momentFormat y false else "null"))))
  | .arrDateSave, _ => .error (.typeError "x.map is not a function")
  | .arrTsSave, .arr elems =>
    .ok (.str (String.intercalate "," (elems.map (fun y =>
      if jsTruthy y then momentFormat y true else "null"))))
  | .arrTsSave, _ => .error (.typeError "x.map is not a function")
  | .arrBangSave, .arr elems => .ok (.str (jsJoin elems "!&|&!"))
  | .arrBangSave, _ => .error (.typeError "x.join is not a function")
  | .arrSetSave, .arr elems =>
    .ok (.str (String.intercalate "!&|&!" (elems.map (fun y =>
      match y with
      | .set ss => String.intercalate "," ss
      | other => jsToString other))))
  | .arrSetSave, _ => .error (.typeError "x.map is not a function")
  | .arrBoolSave, .arr elems =>
    .ok (.str (String.intercalate "," (elems.map (fun y =>
      if jsTruthy y then "1" else "0"))))
  | .arrBoolSave, _ => .error (.typeError "x.map is not a function")
  | .arrFuncSave, .arr elems =>
    .ok (.str (String.intercalate "!&|&!" (elems.map jsToString)))
  | .arrFuncSave, _ => .error (.typeError "x.map is not a function")
  | .arrObjSave, x => .ok (.str (jsonStringify x))
  | .arrOtherSave, .arr elems =>
    .ok (.str (String.intercalate "|" (elems.map (fun y =>
      jsCtorName y ++ "," ++ jsToString (jsField y "_id")))))
  | .arrOtherSave, _ => .error (.typeError "x.map is not a function")

/-- Evaluate a get transform (only ever present when user-supplied; the
registry's two `getTransform`s are never copied onto the property by
validation). -/
def evalGetTransform (env : Env) (g : GetTag) (x : JSVal) : Except JSError JSVal :=
  match g with
  | .userGet i => .ok (env.userFn i x)
  | .otherGet =>
    match x with
    | .null | .undef => .error (.typeError "cannot read properties of null")
    | _ =>
      if jsTruthy (jsField x "_isAddonObject") then
        .error (.typeError "cannot read properties of undefined")  -- `obj` argument is undefined
      else .ok x
  | .arrOtherGet =>
    match x with
    | .null | .undef => .error (.typeError "cannot read properties of null")
    | .arr elems =>
      if elems.length > 0 ∧ jsTruthy (jsField (elems.headD .undef) "_isAddonObject") then
        .ok (.arr (elems.map (fun y =>
          env.constructObj (jsToString (jsField y "_constructorName")) y)))
      else .ok x
    | _ => .ok x

/-- Evaluate a set transform by tag. -/
def evalSetTransform (env : Env) (R : Registry) (p : PropConfig) (t : SetTag)
    (x : JSVal) : Except JSError JSVal :=
  match t with
  | .setT => setTransformFn env R p x
  | .setArrayT => setArrayTransformFn env R p x
  | .idT => .ok x
  | .userSet i => .ok (env.userFn i x)

/-! ### The generated accessor (index.js lines 1045-1058) -/

/-- One call of the per-property accessor method: a call with the single
argument `undefined` (which is also what a zero-argument JS call passes) is a
read; any other argument runs the set transform and stores the result in the
`_name` slot, returning `this`.  Result is `(updated instance, return value)`. -/
def accessorFn (env : Env) (R : Registry) (p : PropConfig) (inst : JSVal)
    (arg : JSVal) : Except JSError (JSVal × JSVal) := do
  let nm := p.name.getD "undefined"
  if isUndef arg then
    let slot := jsField inst ("_" ++ nm)
    match p.getTransform with
    | some g => do
      let v ← evalGetTransform env g slot
      pure (inst, v)
    | none => pure (inst, slot)
  else
    match p.setTransform with
    | none => throw (.typeError "property.setTransform is not a function")
    | some t => do
      let v ← evalSetTransform env R p t arg
      let inst' := jsSetField inst ("_" ++ nm) v
      pure (inst', inst')

/-! ### The generated initializer (index.js lines 1018-1041) -/

/-- Initialize one property from the seed object: seed value (possibly a
function to call, possibly under the transport `_` prefix), else the
configured default, else the entry's default — always through the set
transform via the accessor. -/
def initProp (env : Env) (R : Registry) (data : JSVal) (inst : JSVal)
    (p : PropConfig) : Except JSError JSVal := do
  let nm := p.name.getD "undefined"
  let dv := jsField data nm
  let duv := jsField data ("_" ++ nm)
  let arg ←
    if p.type != some "function" && jsTypeof dv == "function" then
      pure (match dv with | .func i => env.callFn i | _ => .undef)
    else if ! (jsTypeof dv == "undefined") then
      pure dv
    else if jsTypeof duv == "function" then
      pure (match duv with | .func i => env.callFn i | _ => .undef)
    else if ! (jsTypeof duv == "undefined") then
      pure duv
    else do
      let e ← entryOf R p.ezobjectType
      pure (match p.default with
            | some d => if jsTruthy d then d else e.default
            | none => e.default)
  let r ← accessorFn env R p inst arg
  pure r.1

/-- `init(data)`: parse string seeds as JSON, chain the parent initializer,
then set every declared property in order. -/
def initInstance (env : Env) (R : Registry) :
    ClassConfig → JSVal → JSVal → Except JSError JSVal
  | .mk _ _ _ props ext, data0, inst => do
    let data := match data0 with
                | .str s => jsonParse s
                | d => d
    let inst ← match ext with
               | some parent => initInstance env R parent data inst
               | none => pure inst
    props.foldlM (fun inst p => initProp env R data inst p) inst

/-- `new GeneratedClass(data)`: tag `_constructorName`, then initialize. -/
def newInstance (env : Env) (R : Registry) (cfg : ClassConfig) (data : JSVal) :
    Except JSError JSVal :=
  initInstance env R cfg data
    (.obj cfg.className [("_constructorName", .str cfg.className)])

/-! ### The generated `insert` method (index.js lines 1077-1191) -/

/-- One executed query and its parameters (the log of calls to
`db.awaitQuery`). -/
structure QueryRec where
  sql : String
  params : List JSVal

/-- The external query service: a pure function from statement and parameters
to rows plus insert metadata. -/
structure DbResult where
  rows : List JSVal := []
  insertId : Int := 0

abbrev Db := String → List JSVal → DbResult

/-- The full inherited property list, parent-first. -/
def flatProps : ClassConfig → List PropConfig
  | .mk _ _ _ props ext =>
    (match ext with
     | some parent => flatProps parent
     | none => []) ++ props

/-- `propertyValues` helper of `insert`: parent-first walk, skipping the
identity property and not-stored properties, pushing each value through its
save transform. -/
def insertParams (env : Env) (R : Registry) :
    ClassConfig → JSVal → Except JSError (List JSVal)
  | .mk _ _ _ props ext, inst => do
    let base ← match ext with
               | some parent => insertParams env R parent inst
               | none => pure []
    props.foldlM (fun acc p =>
      if p.name == some "id" || ! optTruthy p.store then
        pure acc
      else do
        let r ← accessorFn env R p inst .undef
        match p.saveTransform with
        | none => throw (.typeError "property.saveTransform is not a function")
        | some t => do
          let sv ← evalSaveTransform env t r.2
          pure (acc ++ [sv])) base

/-- `propertyNames` helper of `insert`: the same walk appending
`name + ", "` for each included property. -/
def insertNames : ClassConfig → String
  | .mk _ _ _ props ext =>
    (match ext with
     | some parent => insertNames parent
     | none => "") ++
    props.foldl (fun s p =>
      if p.name == some "id" || ! optTruthy p.store then s
      else s ++ p.name.getD "undefined" ++ ", ") ""

/-- `propertyPlaceholders` helper of `insert`. -/
def insertPlaceholders : ClassConfig → String
  | .mk _ _ _ props ext =>
    (match ext with
     | some parent => insertPlaceholders parent
     | none => "") ++
    props.foldl (fun s p =>
      if p.name == some "id" || ! optTruthy p.store then s
      else s ++ "?, ") ""

/-- The INSERT statement `insert` assembles: column list then placeholder
list, each `", "`-trimmed exactly as the source does. -/
def insertQuery (cfg : ClassConfig) : String :=
  strDropRight
    (strDropRight
      ("INSERT INTO " ++ cfg.tableName.getD "undefined" ++ " (" ++ insertNames cfg) 2 ++
      ") VALUES (" ++ insertPlaceholders cfg) 2 ++ ")"

/-- `insert(db)` for a valid database argument (the browser/AJAX branch needs
a `window` global and cannot arise here; an invalid argument is the
InvalidSignature TypeError, outside this entry point since `Db` is the
collaborator type).  Returns the updated instance and the query log. -/
def insertFn (env : Env) (R : Registry) (cfg : ClassConfig) (inst : JSVal)
    (db : Db) (log : List QueryRec) : Except JSError (JSVal × List QueryRec) := do
  let params ← insertParams env R cfg inst
  let q := insertQuery cfg
  let res := db q params
  match (flatProps cfg).find? (fun p => p.name == some "id") with
  | none => throw (.typeError "this.id is not a function")
  | some idp => do
    let r ← accessorFn env R idp inst (.num res.insertId)
    pure (r.1, log ++ [⟨q, params⟩])

/-! ### The generated `load` method (index.js lines 1194-1389) and the
asynchronous load transforms that re-enter it (`other`, `Array[other]`).
Mutual recursion is fueled; every claim instantiates enough fuel. -/

/-- The `propertiesToLoad`/`options.inverse` skip test of `load`. -/
def skipFilter (ptl : List String) (inverse : Bool) (nm : String) : Bool :=
  ptl.length > 0 &&
    ((!inverse && !ptl.contains nm) || (inverse && ptl.contains nm))

/-- The `propertyNames` helper of `load`: parent-first `name + ", "`
concatenation over stored, non-filtered properties. -/
def loadSelectNames (ptl : List String) (inverse : Bool) : ClassConfig → String
  | .mk _ _ _ props ext =>
    (match ext with
     | some parent => loadSelectNames ptl inverse parent
     | none => "") ++
    props.foldl (fun s p =>
      if ! optTruthy p.store then s
      else if skipFilter ptl inverse (p.name.getD "undefined") then s
      else s ++ p.name.getD "undefined" ++ ", ") ""

/-- `stripUnderscores(obj)` (lines 183-195): re-key each `_`-prefixed field to
its bare name (overwriting any existing binding) and drop the prefixed key. -/
def stripUnderscores (x : JSVal) : JSVal :=
  match x with
  | .obj c fields =>
    .obj c (fields.foldl (fun acc kv =>
      match kv.1.data with
      | '_' :: rest => delFieldList (setFieldList acc ⟨rest⟩ kv.2) kv.1
      | _ => acc) fields)
  | other => other

/-- Turn a parsed optional id back into the JS value `parseInt` produced. -/
def optIntToJS : Option Int → JSVal
  | some n => .num n
  | none => .nan

/-- The re-entry continuation the asynchronous load transforms use:
`new objects[cn]().load(arg, db)` with the default `propertiesToLoad` and
`options`.  The fuel-indexed family `reloadFuel` below ties the knot. -/
abbrev Reload := ClassConfig → JSVal → JSVal → Option Db → List QueryRec →
  Except JSError (JSVal × JSVal × List QueryRec)

/-- The per-row loop of the (dead in practice) batched `Array[other]` load:
each row is loaded through `objects[constructorName]`, which here is the
undefined constructor name. -/
def loadRowsGo (env : Env) (R : Registry) (reload : Reload) (ctorName : String) :
    List JSVal → Option Db → List QueryRec →
    Except JSError (List JSVal × List QueryRec)
  | [], _, log => .ok ([], log)
  | row :: rest, db, log => do
    (match env.objects ctorName with
     | none => throw (.typeError "module.exports.objects[name] is not a constructor")
     | some wcfg => do
       let inst0 ← newInstance env R wcfg (.obj "Object" [])
       let r ← reload wcfg inst0 row db log
       let rec' ← loadRowsGo env R reload ctorName rest db r.2.2
       pure (r.2.1 :: rec'.1, rec'.2))

/-- The per-element loop of the heterogeneous `Array[other]` load. -/
def loadEachGo (env : Env) (R : Registry) (reload : Reload) :
    List (String × Option Int) → Option Db → List QueryRec →
    Except JSError (List JSVal × List QueryRec)
  | [], _, log => .ok ([], log)
  | (cn, oid) :: rest, db, log => do
    (match env.objects cn with
     | none => throw (.typeError "module.exports.objects[name] is not a constructor")
     | some wcfg => do
       let inst0 ← newInstance env R wcfg (.obj "Object" [])
       let r ← reload wcfg inst0 (optIntToJS oid) db log
       let rec' ← loadEachGo env R reload rest db r.2.2
       pure (r.2.1 :: rec'.1, rec'.2))

/-- Evaluate a load transform.  `db` and `tableName` are the extra arguments
`load` passes through; the `other` tags re-enter `load` through `reload`. -/
def evalLoadTransformGo (env : Env) (R : Registry) (reload : Reload)
    (tag : LoadTag) (x : JSVal) (db : Option Db) (tableName : Option String)
    (log : List QueryRec) : Except JSError (JSVal × List QueryRec) :=
  match tag with
  | .idLoad => .ok (x, log)
  | .userLoad i => .ok (env.userFn i x, log)
  | .parseIntLoad => .ok (jsParseInt x, log)
  | .dateLoad =>
    .ok (if jsTruthy x then
           (match x with
            | .str s => .date (jsDateParse s)
            | .date ms => .date ms
            | .num n => .date n
            | _ => .date 0)
         else .null, log)
  | .bufLoad =>
    (match x with
     | .str s => .ok (.buf (s.data.map Char.toNat), log)
     | _ => .error (.typeError "Buffer.from: invalid argument"))
  | .setLoad =>
    (match x with
     | .str s => .ok (.set (dedupFirst (splitOnChar s ',')), log)
     | _ => .error (.typeError "x.split is not a function"))
  | .boolLoad => .ok (.bool (jsTruthy x), log)
  | .funcLoad => .ok (env.evalCode (jsToString x), log)
  | .objLoad => .ok (jsonParse (jsToString x), log)
  | .otherLoad =>
    if ! jsTruthy x then .ok (.null, log)
    else if jsTypeof x == "object" then .ok (x, log)
    else
      -- `data = x.split(','); data.length > 0` always holds for a split
      let data := splitOnChar (jsToString x) ','
      (match env.objects (data.headD "") with
       | none => .error (.typeError "module.exports.objects[name] is not a constructor")
       | some wcfg => do
         let inst0 ← newInstance env R wcfg (.obj "Object" [])
         let r ← reload wcfg inst0 (optIntToJS (parseIntStr (data.getD 1 ""))) db log
         pure (r.2.1, r.2.2))
  | .arrBufLoad =>
    (match x with
     | .str s =>
       .ok (if s == "" then (.arr [], log)
            else (.arr ((splitOnChar s ',').map (fun y =>
              .buf ((splitOnChar y '|').map (fun z => ((parseIntStr z).getD 0).toNat)))), log))
     | _ => .error (.typeError "x.split is not a function"))
  | .arrIntLoad =>
    (match x with
     | .str s =>
       .ok (if s == "" then (.arr [], log)
            else (.arr ((splitOnChar s ',').map (fun y => optIntToJS (parseIntStr y))), log))
     | _ => .error (.typeError "x.split is not a function"))
  | .arrFloatLoad =>
    (match x with
     | .str s =>
       .ok (if s == "" then (.arr [], log)
            else (.arr ((splitOnChar s ',').map (fun y => optIntToJS (parseIntStr y))), log))
     | _ => .error (.typeError "x.split is not a function"))
  | .arrDateLoad =>
    (match x with
     | .str s =>
       .ok (if s == "" then (.arr [], log)
            else (.arr ((splitOnChar s ',').map (fun y =>
              if y != "null" then .date (jsDateParse y) else .null)), log))
     | _ => .error (.typeError "x.split is not a function"))
  | .arrTimeLoad =>
    -- source line 506 has no empty-string guard for Array[time]
    (match x with
     | .str s => .ok (.arr ((splitOnChar s ',').map (fun y => .str y)), log)
     | _ => .error (.typeError "x.split is not a function"))
  | .arrBangLoad =>
    (match x with
     | .str s =>
       .ok (if s == "" then (.arr [], log)
            else (.arr ((splitOnStr s "!&|&!").map (fun y => .str y)), log))
     | _ => .error (.typeError "x.split is not a function"))
  | .arrSetLoad =>
    (match x with
     | .str s =>
       .ok (if s == "" then (.arr [], log)
            else (.arr ((splitOnStr s "!&|&!").map (fun y =>
              .set (dedupFirst (splitOnChar y ',')))), log))
     | _ => .error (.typeError "x.split is not a function"))
  | .arrBoolLoad =>
    (match x with
     | .str s =>
       .ok (if s == "" then (.arr [], log)
            else (.arr ((splitOnChar s ',').map (fun y => .bool (y != ""))), log))
     | _ => .error (.typeError "x.split is not a function"))
  | .arrFuncLoad =>
    (match x with
     | .str s =>
       .ok (if s == "" then (.arr [], log)
            else (.arr ((splitOnStr s "!&|&!").map (fun y => env.evalCode y)), log))
     | _ => .error (.typeError "x.split is not a function"))
  | .arrObjLoad => .ok (jsonParse (jsToString x), log)
  | .arrOtherLoad =>
    (match x with
     | .arr elems =>
       .ok (.arr (elems.map (fun y =>
         env.constructObj (jsToString (jsField y "_constructorName")) y)), log)
     | .str s =>
       let parts := ((splitOnStr s "|").filter (fun q => q != "")).map
         (fun y => splitOnChar y ',')
       let constructors := parts.map (fun y => y.headD "")
       let objectIds := parts.map (fun y => parseIntStr (y.getD 1 ""))
       if s.data.length > 0 then
         -- `x[0]._constructorName` on a string is undefined, and the RegExp
         -- built from it (with its slashes taken literally) matches no
         -- constructor tag, so `every` holds only for an empty list
         (if constructors.isEmpty then
            match db with
            | none => .error (.typeError "db.awaitQuery is not a function")
            | some dbf =>
              let q := "SELECT * FROM " ++ tableName.getD "undefined" ++
                " WHERE id IN (?)"
              let res := dbf q [.arr (objectIds.map optIntToJS)]
              let log := log ++ [⟨q, [.arr (objectIds.map optIntToJS)]⟩]
              do
                let r ← loadRowsGo env R reload "undefined" res.rows (some dbf) log
                pure (.arr r.1, r.2)
          else
            do
              let r ← loadEachGo env R reload (constructors.zip objectIds) db log
              pure (.arr r.1, r.2))
       else
         .ok (.arr [], log)
     | _ => .error (.typeError "x.split is not a function"))

/-- The property loop of the database branch of `load` (lines 1253-1271),
one property list at a time. -/
def loadDbPropsListGo (env : Env) (R : Registry) (reload : Reload)
    (ptl : List String) (inverse : Bool) (row : JSVal) (dbf : Db)
    (tbl : Option String) :
    List PropConfig → JSVal → List QueryRec →
    Except JSError (JSVal × List QueryRec)
  | [], inst, log => .ok (inst, log)
  | p :: rest, inst, log =>
    if ! optTruthy p.store then
      loadDbPropsListGo env R reload ptl inverse row dbf tbl rest inst log
    else if skipFilter ptl inverse (p.name.getD "undefined") then
      loadDbPropsListGo env R reload ptl inverse row dbf tbl rest inst log
    else
      (match p.loadTransform with
       | none => .error (.typeError "property.loadTransform is not a function")
       | some t => do
         let r ← evalLoadTransformGo env R reload t
           (jsField row (p.name.getD "undefined")) (some dbf) tbl log
         let a ← accessorFn env R p inst r.1
         loadDbPropsListGo env R reload ptl inverse row dbf tbl rest a.1 r.2)

/-- The recursive `loadProperties` of the database branch: parent-first. -/
def loadDbPropsGo (env : Env) (R : Registry) (reload : Reload)
    (ptl : List String) (inverse : Bool) (row : JSVal) (dbf : Db) :
    ClassConfig → JSVal → List QueryRec →
    Except JSError (JSVal × List QueryRec)
  | .mk _ tbl _ props ext, inst, log => do
    let base ← match ext with
               | some parent =>
                 loadDbPropsGo env R reload ptl inverse row dbf parent inst log
               | none => pure (inst, log)
    loadDbPropsListGo env R reload ptl inverse row dbf tbl props base.1 base.2

/-- The property loop of the row branch of `load` (lines 1357-1375). -/
def loadRowPropsListGo (env : Env) (R : Registry) (reload : Reload)
    (ptl : List String) (inverse : Bool) (rowData : JSVal) (db : Option Db) :
    List PropConfig → JSVal → List QueryRec →
    Except JSError (JSVal × List QueryRec)
  | [], inst, log => .ok (inst, log)
  | p :: rest, inst, log =>
    if ! optTruthy p.store then
      loadRowPropsListGo env R reload ptl inverse rowData db rest inst log
    else if skipFilter ptl inverse (p.name.getD "undefined") then
      loadRowPropsListGo env R reload ptl inverse rowData db rest inst log
    else
      let v := jsField rowData (p.name.getD "undefined")
      if jsTypeof v == "undefined" then
        loadRowPropsListGo env R reload ptl inverse rowData db rest inst log
      else if jsTypeof v == "object" then do
        let a ← accessorFn env R p inst v
        loadRowPropsListGo env R reload ptl inverse rowData db rest a.1 log
      else
        (match p.loadTransform with
         | none => .error (.typeError "property.loadTransform is not a function")
         | some t => do
           let r ← evalLoadTransformGo env R reload t v db none log
           let a ← accessorFn env R p inst r.1
           loadRowPropsListGo env R reload ptl inverse rowData db rest a.1 r.2)

/-- The recursive `loadProperties` of the row branch: parent-first. -/
def loadRowPropsGo (env : Env) (R : Registry) (reload : Reload)
    (ptl : List String) (inverse : Bool) (rowData : JSVal) (db : Option Db) :
    ClassConfig → JSVal → List QueryRec →
    Except JSError (JSVal × List QueryRec)
  | .mk _ _ _ props ext, inst, log => do
    let base ← match ext with
               | some parent =>
                 loadRowPropsGo env R reload ptl inverse rowData db parent inst log
               | none => pure (inst, log)
    loadRowPropsListGo env R reload ptl inverse rowData db props base.1 base.2

/-- The `WHERE` selector and full SELECT statement `load` builds. -/
def loadQuery (cfg : ClassConfig) (ptl : List String) (inverse : Bool)
    (byOther : Bool) : String :=
  strDropRight ("SELECT " ++ loadSelectNames ptl inverse cfg) 2 ++
    " FROM " ++ cfg.tableName.getD "undefined" ++ " " ++
    (if byOther then
       "WHERE " ++ cfg.otherSearchProperty.getD "undefined" ++ " = ?"
     else "WHERE id = ?")

/-- `load(arg1, db, propertiesToLoad, options)`.  Result is
`(final instance state, JS return value (null on a lookup miss, else the
instance), query log)`.  The AJAX branch (number/string without a database)
needs a configured `url`, which no modelled class carries, so it reduces to
its error path. -/
def loadFnGo (env : Env) (R : Registry) (reload : Reload) (cfg : ClassConfig)
    (inst : JSVal) (arg1 : JSVal) (db : Option Db) (ptl : List String)
    (inverse : Bool) (log : List QueryRec) :
    Except JSError (JSVal × JSVal × List QueryRec) := do
  let inst ← initInstance env R cfg (.obj "Object" []) inst
  match arg1 with
  | .num _ | .nan | .str _ =>
    (match db with
     | some dbf =>
       if jsTypeof arg1 == "string" && cfg.otherSearchProperty.isNone then
         throw (.error "String argument is not a URL so loading from database, but no otherSearchProperty configured.")
       else do
         let q := loadQuery cfg ptl inverse
           (jsTypeof arg1 == "string" && cfg.otherSearchProperty.isSome)
         let res := dbf q [arg1]
         let log := log ++ [⟨q, [arg1]⟩]
         match res.rows.head? with
         | none => pure (inst, .null, log)
         | some row => do
           let r ← loadDbPropsGo env R reload ptl inverse row dbf cfg inst log
           pure (r.1, r.1, r.2)
     | none =>
       throw (.error "You can only load from a string or number without a database if a URL is configured."))
  | .obj c _ =>
    if c == "RowDataPacket" || c == "Object" then do
      let row := stripUnderscores arg1
      let r ← loadRowPropsGo env R reload ptl inverse row db cfg inst log
      pure (r.1, r.1, r.2)
    else
      throw (.typeError "Invalid signature.")
  | _ => throw (.typeError "Invalid signature.")

/-- The fuel-indexed re-entry family: each nested `load` issued by a
transform consumes one unit of fuel. -/
def reloadFuel (env : Env) (R : Registry) : Nat → Reload
  | 0 => fun _ _ _ _ _ => .error (.error "recursion fuel exhausted")
  | fuel + 1 => fun cfg inst arg db log =>
      loadFnGo env R (reloadFuel env R fuel) cfg inst arg db [] false log

/-- `load` at a given recursion budget. -/
def loadFn (env : Env) (R : Registry) (fuel : Nat) (cfg : ClassConfig)
    (inst : JSVal) (arg1 : JSVal) (db : Option Db) (ptl : List String)
    (inverse : Bool) (log : List QueryRec) :
    Except JSError (JSVal × JSVal × List QueryRec) :=
  loadFnGo env R (reloadFuel env R fuel) cfg inst arg1 db ptl inverse log

/-- A load transform at a given recursion budget. -/
def evalLoadTransform (env : Env) (R : Registry) (fuel : Nat) (tag : LoadTag)
    (x : JSVal) (db : Option Db) (tableName : Option String)
    (log : List QueryRec) : Except JSError (JSVal × List QueryRec) :=
  evalLoadTransformGo env R (reloadFuel env R fuel) tag x db tableName log

/-! ### Derived notions used by the theorems -/

/-- The stored, non-identity properties of a class, parent-first: exactly the
properties `insert` serializes. -/
def storedProps (cfg : ClassConfig) : List PropConfig :=
  (flatProps cfg).filter (fun p => !(p.name == some "id") && optTruthy p.store)

/-- Read a property off the instance and run its save transform — one
parameter of `insert`. -/
def savedValue (env : Env) (R : Registry) (inst : JSVal) (p : PropConfig) :
    Except JSError JSVal := do
  let r ← accessorFn env R p inst .undef
  match p.saveTransform with
  | none => throw (.typeError "property.saveTransform is not a function")
  | some t => evalSaveTransform env t r.2

/-- The `name + ", "` concatenation over a property list — the canonical form
of `insert`'s column fragment. -/
def insertColumnsOf (l : List PropConfig) : String :=
  String.join (l.map (fun p => p.name.getD "undefined" ++ ", "))

/-- The `"?, "` concatenation over a property list — the canonical form of
`insert`'s placeholder fragment. -/
def insertQMarksOf (l : List PropConfig) : String :=
  String.join (l.map (fun _ => "?, "))

/-! ### Concrete scenario data for the claims -/

/-- A neutral environment: no generated classes registered, construction
yields a tagged empty instance, no user transforms. -/
def baseEnv : Env := {
  objects := fun _ => none,
  constructObj := fun n _ => .obj n [],
  protoChain := fun _ => [],
  evalCode := fun _ => .func 0,
  callFn := fun _ => .undef,
  userFn := fun _ _ => .undef }

/-- `{ name: 'tags', type: 'array', arrayOf: { type: 'int' } }` on class `T`. -/
def pTagsRaw : PropConfig :=
  { name := some "tags", type := some "array", className := some "T",
    arrayOf := some { type := some "int" } }

def tagsRun : Except JSError (Registry × PropConfig) :=
  validatePropertyConfig ezobjectTypes pTagsRaw

/-- The validated `tags` property configuration. -/
def vTags : PropConfig :=
  match tagsRun with
  | .ok r => r.2
  | .error _ => {}

/-- The registry as left by validating `tags`. -/
def rTags : Registry :=
  match tagsRun with
  | .ok r => r.1
  | .error _ => []

/-- The same array-of-int property configured with `allowNull: true`. -/
def pTagsNullableRaw : PropConfig := { pTagsRaw with allowNull := some true }

def tagsNullableRun : Except JSError (Registry × PropConfig) :=
  validatePropertyConfig ezobjectTypes pTagsNullableRaw

def vTagsNullable : PropConfig :=
  match tagsNullableRun with
  | .ok r => r.2
  | .error _ => {}

def rTagsNullable : Registry :=
  match tagsNullableRun with
  | .ok r => r.1
  | .error _ => []

/-- `{ name: 'n', type: 'int' }` — a non-nullable scalar. -/
def pIntRaw : PropConfig := { name := some "n", type := some "int", className := some "T" }

def intRun : Except JSError (Registry × PropConfig) :=
  validatePropertyConfig ezobjectTypes pIntRaw

def vInt : PropConfig :=
  match intRun with
  | .ok r => r.2
  | .error _ => {}

def rInt : Registry :=
  match intRun with
  | .ok r => r.1
  | .error _ => []

/-- `{ name: 'd', type: 'date' }` — nullable by default. -/
def pDateRaw : PropConfig := { name := some "d", type := some "date", className := some "T" }

def dateRun : Except JSError (Registry × PropConfig) :=
  validatePropertyConfig ezobjectTypes pDateRaw

def vDate : PropConfig :=
  match dateRun with
  | .ok r => r.2
  | .error _ => {}

def rDate : Registry :=
  match dateRun with
  | .ok r => r.1
  | .error _ => []

/-- A property carrying a `mysqlType` override (`int` stored as `enum` would
be the enum case; here `bigint`): validating it rewrites the shared `int`
catalog entry. -/
def pIntOverrideRaw : PropConfig :=
  { name := some "a", type := some "int", mysqlType := some "bigint" }

def c5run : Except JSError (Registry × PropConfig) :=
  validatePropertyConfig ezobjectTypes pIntOverrideRaw

def c5Registry : Registry :=
  match c5run with
  | .ok r => r.1
  | .error _ => []

/-- A second, plain `int` property validated after the override: it resolves
to the same (now mutated) shared entry. -/
def pIntPlainRaw : PropConfig := { name := some "b", type := some "int" }

def c5run2 : Except JSError (Registry × PropConfig) :=
  validatePropertyConfig c5Registry pIntPlainRaw

/-- The two-property class of the C9 counterexample: a plain `int` property
followed by an `int` property whose `mysqlType` override is `enum`. -/
def cfgC9 : ClassConfig :=
  .mk "T9" none none
    [ { name := some "a", type := some "int" },
      { name := some "b", type := some "int", mysqlType := some "enum",
        values := some ["x"] } ] none

def c9run1 : Except JSError (Registry × ClassConfig) :=
  validateClassConfig ezobjectTypes cfgC9

def c9run2 : Except JSError (Registry × ClassConfig) :=
  match c9run1 with
  | .ok r => validateClassConfig r.1 r.2
  | e => e

/-- The `Worker` class of the C7 scenario: identity plus one text column. -/
def cfgWorkerRaw : ClassConfig :=
  .mk "Worker" (some "workers") none
    [ { name := some "id", type := some "int" },
      { name := some "label", type := some "text" } ] none

def workerRun : Except JSError (Registry × ClassConfig) :=
  validateClassConfig ezobjectTypes cfgWorkerRaw

/-- The `int` entry as validation leaves it (undefined flags filled with
false).  Agreement with the pipeline is proved below. -/
def intEntryV : EzType :=
  { type := "int", jsType := "number", mysqlType := "int", default := .num 0,
    hasLength := some true, hasDecimals := some false,
    lengthRequired := some false, hasUnsignedAndZeroFill := some true,
    hasCharacterSetAndCollate := some false, lengthRequiresDecimals := some false,
    setTransform := some .setT, validateInput := some .vInput,
    assignInput := some .aInput }

/-- The `text` entry as validation leaves it. -/
def textEntryV : EzType :=
  { type := "text", jsType := "string", mysqlType := "text", default := .str "",
    hasLength := some true, hasDecimals := some false,
    lengthRequired := some false, hasUnsignedAndZeroFill := some false,
    hasCharacterSetAndCollate := some true, lengthRequiresDecimals := some false,
    setTransform := some .setT, validateInput := some .vInput,
    assignInput := some .aInput }

/-- A validated `int` property literal (name and owning class abstracted). -/
def intPropV (nm cls : String) : PropConfig :=
  { name := some nm, type := some "int", originalType := some "int",
    className := some cls, ezobjectType := some 4,
    setTransform := some .setT, saveTransform := some .idSave,
    loadTransform := some .idLoad, validateInput := some .vInput,
    assignInput := some .aInput, store := some true, allowNull := some false }

/-- The `Array[int]` registry entry as validating `tags` leaves it
(capability flags filled with false; `hasLength` untouched by the
line-666 slip). -/
def arrIntEntryV : EzType :=
  { type := "array", jsType := "Array", mysqlType := "text", default := .arr [],
    arrayOfType := some "int", setTransform := some .setArrayT,
    saveTransform := some .arrJoinCommaSave, loadTransform := some .arrIntLoad,
    assignInput := some .aArrayInput,
    hasDecimals := some false, lengthRequired := some false,
    hasUnsignedAndZeroFill := some false, hasCharacterSetAndCollate := some false,
    lengthRequiresDecimals := some false }

/-- A validated `text` property literal. -/
def textPropV (nm cls : String) : PropConfig :=
  { name := some nm, type := some "text", originalType := some "text",
    className := some cls, ezobjectType := some 24,
    setTransform := some .setT, saveTransform := some .idSave,
    loadTransform := some .idLoad, validateInput := some .vInput,
    assignInput := some .aInput, store := some true, allowNull := some false }

/-- The validated `Worker` class configuration. -/
def vWorker : ClassConfig :=
  .mk "Worker" (some "workers") none
    [intPropV "id" "Worker", textPropV "label" "Worker"] none

/-- The registry after validating `Worker`. -/
def rWorker : Registry := (ezobjectTypes.set 4 intEntryV).set 24 textEntryV

/-- Environment in which the `Worker` class is registered. -/
def envWorker : Env :=
  { baseEnv with objects := fun n => if n == "Worker" then some vWorker else none }

/-- A `Worker` instance with identity 7 (the value `new Worker({id: 7,
label: 'Bob'})` produces; agreement proved below). -/
def worker7 : JSVal :=
  .obj "Worker"
    [("_constructorName", .str "Worker"), ("_id", .num 7), ("_label", .str "Bob")]

/-- A database holding exactly the `workers` row with id 7. -/
def dbWorker : Db := fun q _ =>
  if q = "SELECT id, label FROM workers WHERE id = ?" then
    { rows := [.obj "RowDataPacket" [("id", .num 7), ("label", .str "Bob")]] }
  else
    {}

/-- A database with no rows at all (every lookup misses). -/
def dbEmpty : Db := fun _ _ => {}

/-- A database whose inserts report generated identity 42. -/
def dbInsert42 : Db := fun _ _ => { insertId := 42 }

/-- The `T3` instance state after re-initialization (all properties back to
their defaults). -/
def c3instReset : JSVal :=
  .obj "T3" [("_constructorName", .str "T3"), ("_id", .num 0), ("_count", .num 0)]

/-- The result of deserializing the reference string `Worker,7`. -/
def c7load : Except JSError (JSVal × List QueryRec) :=
  evalLoadTransform envWorker rWorker 2 .otherLoad (.str "Worker,7")
    (some dbWorker) (some "workers") []

/-- The C3 scenario class: identity plus one `int` column `count`. -/
def cfgC3Raw : ClassConfig :=
  .mk "T3" (some "t3s") none
    [ { name := some "id", type := some "int" },
      { name := some "count", type := some "int" } ] none

def c3Run : Except JSError (Registry × ClassConfig) :=
  validateClassConfig ezobjectTypes cfgC3Raw

/-- The validated `T3` class configuration (agreement proved below). -/
def vC3 : ClassConfig :=
  .mk "T3" (some "t3s") none [intPropV "id" "T3", intPropV "count" "T3"] none

/-- The registry after validating `T3`. -/
def rC3 : Registry := ezobjectTypes.set 4 intEntryV

/-- A `T3` instance whose `count` was seeded to 5 (the value
`new T3({count: 5})` produces; agreement proved below). -/
def c3inst : JSVal :=
  .obj "T3" [("_constructorName", .str "T3"), ("_id", .num 0), ("_count", .num 5)]

/-- Loading a nonexistent identity (99) on the instance with `count = 5`. -/
def c3load : Except JSError (JSVal × JSVal × List QueryRec) :=
  loadFn baseEnv rC3 2 vC3 c3inst (.num 99) (some dbEmpty) [] false []

/-- The instance state after the missing-identity load. -/
def c3instAfter : JSVal :=
  match c3load with
  | .error _ => .undef
  | .ok r => r.1

/-- The JS return value of the missing-identity load. -/
def c3ret : JSVal :=
  match c3load with
  | .error _ => .undef
  | .ok r => r.2.1

/-- The `mysqlType` the second (plain) `int` property's resolved entry
carries after the first property's override was validated. -/
def c5SecondSees : Option String :=
  match c5run2 with
  | .ok r =>
    match entryOf r.1 r.2.ezobjectType with
    | .ok e => some e.mysqlType
    | .error _ => none
  | .error _ => none

/-- The `Worker` instance produced by deserializing `Worker,7`. -/
def c7loaded : JSVal :=
  match c7load with
  | .error _ => .undef
  | .ok r => r.1

/-- How many queries that deserialization issued. -/
def c7queries : Nat :=
  match c7load with
  | .ok r => r.2.length
  | .error _ => 0

/-! ## Theorems settling the claims -/

/-! Agreement of the literal validated configurations and instances with the
validation pipeline and constructor. -/

theorem c3_validation_agrees : c3Run = .ok (rC3, vC3) := rfl

theorem worker_validation_agrees : workerRun = .ok (rWorker, vWorker) := rfl

theorem c3inst_agrees :
    newInstance baseEnv rC3 vC3 (.obj "Object" [("count", .num 5)]) = .ok c3inst := rfl

theorem worker7_agrees :
    newInstance envWorker rWorker vWorker
      (.obj "Object" [("id", .num 7), ("label", .str "Bob")]) = .ok worker7 := rfl

/-- C1: appending an element of an invalid kind to a valid `Array[int]`
property value through the instrumented `push` does NOT fail: wholesale
assignment of `[1, "abc"]` raises the element TypeMismatch, but `push("abc")`
onto `[1, 2]` succeeds and appends the untyped element, because the
instrumentation routes the element through `setTransform` with the *array*
property's configuration (whose `jsType` `"Array"` matches no check).  This
refutes the claim as stated and exhibits the failing input. -/
theorem c1_array_mutation_bypasses_validation :
    setArrayTransformFn baseEnv rTags vTags (.arr [.num 1, .str "abc"]) =
      .error (.typeError "Non-numeric value passed as element of Array setter.") ∧
    arrayPushFn baseEnv rTags vTags [.num 1, .num 2] [.str "abc"] =
      .ok ([.num 1, .num 2, .str "abc"], 3) :=
  ⟨rfl, rfl⟩

/-- C2: null handling.  For scalar kinds the claim holds: a non-nullable
`int` property rejects null with a TypeMismatch and a (default-nullable)
`date` property accepts null with the getter then returning null.  But for an
array property configured `allowNull: true`, setting null still fails — the
`!(x instanceof Array)` check of `setArrayTransform` catches null before its
own null-propagating tail (`return x === null ? null : arr`) can run — so the
"array kinds alike" half of the claim is false on the code. -/
theorem c2_null_setter_scalar_ok_array_broken :
    vInt.allowNull = some false ∧
    setTransformFn baseEnv rInt vInt .null =
      .error (.typeError "Null value passed to setter that doesn't allow nulls.") ∧
    vDate.allowNull = some true ∧
    setTransformFn baseEnv rDate vDate .null = .ok .null ∧
    accessorFn baseEnv rDate vDate (.obj "T" []) .null =
      .ok (.obj "T" [("_d", .null)], .obj "T" [("_d", .null)]) ∧
    accessorFn baseEnv rDate vDate (.obj "T" [("_d", .null)]) .undef =
      .ok (.obj "T" [("_d", .null)], .null) ∧
    vTagsNullable.allowNull = some true ∧
    setArrayTransformFn baseEnv rTagsNullable vTagsNullable .null =
      .error (.typeError "Non-Array value passed to Array setter.") :=
  ⟨rfl, rfl, rfl, rfl, rfl, rfl, rfl, rfl⟩

set_option maxHeartbeats 1000000 in
set_option maxRecDepth 4000 in
/-- C3 counterexample: loading a nonexistent identity does return null, but
it does NOT leave already-set properties unchanged — `load` begins with
`this.init()`, so the `count` property set to 5 beforehand reads 0 (its
default) afterwards. -/
theorem c3_load_miss_resets_properties_cex :
    jsField c3inst "_count" = .num 5 ∧
    c3load.isOk = true ∧
    c3ret = .null ∧
    jsField c3instAfter "_count" = .num 0 :=
  ⟨rfl, rfl, rfl, rfl⟩

/-- C4 counterexample: an array property (`Array[int]`) with no `allowNull`
supplied validates with `allowNull = false`, not true: the default test reads
the resolved entry's `type`, which is `"array"` for every array kind and so
never in the nullable set `{other, date, datetime, timestamp}`. -/
theorem c4_array_allownull_defaults_false_cex :
    pTagsRaw.allowNull = none ∧
    tagsRun.isOk = true ∧
    vTags.allowNull = some false :=
  ⟨rfl, rfl, rfl⟩

/-- C5 counterexample: catalog entries are not immutable.  Validating a
property `{ name: 'a', type: 'int', mysqlType: 'bigint' }` overwrites the
shared `int` entry's `mysqlType` in the registry, so the registry after
validation differs from the pristine catalog. -/
theorem c5_registry_entry_mutated_cex :
    c5run.isOk = true ∧
    (ezobjectTypes.get? 4).map EzType.mysqlType = some "int" ∧
    (c5Registry.get? 4).map EzType.mysqlType = some "bigint" ∧
    c5Registry ≠ ezobjectTypes := by
  refine ⟨rfl, rfl, rfl, ?_⟩
  intro h
  have h2 : (some "bigint" : Option String) = some "int" := by
    calc (some "bigint" : Option String)
        = (c5Registry.get? 4).map EzType.mysqlType := by rfl
      _ = (ezobjectTypes.get? 4).map EzType.mysqlType := by rw [h]
      _ = some "int" := by rfl
  simp at h2

/-- C5 amended: the mutation is visible across properties — a second, plain
`int` property validated afterwards resolves to the shared entry and sees
`mysqlType = "bigint"` instead of `"int"`. -/
theorem c5_mutation_visible_to_other_properties :
    c5run2.isOk = true ∧ c5SecondSees = some "bigint" :=
  ⟨rfl, rfl⟩

set_option maxHeartbeats 1000000 in
set_option maxRecDepth 4000 in
/-- C7: serializing a `Worker` instance with identity 7 yields the reference
string `"Worker,7"` (class tag and identity); deserializing that reference
issues exactly one query against the external service and yields a `Worker`
instance whose identity is 7. -/
theorem c7_worker_reference_roundtrip :
    evalSaveTransform envWorker .otherSave worker7 = .ok (.str "Worker,7") ∧
    c7load.isOk = true ∧
    jsCtorName c7loaded = "Worker" ∧
    jsField c7loaded "_id" = .num 7 ∧
    c7queries = 1 :=
  ⟨rfl, rfl, rfl, rfl, rfl⟩

/-- C8: the `Array[time]` kind breaks the empty-array round trip.  Its save
transform yields `""` on `[]` like every other array kind, but its load
transform is the only one without the `x === '' ? [] : ...` guard, so the
round trip yields the one-element array `[""]`, while e.g. `Array[int]`
round-trips `[]` to `[]`. -/
theorem c8_time_array_empty_roundtrip :
    (ezobjectTypes.find? (fun e => e.type == "array" && e.arrayOfType == some "time")).map
        (fun e => (e.saveTransform, e.loadTransform)) =
      some (some .arrJoinCommaSave, some .arrTimeLoad) ∧
    evalSaveTransform baseEnv .arrJoinCommaSave (.arr []) = .ok (.str "") ∧
    evalLoadTransform baseEnv ezobjectTypes 1 .arrTimeLoad (.str "") none none [] =
      .ok (.arr [.str ""], []) ∧
    ([JSVal.str ""] ≠ ([] : List JSVal)) ∧
    evalLoadTransform baseEnv ezobjectTypes 1 .arrIntLoad (.str "") none none [] =
      .ok (.arr [], []) := by
  refine ⟨rfl, rfl, rfl, ?_, rfl⟩
  simp

/-- C3 amended: for any class and any database in which the lookup matches no
row, `load` by a numeric identity returns null (not a failure) — but only
after re-initializing the instance, so the final instance state is exactly
the re-initialized one (every property back to its default), regardless of
what was set before. -/
theorem c3_load_miss_returns_null_after_reinit
    (env : Env) (R : Registry) (fuel : Nat) (cfg : ClassConfig) (inst : JSVal)
    (n : Int) (db : Db) (ptl : List String) (inverse : Bool) (log : List QueryRec)
    (inst' : JSVal)
    (hdb : ∀ q ps, (db q ps).rows = [])
    (hinit : initInstance env R cfg (.obj "Object" []) inst = .ok inst') :
    loadFn env R fuel cfg inst (.num n) (some db) ptl inverse log =
      .ok (inst', .null, log ++ [⟨loadQuery cfg ptl inverse false, [.num n]⟩]) := by
  unfold loadFn loadFnGo
  rw [hinit]
  simp [Except.bind, jsTypeof, hdb]

/-- Witness for C3 amended: the concrete `T3` scenario — instance with
`count = 5`, lookup of identity 99 against the empty database — returns null
with the instance reset to defaults. -/
theorem c3_load_miss_returns_null_after_reinit_witness :
    loadFn baseEnv rC3 2 vC3 c3inst (.num 99) (some dbEmpty) [] false [] =
      .ok (c3instReset, .null, [⟨loadQuery vC3 [] false false, [.num 99]⟩]) :=
  c3_load_miss_returns_null_after_reinit baseEnv rC3 2 vC3 c3inst 99 dbEmpty
    [] false [] c3instReset (fun _ _ => rfl) rfl

/-- C9 counterexample: re-running `validateClassConfig` on its own successful
output can fail.  The first run lets property `b`'s `mysqlType: 'enum'`
override rewrite the shared `int` entry; on the second run property `a`
(validated first, without a `values` array) reads the mutated entry and hits
the enum `values` check. -/
theorem c9_class_revalidation_fails_cex :
    c9run1.isOk = true ∧
    c9run2 = .error (.error "Property used with missing or invalid values array.") :=
  ⟨rfl, rfl⟩



/-! ### Generic `Except` reduction lemmas and accessor-level facts -/

theorem except_bind_ok {α β ε : Type} (a : α) (f : α → Except ε β) :
    (Except.ok a >>= f) = f a := rfl

theorem except_bind_error {α β ε : Type} (e : ε) (f : α → Except ε β) :
    ((Except.error e : Except ε α) >>= f) = .error e := rfl

theorem except_throw_eq_error {α ε : Type} (e : ε) :
    (throw e : Except ε α) = .error e := rfl

theorem isUndef_eq_false {x : JSVal} (hx : x ≠ .undef) : isUndef x = false := by
  cases x <;> first | rfl | exact absurd rfl hx

theorem findSet (fs : List (String × JSVal)) (k : String) (v : JSVal) :
    (setFieldList fs k v).find? (fun kv => kv.1 = k) = some (k, v) := by
  induction fs with
  | nil => simp [setFieldList, List.find?]
  | cons kv rest ih =>
    by_cases h : kv.1 = k
    · simp [setFieldList, h, List.find?]
    · simp [setFieldList, h, List.find?, ih]

theorem jsField_jsSetField (c : String) (fs : List (String × JSVal)) (k : String)
    (v : JSVal) : jsField (jsSetField (.obj c fs) k v) k = v := by
  simp [jsField, jsSetField, findSet]

theorem jsParseInt_ne_undef (x : JSVal) : jsParseInt x ≠ .undef := by
  unfold jsParseInt
  split <;> simp

theorem setTransformValue_ne_undef (env : Env) (e : EzType) (p : PropConfig)
    (x : JSVal)
    (henv : ∀ n w, env.constructObj n w ≠ .undef)
    (hx : x ≠ .undef) :
    setTransformValue env e p x ≠ .undef := by
  unfold setTransformValue
  split
  · split <;> simp
  · split
    · split
      · simp
      · exact jsParseInt_ne_undef x
    · split
      · split
        · simp
        · exact jsParseInt_ne_undef x
      · split
        · split <;> simp
        · split
          · simp
          · split
            · exact henv _ _
            · split
              · simp
              · exact hx

theorem setArrayTransformFn_ok_is_arr (env : Env) (R : Registry) (p : PropConfig)
    (x v : JSVal) (h : setArrayTransformFn env R p x = .ok v) :
    ∃ elems, v = .arr elems := by
  unfold setArrayTransformFn at h
  split at h
  · exact Except.noConfusion h
  · split at h <;> try exact Except.noConfusion h
    rename_i elems hcond
    cases hE : entryOf R (p.arrayOf.getD {}).ezobjectType with
    | error e => rw [hE, except_bind_error] at h; exact Except.noConfusion h
    | ok ae =>
      rw [hE, except_bind_ok] at h
      cases hC : setArrayTransformChecks env ae (p.arrayOf.getD {}) elems with
      | error e => rw [hC, except_bind_error] at h; exact Except.noConfusion h
      | ok u =>
        rw [hC, except_bind_ok] at h
        exact ⟨_, (Except.ok.inj h).symm⟩


theorem setTransformFn_ok_val (env : Env) (R : Registry) (p : PropConfig)
    (x v : JSVal) (h : setTransformFn env R p x = .ok v) :
    ∃ e, entryOf R p.ezobjectType = .ok e ∧ v = setTransformValue env e p x := by
  unfold setTransformFn at h
  cases hE : entryOf R p.ezobjectType with
  | error e => rw [hE, except_bind_error] at h; exact Except.noConfusion h
  | ok e =>
    rw [hE, except_bind_ok] at h
    cases hC : setTransformChecks env e p x with
    | error er => rw [hC, except_bind_error] at h; exact Except.noConfusion h
    | ok u =>
      rw [hC, except_bind_ok] at h
      exact ⟨e, rfl, (Except.ok.inj h).symm⟩

/-- C10: the generated accessor (index.js lines 1047-1057) treats an explicit
`undefined` argument exactly like a zero-argument call: the instance is
returned unchanged and, absent a `getTransform`, the current slot value is
returned; and after any successful setter call through the registry's set
transforms (the shared `setTransform`, the shared `setArrayTransform`, or the
identity `defaultTransform`) the internal `_name` slot never holds
`undefined` — the scalar transform always produces a string, number, boolean,
date, constructed object, null, or the original (non-undefined) value, and the
array transform always produces an array. -/
theorem c10_accessor (env : Env) (R : Registry) (p : PropConfig) (inst : JSVal)
    (arg : JSVal)
    (henv : ∀ n w, env.constructObj n w ≠ .undef)
    (ht : p.setTransform = some .setT ∨ p.setTransform = some .setArrayT ∨
          p.setTransform = some .idT)
    (c : String) (fs : List (String × JSVal)) (hobj : inst = .obj c fs) :
    (∀ out, accessorFn env R p inst .undef = .ok out → out.1 = inst) ∧
    (p.getTransform = none →
      accessorFn env R p inst .undef =
        .ok (inst, jsField inst ("_" ++ p.name.getD "undefined"))) ∧
    (∀ out, arg ≠ .undef → accessorFn env R p inst arg = .ok out →
      jsField out.1 ("_" ++ p.name.getD "undefined") ≠ .undef) := by
  refine ⟨?_, ?_, ?_⟩
  · intro out h
    unfold accessorFn at h
    rw [show isUndef .undef = true from rfl] at h
    simp only [if_true] at h
    cases hG : p.getTransform with
    | none =>
      simp only [hG] at h
      exact (congrArg Prod.fst (Except.ok.inj h)).symm
    | some g =>
      simp only [hG] at h
      cases hV : evalGetTransform env g (jsField inst ("_" ++ p.name.getD "undefined")) with
      | error e => rw [hV, except_bind_error] at h; exact Except.noConfusion h
      | ok v =>
        rw [hV, except_bind_ok] at h
        exact (congrArg Prod.fst (Except.ok.inj h)).symm
  · intro hG
    unfold accessorFn
    rw [show isUndef .undef = true from rfl]
    simp only [if_true, hG]
    rfl
  · intro out harg h
    unfold accessorFn at h
    rw [isUndef_eq_false harg] at h
    simp only [Bool.false_eq_true, if_false] at h
    rcases ht with ht | ht | ht <;> simp only [ht] at h
    · cases hV : setTransformFn env R p arg with
      | error e => rw [show evalSetTransform env R p .setT arg = setTransformFn env R p arg from rfl, hV, except_bind_error] at h; exact Except.noConfusion h
      | ok v =>
        rw [show evalSetTransform env R p .setT arg = setTransformFn env R p arg from rfl, hV, except_bind_ok] at h
        obtain ⟨e, _, hval⟩ := setTransformFn_ok_val env R p arg v hV
        have hv : v ≠ .undef := hval ▸ setTransformValue_ne_undef env e p arg henv harg
        have hout : out.1 = jsSetField inst ("_" ++ p.name.getD "undefined") v :=
          (congrArg Prod.fst (Except.ok.inj h)).symm
        rw [hout, hobj, jsField_jsSetField]
        exact hv
    · cases hV : setArrayTransformFn env R p arg with
      | error e => rw [show evalSetTransform env R p .setArrayT arg = setArrayTransformFn env R p arg from rfl, hV, except_bind_error] at h; exact Except.noConfusion h
      | ok v =>
        rw [show evalSetTransform env R p .setArrayT arg = setArrayTransformFn env R p arg from rfl, hV, except_bind_ok] at h
        obtain ⟨elems, hval⟩ := setArrayTransformFn_ok_is_arr env R p arg v hV
        have hout : out.1 = jsSetField inst ("_" ++ p.name.getD "undefined") v :=
          (congrArg Prod.fst (Except.ok.inj h)).symm
        rw [hout, hobj, jsField_jsSetField, hval]
        simp
    · rw [show evalSetTransform env R p .idT arg = .ok arg from rfl, except_bind_ok] at h
      have hout : out.1 = jsSetField inst ("_" ++ p.name.getD "undefined") arg :=
        (congrArg Prod.fst (Except.ok.inj h)).symm
      rw [hout, hobj, jsField_jsSetField]
      exact harg



/-- C10 witness: the validated scalar `int` property `n` on class `T`: an
`undefined` argument reads the slot back and leaves the instance alone, and
setting `7` leaves a non-undefined slot. -/
theorem c10_accessor_witness :
    accessorFn baseEnv rWorker (intPropV "n" "T") (.obj "T" [("_n", .num 1)]) .undef =
      .ok (.obj "T" [("_n", .num 1)],
           jsField (.obj "T" [("_n", .num 1)])
             ("_" ++ (intPropV "n" "T").name.getD "undefined")) ∧
    jsField (jsSetField (JSVal.obj "T" [("_n", .num 1)])
        ("_" ++ (intPropV "n" "T").name.getD "undefined") (.num 7))
      ("_" ++ (intPropV "n" "T").name.getD "undefined") ≠ .undef := by
  have h := c10_accessor baseEnv rWorker (intPropV "n" "T")
    (.obj "T" [("_n", .num 1)]) (.num 7)
    (fun n w hx => JSVal.noConfusion hx) (Or.inl rfl) "T" [("_n", .num 1)] rfl
  refine ⟨h.2.1 rfl, ?_⟩
  exact h.2.2
    (jsSetField (JSVal.obj "T" [("_n", .num 1)])
       ("_" ++ (intPropV "n" "T").name.getD "undefined") (.num 7),
     jsSetField (JSVal.obj "T" [("_n", .num 1)])
       ("_" ++ (intPropV "n" "T").name.getD "undefined") (.num 7))
    (fun hx => JSVal.noConfusion hx) rfl


theorem sjoin_foldl (l : List String) : ∀ s : String,
    l.foldl (fun r t => r ++ t) s = s ++ String.join l := by
  induction l with
  | nil => intro s; exact (String.append_empty s).symm
  | cons x xs ih =>
    intro s
    show xs.foldl _ (s ++ x) = _
    rw [ih (s ++ x)]
    have h2 : String.join (x :: xs) = x ++ String.join xs := by
      show xs.foldl _ ("" ++ x) = _
      rw [ih ("" ++ x), String.empty_append]
    rw [h2, String.append_assoc]

theorem sjoin_cons (x : String) (xs : List String) :
    String.join (x :: xs) = x ++ String.join xs := by
  show xs.foldl _ ("" ++ x) = _
  rw [sjoin_foldl xs ("" ++ x), String.empty_append]

theorem sjoin_nil : String.join [] = "" := rfl

theorem skip_keep_true {p : PropConfig}
    (h : (p.name == some "id" || ! optTruthy p.store) = true) :
    (!(p.name == some "id") && optTruthy p.store) = false := by
  revert h; cases p.name == some "id" <;> cases optTruthy p.store <;> simp

theorem skip_keep_false {p : PropConfig}
    (h : (p.name == some "id" || ! optTruthy p.store) = false) :
    (!(p.name == some "id") && optTruthy p.store) = true := by
  revert h; cases p.name == some "id" <;> cases optTruthy p.store <;> simp

theorem foldl_skip_join (f : PropConfig → String) (props : List PropConfig) :
    ∀ s : String,
    props.foldl (fun s p =>
        if p.name == some "id" || ! optTruthy p.store then s else s ++ f p) s =
      s ++ String.join ((props.filter
        (fun p => !(p.name == some "id") && optTruthy p.store)).map f) := by
  induction props with
  | nil => intro s; exact (String.append_empty s).symm
  | cons p ps ih =>
    intro s
    rw [List.foldl_cons]
    cases hskip : (p.name == some "id" || ! optTruthy p.store) with
    | true =>
      rw [if_pos rfl, List.filter_cons, skip_keep_true hskip]
      simp only [Bool.false_eq_true, if_false]
      exact ih s
    | false =>
      rw [if_neg (fun hc => Bool.noConfusion hc), List.filter_cons,
        skip_keep_false hskip, if_pos rfl]
      simp only [List.map_cons, sjoin_cons]
      rw [ih (s ++ f p), String.append_assoc]


theorem sjoin_append (l1 l2 : List String) :
    String.join (l1 ++ l2) = String.join l1 ++ String.join l2 := by
  induction l1 with
  | nil =>
    rw [List.nil_append]
    show String.join l2 = "" ++ String.join l2
    exact (String.empty_append _).symm
  | cons x xs ih =>
    rw [List.cons_append, sjoin_cons, sjoin_cons, ih, String.append_assoc]

theorem insertColumnsOf_append (a b : List PropConfig) :
    insertColumnsOf (a ++ b) = insertColumnsOf a ++ insertColumnsOf b := by
  unfold insertColumnsOf
  rw [List.map_append, sjoin_append]

theorem names_fold_fun_eq :
    (fun (s : String) (p : PropConfig) =>
      if p.name == some "id" || ! optTruthy p.store then s
      else s ++ p.name.getD "undefined" ++ ", ") =
    (fun (s : String) (p : PropConfig) =>
      if p.name == some "id" || ! optTruthy p.store then s
      else s ++ (p.name.getD "undefined" ++ ", ")) := by
  funext s p
  cases h : (p.name == some "id" || ! optTruthy p.store) <;>
    simp [String.append_assoc]

theorem insertNames_eq : ∀ cfg : ClassConfig,
    insertNames cfg = insertColumnsOf (storedProps cfg)
  | .mk n t a props ext => by
    cases ext with
    | none =>
      show "" ++ props.foldl _ "" = insertColumnsOf (storedProps (.mk n t a props none))
      rw [String.empty_append, names_fold_fun_eq,
        foldl_skip_join (fun p => p.name.getD "undefined" ++ ", ") props "",
        String.empty_append]
      show _ = insertColumnsOf (List.filter _ ([] ++ props))
      rw [List.nil_append]
      rfl
    | some parent =>
      have ih := insertNames_eq parent
      show insertNames parent ++ props.foldl _ "" =
        insertColumnsOf (storedProps (.mk n t a props (some parent)))
      rw [ih, names_fold_fun_eq,
        foldl_skip_join (fun p => p.name.getD "undefined" ++ ", ") props "",
        String.empty_append]
      show _ = insertColumnsOf (List.filter _ (flatProps parent ++ props))
      rw [List.filter_append, insertColumnsOf_append]
      rfl


theorem insertPlaceholders_eq : ∀ cfg : ClassConfig,
    insertPlaceholders cfg = insertQMarksOf (storedProps cfg)
  | .mk n t a props ext => by
    cases ext with
    | none =>
      show "" ++ props.foldl _ "" = insertQMarksOf (storedProps (.mk n t a props none))
      rw [String.empty_append,
        foldl_skip_join (fun _ => "?, ") props "", String.empty_append]
      show _ = insertQMarksOf (List.filter _ ([] ++ props))
      rw [List.nil_append]
      rfl
    | some parent =>
      have ih := insertPlaceholders_eq parent
      show insertPlaceholders parent ++ props.foldl _ "" =
        insertQMarksOf (storedProps (.mk n t a props (some parent)))
      rw [ih, foldl_skip_join (fun _ => "?, ") props "", String.empty_append]
      show _ = insertQMarksOf (List.filter _ (flatProps parent ++ props))
      rw [List.filter_append]
      show _ = String.join (List.map _ (_ ++ _))
      rw [List.map_append, sjoin_append]
      rfl


theorem except_pure_bind {α β ε : Type} (a : α) (f : α → Except ε β) :
    ((pure a : Except ε α) >>= f) = f a := rfl

theorem except_bind_assoc {α β γ ε : Type} (x : Except ε α)
    (f : α → Except ε β) (g : β → Except ε γ) :
    ((x >>= f) >>= g) = x >>= fun a => f a >>= g := by
  cases x <;> rfl

theorem step_savedValue (env : Env) (R : Registry) (inst : JSVal)
    (acc : List JSVal) (p : PropConfig) :
    (do let r ← accessorFn env R p inst .undef
        match p.saveTransform with
        | none => throw (.typeError "property.saveTransform is not a function")
        | some t => do
          let sv ← evalSaveTransform env t r.2
          pure (acc ++ [sv]) : Except JSError (List JSVal)) =
    (do let sv ← savedValue env R inst p
        pure (acc ++ [sv])) := by
  unfold savedValue
  cases hA : accessorFn env R p inst .undef with
  | error e => rfl
  | ok r =>
    cases hS : p.saveTransform with
    | none => rfl
    | some t => rfl

theorem foldlM_saved (env : Env) (R : Registry) (inst : JSVal)
    (props : List PropConfig) : ∀ acc : List JSVal,
    (props.foldlM (fun acc p =>
      if p.name == some "id" || ! optTruthy p.store then pure acc
      else do
        let r ← accessorFn env R p inst .undef
        match p.saveTransform with
        | none => throw (.typeError "property.saveTransform is not a function")
        | some t => do
          let sv ← evalSaveTransform env t r.2
          pure (acc ++ [sv])) acc : Except JSError (List JSVal)) =
    (do let l ← (props.filter
          (fun p => !(p.name == some "id") && optTruthy p.store)).mapM
            (savedValue env R inst)
        pure (acc ++ l)) := by
  induction props with
  | nil =>
    intro acc
    rw [List.foldlM_nil, List.filter_nil, List.mapM_nil, except_pure_bind, List.append_nil]
  | cons p ps ih =>
    intro acc
    simp only [List.foldlM_cons]
    cases hskip : (p.name == some "id" || ! optTruthy p.store) with
    | true =>
      rw [if_pos rfl, except_pure_bind, List.filter_cons, skip_keep_true hskip]
      simp only [Bool.false_eq_true, if_false]
      exact ih acc
    | false =>
      rw [if_neg (fun hc => Bool.noConfusion hc),
        step_savedValue env R inst acc p, List.filter_cons,
        skip_keep_false hskip, if_pos rfl, List.mapM_cons]
      cases hS : savedValue env R inst p with
      | error e => rfl
      | ok sv =>
        simp only [except_bind_ok, except_pure_bind, except_bind_assoc]
        rw [ih (acc ++ [sv])]
        cases hM : (ps.filter
            (fun p => !(p.name == some "id") && optTruthy p.store)).mapM
              (savedValue env R inst) with
        | error e => rfl
        | ok l =>
          simp only [except_bind_ok, except_pure_bind,
            List.append_assoc, List.singleton_append]

theorem insertParams_eq (env : Env) (R : Registry) :
    ∀ (cfg : ClassConfig) (inst : JSVal),
    insertParams env R cfg inst = (storedProps cfg).mapM (savedValue env R inst)
  | .mk n t a props ext, inst => by
    cases ext with
    | none =>
      show (pure [] >>= fun base => props.foldlM _ base) = _
      rw [except_pure_bind, foldlM_saved env R inst props []]
      show _ = (List.filter _ ([] ++ props)).mapM _
      rw [List.nil_append]
      cases hM : (props.filter
          (fun p => !(p.name == some "id") && optTruthy p.store)).mapM
            (savedValue env R inst) with
      | error e => rfl
      | ok l =>
        rw [except_bind_ok, List.nil_append]
        rfl
    | some parent =>
      have ih := insertParams_eq env R parent inst
      show (insertParams env R parent inst >>= fun base => props.foldlM _ base) = _
      rw [ih]
      show _ = (List.filter _ (flatProps parent ++ props)).mapM _
      rw [List.filter_append, List.mapM_append]
      cases hP : (storedProps parent).mapM (savedValue env R inst) with
      | error e =>
        rw [show (List.filter (fun p => !(p.name == some "id") && optTruthy p.store)
          (flatProps parent)).mapM (savedValue env R inst) =
            (.error e : Except JSError (List JSVal)) from hP]
        rfl
      | ok base =>
        rw [show (List.filter (fun p => !(p.name == some "id") && optTruthy p.store)
          (flatProps parent)).mapM (savedValue env R inst) =
            (.ok base : Except JSError (List JSVal)) from hP,
          except_bind_ok, foldlM_saved env R inst props base]
        cases hM : (props.filter
            (fun p => !(p.name == some "id") && optTruthy p.store)).mapM
              (savedValue env R inst) with
        | error e => rfl
        | ok l => simp only [except_bind_ok, except_pure_bind]


/-- C6: `insert` walks the full inherited property list parent-first in
declaration order, skipping the identity property `id` and every property
with `store` false: its parameter list is exactly the `saveTransform`-image
of `storedProps cfg` in order, its column fragment and placeholder fragment
are the same `storedProps cfg` walk (so column order matches parameter
order position for position), the issued statement is logged once with
those parameters, and on success the returned generated identity is written
back into the instance through the `id` property's accessor. -/
theorem c6_insert_order (env : Env) (R : Registry) (cfg : ClassConfig)
    (inst : JSVal) (db : Db) (log : List QueryRec)
    (params : List JSVal) (idp : PropConfig) (r : JSVal × JSVal)
    (inst' : JSVal) (log' : List QueryRec)
    (hp : insertParams env R cfg inst = .ok params)
    (hid : (flatProps cfg).find? (fun p => p.name == some "id") = some idp)
    (hacc : accessorFn env R idp inst
      (.num (db (insertQuery cfg) params).insertId) = .ok r)
    (h : insertFn env R cfg inst db log = .ok (inst', log')) :
    (storedProps cfg).mapM (savedValue env R inst) = .ok params ∧
    insertNames cfg = insertColumnsOf (storedProps cfg) ∧
    insertPlaceholders cfg = insertQMarksOf (storedProps cfg) ∧
    inst' = r.1 ∧
    log' = log ++ [⟨insertQuery cfg, params⟩] := by
  refine ⟨?_, insertNames_eq cfg, insertPlaceholders_eq cfg, ?_, ?_⟩
  · rw [← insertParams_eq env R cfg inst]; exact hp
  all_goals {
    unfold insertFn at h
    rw [hp] at h
    simp only [except_bind_ok] at h
    rw [hid] at h
    simp only [] at h
    rw [hacc] at h
    simp only [except_bind_ok] at h
    have hpair := Except.ok.inj h
    first
    | exact (congrArg Prod.fst hpair).symm
    | exact (congrArg Prod.snd hpair).symm
  }


/-- C6 witness: inserting the `T3` instance with `count = 5` through
`dbInsert42` serializes exactly the stored non-identity property `count`,
logs one INSERT with parameter `5`, and writes the generated identity 42
back through the `id` accessor. -/
theorem c6_insert_order_witness :
    (storedProps vC3).mapM (savedValue baseEnv rC3 c3inst) =
      .ok [JSVal.num 5] ∧
    insertNames vC3 = insertColumnsOf (storedProps vC3) ∧
    insertPlaceholders vC3 = insertQMarksOf (storedProps vC3) ∧
    (JSVal.obj "T3" [("_constructorName", .str "T3"), ("_id", .num 42),
      ("_count", .num 5)]) =
      ((JSVal.obj "T3" [("_constructorName", .str "T3"), ("_id", .num 42),
          ("_count", .num 5)],
        JSVal.obj "T3" [("_constructorName", .str "T3"), ("_id", .num 42),
          ("_count", .num 5)]) : JSVal × JSVal).1 ∧
    ([⟨insertQuery vC3, [JSVal.num 5]⟩] : List QueryRec) =
      [] ++ [⟨insertQuery vC3, [JSVal.num 5]⟩] :=
  c6_insert_order baseEnv rC3 vC3 c3inst dbInsert42 [] [JSVal.num 5]
    (intPropV "id" "T3")
    (JSVal.obj "T3" [("_constructorName", .str "T3"), ("_id", .num 42),
       ("_count", .num 5)],
     JSVal.obj "T3" [("_constructorName", .str "T3"), ("_id", .num 42),
       ("_count", .num 5)])
    (JSVal.obj "T3" [("_constructorName", .str "T3"), ("_id", .num 42),
      ("_count", .num 5)])
    [⟨insertQuery vC3, [JSVal.num 5]⟩]
    rfl rfl rfl rfl


theorem vpcNormalizeType_allowNull (p : PropConfig) :
    (vpcNormalizeType p).allowNull = p.allowNull := by
  unfold vpcNormalizeType
  split
  all_goals simp only []
  all_goals split <;> rfl

theorem vpcAttach_allowNull (R : Registry) (p p' : PropConfig)
    (h : vpcAttach R p = .ok p') : p'.allowNull = p.allowNull := by
  unfold vpcAttach at h
  split at h
  · split at h
    · exact Except.noConfusion h
    · split at h
      · exact Except.noConfusion h
      · simp only [] at h
        split at h
        · exact Except.noConfusion h
        · obtain rfl := Except.ok.inj h
          rfl
  · obtain rfl := Except.ok.inj h
    rfl

theorem fillSet_allowNull (e : EzType) (p : PropConfig) :
    (fillSet e p).allowNull = p.allowNull := by
  unfold fillSet; split <;> rfl

theorem fillSave_allowNull (e : EzType) (p : PropConfig) :
    (fillSave e p).allowNull = p.allowNull := by
  unfold fillSave; split <;> rfl

theorem fillLoad_allowNull (e : EzType) (p : PropConfig) :
    (fillLoad e p).allowNull = p.allowNull := by
  unfold fillLoad; split <;> rfl

theorem fillValidate_allowNull (e : EzType) (p : PropConfig) :
    (fillValidate e p).allowNull = p.allowNull := by
  unfold fillValidate; split <;> rfl

theorem fillAssign_allowNull (e : EzType) (p : PropConfig) :
    (fillAssign e p).allowNull = p.allowNull := by
  unfold fillAssign; split <;> rfl

theorem fillStore_allowNull (p : PropConfig) :
    (fillStore p).allowNull = p.allowNull := by
  unfold fillStore; split <;> rfl

theorem fillSet_ezty (e : EzType) (p : PropConfig) :
    (fillSet e p).ezobjectType = p.ezobjectType := by
  unfold fillSet; split <;> rfl

theorem fillSave_ezty (e : EzType) (p : PropConfig) :
    (fillSave e p).ezobjectType = p.ezobjectType := by
  unfold fillSave; split <;> rfl

theorem fillLoad_ezty (e : EzType) (p : PropConfig) :
    (fillLoad e p).ezobjectType = p.ezobjectType := by
  unfold fillLoad; split <;> rfl

theorem fillValidate_ezty (e : EzType) (p : PropConfig) :
    (fillValidate e p).ezobjectType = p.ezobjectType := by
  unfold fillValidate; split <;> rfl

theorem fillAssign_ezty (e : EzType) (p : PropConfig) :
    (fillAssign e p).ezobjectType = p.ezobjectType := by
  unfold fillAssign; split <;> rfl

theorem fillStore_ezty (p : PropConfig) :
    (fillStore p).ezobjectType = p.ezobjectType := by
  unfold fillStore; split <;> rfl

theorem fillAllowNull_ezty (e : EzType) (p : PropConfig) :
    (fillAllowNull e p).ezobjectType = p.ezobjectType := by
  unfold fillAllowNull
  split
  · rfl
  · split <;> rfl

theorem vpcFill_allowNull (R : Registry) (p p' : PropConfig) (e : EzType)
    (hE : entryOf R p.ezobjectType = .ok e)
    (hnull : p.allowNull = none)
    (h : vpcFill R p = .ok p') :
    p'.ezobjectType = p.ezobjectType ∧
    p'.allowNull = some (e.type == "other" || e.type == "date" ||
      e.type == "datetime" || e.type == "timestamp") := by
  unfold vpcFill at h
  rw [hE, except_bind_ok] at h
  obtain rfl := Except.ok.inj h
  have hq : (fillStore (fillAssign e (fillValidate e
      (fillLoad e (fillSave e (fillSet e p)))))).allowNull = none := by
    rw [fillStore_allowNull, fillAssign_allowNull, fillValidate_allowNull,
      fillLoad_allowNull, fillSave_allowNull, fillSet_allowNull, hnull]
  constructor
  · rw [fillAllowNull_ezty, fillStore_ezty, fillAssign_ezty, fillValidate_ezty,
      fillLoad_ezty, fillSave_ezty, fillSet_ezty]
  · unfold fillAllowNull
    rw [hq]
    rcases eq_or_ne e.type "other" with h1 | h1 <;>
      rcases eq_or_ne e.type "date" with h2 | h2 <;>
      rcases eq_or_ne e.type "datetime" with h3 | h3 <;>
      rcases eq_or_ne e.type "timestamp" with h4 | h4 <;>
      simp [h1, h2, h3, h4]


/-- C4 (amended): when `allowNull` was not supplied, successful validation
fills it with exactly the predicate "the resolved (mutated) registry entry's
type is `other`, `date`, `datetime` or `timestamp`" — so array kinds, whose
entry type is `array`, default to non-nullable. -/
theorem c4_allownull_default_rule (R R' : Registry) (p p' : PropConfig)
    (e : EzType)
    (hnull : p.allowNull = none)
    (h : validatePropertyConfig R p = .ok (R', p'))
    (he : entryOf R' p'.ezobjectType = .ok e) :
    p'.allowNull = some (e.type == "other" || e.type == "date" ||
      e.type == "datetime" || e.type == "timestamp") := by
  unfold validatePropertyConfig at h
  cases hN : vpcCheckName p with
  | error er => rw [hN, except_bind_error] at h; exact Except.noConfusion h
  | ok u =>
    rw [hN, except_bind_ok] at h
    simp only [] at h
    cases hA : vpcAttach R (vpcNormalizeType p) with
    | error er => rw [hA, except_bind_error] at h; exact Except.noConfusion h
    | ok p2 =>
      rw [hA, except_bind_ok] at h
      cases hC : vpcChecks (vpcMutateEntry R p2) p2 with
      | error er => rw [hC, except_bind_error] at h; exact Except.noConfusion h
      | ok u2 =>
        rw [hC, except_bind_ok] at h
        cases hF : vpcFill (vpcMutateEntry R p2) p2 with
        | error er => rw [hF, except_bind_error] at h; exact Except.noConfusion h
        | ok p3 =>
          rw [hF, except_bind_ok] at h
          have hp := Except.ok.inj h
          have hR : vpcMutateEntry R p2 = R' := congrArg Prod.fst hp
          have hP : p3 = p' := congrArg Prod.snd hp
          have hnull2 : p2.allowNull = none := by
            rw [vpcAttach_allowNull R (vpcNormalizeType p) p2 hA,
              vpcNormalizeType_allowNull, hnull]
          cases hE : entryOf (vpcMutateEntry R p2) p2.ezobjectType with
          | error er =>
            unfold vpcFill at hF
            rw [hE, except_bind_error] at hF
            exact Except.noConfusion hF
          | ok e0 =>
            obtain ⟨hty, hAn⟩ := vpcFill_allowNull _ _ _ _ hE hnull2 hF
            rw [← hP, hty, ← hR, hE] at he
            obtain rfl := Except.ok.inj he
            rw [← hP]
            exact hAn

/-- C4 witness: the array-of-int property `tags` configured without
`allowNull` validates with `allowNull` filled by the entry-type test, which
is false for its `array`-typed registry entry. -/
theorem c4_allownull_default_rule_witness :
    pTagsRaw.allowNull = none ∧
    vTags.allowNull = some (arrIntEntryV.type == "other" ||
      arrIntEntryV.type == "date" || arrIntEntryV.type == "datetime" ||
      arrIntEntryV.type == "timestamp") :=
  ⟨rfl, c4_allownull_default_rule ezobjectTypes rTags pTagsRaw vTags
    arrIntEntryV rfl rfl rfl⟩


theorem mutMysql_type (m : Option String) (e : EzType) :
    (mutMysql m e).type = e.type := by
  unfold mutMysql; cases m <;> rfl

theorem mutMysql_jsType (m : Option String) (e : EzType) :
    (mutMysql m e).jsType = e.jsType := by
  unfold mutMysql; cases m <;> rfl

theorem mutMysql_arrayOfType (m : Option String) (e : EzType) :
    (mutMysql m e).arrayOfType = e.arrayOfType := by
  unfold mutMysql; cases m <;> rfl

theorem mutMysql_default (m : Option String) (e : EzType) :
    (mutMysql m e).default = e.default := by
  unfold mutMysql; cases m <;> rfl

theorem mutMysql_hasLength (m : Option String) (e : EzType) :
    (mutMysql m e).hasLength = e.hasLength := by
  unfold mutMysql; cases m <;> rfl

theorem mutMysql_hasDecimals (m : Option String) (e : EzType) :
    (mutMysql m e).hasDecimals = e.hasDecimals := by
  unfold mutMysql; cases m <;> rfl

theorem mutMysql_lengthRequired (m : Option String) (e : EzType) :
    (mutMysql m e).lengthRequired = e.lengthRequired := by
  unfold mutMysql; cases m <;> rfl

theorem mutMysql_hasUnsignedAndZeroFill (m : Option String) (e : EzType) :
    (mutMysql m e).hasUnsignedAndZeroFill = e.hasUnsignedAndZeroFill := by
  unfold mutMysql; cases m <;> rfl

theorem mutMysql_hasCharacterSetAndCollate (m : Option String) (e : EzType) :
    (mutMysql m e).hasCharacterSetAndCollate = e.hasCharacterSetAndCollate := by
  unfold mutMysql; cases m <;> rfl

theorem mutMysql_lengthRequiresDecimals (m : Option String) (e : EzType) :
    (mutMysql m e).lengthRequiresDecimals = e.lengthRequiresDecimals := by
  unfold mutMysql; cases m <;> rfl

theorem mutMysql_getTransform (m : Option String) (e : EzType) :
    (mutMysql m e).getTransform = e.getTransform := by
  unfold mutMysql; cases m <;> rfl

theorem mutMysql_setTransform (m : Option String) (e : EzType) :
    (mutMysql m e).setTransform = e.setTransform := by
  unfold mutMysql; cases m <;> rfl

theorem mutMysql_saveTransform (m : Option String) (e : EzType) :
    (mutMysql m e).saveTransform = e.saveTransform := by
  unfold mutMysql; cases m <;> rfl

theorem mutMysql_loadTransform (m : Option String) (e : EzType) :
    (mutMysql m e).loadTransform = e.loadTransform := by
  unfold mutMysql; cases m <;> rfl

theorem mutMysql_validateInput (m : Option String) (e : EzType) :
    (mutMysql m e).validateInput = e.validateInput := by
  unfold mutMysql; cases m <;> rfl

theorem mutMysql_assignInput (m : Option String) (e : EzType) :
    (mutMysql m e).assignInput = e.assignInput := by
  unfold mutMysql; cases m <;> rfl

theorem mutHasDec_type (e : EzType) :
    (mutHasDec e).type = e.type := by
  unfold mutHasDec; split <;> rfl

theorem mutHasDec_jsType (e : EzType) :
    (mutHasDec e).jsType = e.jsType := by
  unfold mutHasDec; split <;> rfl

theorem mutHasDec_mysqlType (e : EzType) :
    (mutHasDec e).mysqlType = e.mysqlType := by
  unfold mutHasDec; split <;> rfl

theorem mutHasDec_arrayOfType (e : EzType) :
    (mutHasDec e).arrayOfType = e.arrayOfType := by
  unfold mutHasDec; split <;> rfl

theorem mutHasDec_default (e : EzType) :
    (mutHasDec e).default = e.default := by
  unfold mutHasDec; split <;> rfl

theorem mutHasDec_hasLength (e : EzType) :
    (mutHasDec e).hasLength = e.hasLength := by
  unfold mutHasDec; split <;> rfl

theorem mutHasDec_lengthRequired (e : EzType) :
    (mutHasDec e).lengthRequired = e.lengthRequired := by
  unfold mutHasDec; split <;> rfl

theorem mutHasDec_hasUnsignedAndZeroFill (e : EzType) :
    (mutHasDec e).hasUnsignedAndZeroFill = e.hasUnsignedAndZeroFill := by
  unfold mutHasDec; split <;> rfl

theorem mutHasDec_hasCharacterSetAndCollate (e : EzType) :
    (mutHasDec e).hasCharacterSetAndCollate = e.hasCharacterSetAndCollate := by
  unfold mutHasDec; split <;> rfl

theorem mutHasDec_lengthRequiresDecimals (e : EzType) :
    (mutHasDec e).lengthRequiresDecimals = e.lengthRequiresDecimals := by
  unfold mutHasDec; split <;> rfl

theorem mutHasDec_getTransform (e : EzType) :
    (mutHasDec e).getTransform = e.getTransform := by
  unfold mutHasDec; split <;> rfl

theorem mutHasDec_setTransform (e : EzType) :
    (mutHasDec e).setTransform = e.setTransform := by
  unfold mutHasDec; split <;> rfl

theorem mutHasDec_saveTransform (e : EzType) :
    (mutHasDec e).saveTransform = e.saveTransform := by
  unfold mutHasDec; split <;> rfl

theorem mutHasDec_loadTransform (e : EzType) :
    (mutHasDec e).loadTransform = e.loadTransform := by
  unfold mutHasDec; split <;> rfl

theorem mutHasDec_validateInput (e : EzType) :
    (mutHasDec e).validateInput = e.validateInput := by
  unfold mutHasDec; split <;> rfl

theorem mutHasDec_assignInput (e : EzType) :
    (mutHasDec e).assignInput = e.assignInput := by
  unfold mutHasDec; split <;> rfl

theorem mutHasLen_type (e : EzType) :
    (mutHasLen e).type = e.type := by
  unfold mutHasLen; split <;> rfl

theorem mutHasLen_jsType (e : EzType) :
    (mutHasLen e).jsType = e.jsType := by
  unfold mutHasLen; split <;> rfl

theorem mutHasLen_mysqlType (e : EzType) :
    (mutHasLen e).mysqlType = e.mysqlType := by
  unfold mutHasLen; split <;> rfl

theorem mutHasLen_arrayOfType (e : EzType) :
    (mutHasLen e).arrayOfType = e.arrayOfType := by
  unfold mutHasLen; split <;> rfl

theorem mutHasLen_default (e : EzType) :
    (mutHasLen e).default = e.default := by
  unfold mutHasLen; split <;> rfl

theorem mutHasLen_hasLength (e : EzType) :
    (mutHasLen e).hasLength = e.hasLength := by
  unfold mutHasLen; split <;> rfl

theorem mutHasLen_lengthRequired (e : EzType) :
    (mutHasLen e).lengthRequired = e.lengthRequired := by
  unfold mutHasLen; split <;> rfl

theorem mutHasLen_hasUnsignedAndZeroFill (e : EzType) :
    (mutHasLen e).hasUnsignedAndZeroFill = e.hasUnsignedAndZeroFill := by
  unfold mutHasLen; split <;> rfl

theorem mutHasLen_hasCharacterSetAndCollate (e : EzType) :
    (mutHasLen e).hasCharacterSetAndCollate = e.hasCharacterSetAndCollate := by
  unfold mutHasLen; split <;> rfl

theorem mutHasLen_lengthRequiresDecimals (e : EzType) :
    (mutHasLen e).lengthRequiresDecimals = e.lengthRequiresDecimals := by
  unfold mutHasLen; split <;> rfl

theorem mutHasLen_getTransform (e : EzType) :
    (mutHasLen e).getTransform = e.getTransform := by
  unfold mutHasLen; split <;> rfl

theorem mutHasLen_setTransform (e : EzType) :
    (mutHasLen e).setTransform = e.setTransform := by
  unfold mutHasLen; split <;> rfl

theorem mutHasLen_saveTransform (e : EzType) :
    (mutHasLen e).saveTransform = e.saveTransform := by
  unfold mutHasLen; split <;> rfl

theorem mutHasLen_loadTransform (e : EzType) :
    (mutHasLen e).loadTransform = e.loadTransform := by
  unfold mutHasLen; split <;> rfl

theorem mutHasLen_validateInput (e : EzType) :
    (mutHasLen e).validateInput = e.validateInput := by
  unfold mutHasLen; split <;> rfl

theorem mutHasLen_assignInput (e : EzType) :
    (mutHasLen e).assignInput = e.assignInput := by
  unfold mutHasLen; split <;> rfl

theorem mutLenReq_type (e : EzType) :
    (mutLenReq e).type = e.type := by
  unfold mutLenReq; split <;> rfl

theorem mutLenReq_jsType (e : EzType) :
    (mutLenReq e).jsType = e.jsType := by
  unfold mutLenReq; split <;> rfl

theorem mutLenReq_mysqlType (e : EzType) :
    (mutLenReq e).mysqlType = e.mysqlType := by
  unfold mutLenReq; split <;> rfl

theorem mutLenReq_arrayOfType (e : EzType) :
    (mutLenReq e).arrayOfType = e.arrayOfType := by
  unfold mutLenReq; split <;> rfl

theorem mutLenReq_default (e : EzType) :
    (mutLenReq e).default = e.default := by
  unfold mutLenReq; split <;> rfl

theorem mutLenReq_hasLength (e : EzType) :
    (mutLenReq e).hasLength = e.hasLength := by
  unfold mutLenReq; split <;> rfl

theorem mutLenReq_hasDecimals (e : EzType) :
    (mutLenReq e).hasDecimals = e.hasDecimals := by
  unfold mutLenReq; split <;> rfl

theorem mutLenReq_hasUnsignedAndZeroFill (e : EzType) :
    (mutLenReq e).hasUnsignedAndZeroFill = e.hasUnsignedAndZeroFill := by
  unfold mutLenReq; split <;> rfl

theorem mutLenReq_hasCharacterSetAndCollate (e : EzType) :
    (mutLenReq e).hasCharacterSetAndCollate = e.hasCharacterSetAndCollate := by
  unfold mutLenReq; split <;> rfl

theorem mutLenReq_lengthRequiresDecimals (e : EzType) :
    (mutLenReq e).lengthRequiresDecimals = e.lengthRequiresDecimals := by
  unfold mutLenReq; split <;> rfl

theorem mutLenReq_getTransform (e : EzType) :
    (mutLenReq e).getTransform = e.getTransform := by
  unfold mutLenReq; split <;> rfl

theorem mutLenReq_setTransform (e : EzType) :
    (mutLenReq e).setTransform = e.setTransform := by
  unfold mutLenReq; split <;> rfl

theorem mutLenReq_saveTransform (e : EzType) :
    (mutLenReq e).saveTransform = e.saveTransform := by
  unfold mutLenReq; split <;> rfl

theorem mutLenReq_loadTransform (e : EzType) :
    (mutLenReq e).loadTransform = e.loadTransform := by
  unfold mutLenReq; split <;> rfl

theorem mutLenReq_validateInput (e : EzType) :
    (mutLenReq e).validateInput = e.validateInput := by
  unfold mutLenReq; split <;> rfl

theorem mutLenReq_assignInput (e : EzType) :
    (mutLenReq e).assignInput = e.assignInput := by
  unfold mutLenReq; split <;> rfl

theorem mutUZF_type (e : EzType) :
    (mutUZF e).type = e.type := by
  unfold mutUZF; split <;> rfl

theorem mutUZF_jsType (e : EzType) :
    (mutUZF e).jsType = e.jsType := by
  unfold mutUZF; split <;> rfl

theorem mutUZF_mysqlType (e : EzType) :
    (mutUZF e).mysqlType = e.mysqlType := by
  unfold mutUZF; split <;> rfl

theorem mutUZF_arrayOfType (e : EzType) :
    (mutUZF e).arrayOfType = e.arrayOfType := by
  unfold mutUZF; split <;> rfl

theorem mutUZF_default (e : EzType) :
    (mutUZF e).default = e.default := by
  unfold mutUZF; split <;> rfl

theorem mutUZF_hasLength (e : EzType) :
    (mutUZF e).hasLength = e.hasLength := by
  unfold mutUZF; split <;> rfl

theorem mutUZF_hasDecimals (e : EzType) :
    (mutUZF e).hasDecimals = e.hasDecimals := by
  unfold mutUZF; split <;> rfl

theorem mutUZF_lengthRequired (e : EzType) :
    (mutUZF e).lengthRequired = e.lengthRequired := by
  unfold mutUZF; split <;> rfl

theorem mutUZF_hasCharacterSetAndCollate (e : EzType) :
    (mutUZF e).hasCharacterSetAndCollate = e.hasCharacterSetAndCollate := by
  unfold mutUZF; split <;> rfl

theorem mutUZF_lengthRequiresDecimals (e : EzType) :
    (mutUZF e).lengthRequiresDecimals = e.lengthRequiresDecimals := by
  unfold mutUZF; split <;> rfl

theorem mutUZF_getTransform (e : EzType) :
    (mutUZF e).getTransform = e.getTransform := by
  unfold mutUZF; split <;> rfl

theorem mutUZF_setTransform (e : EzType) :
    (mutUZF e).setTransform = e.setTransform := by
  unfold mutUZF; split <;> rfl

theorem mutUZF_saveTransform (e : EzType) :
    (mutUZF e).saveTransform = e.saveTransform := by
  unfold mutUZF; split <;> rfl

theorem mutUZF_loadTransform (e : EzType) :
    (mutUZF e).loadTransform = e.loadTransform := by
  unfold mutUZF; split <;> rfl

theorem mutUZF_validateInput (e : EzType) :
    (mutUZF e).validateInput = e.validateInput := by
  unfold mutUZF; split <;> rfl

theorem mutUZF_assignInput (e : EzType) :
    (mutUZF e).assignInput = e.assignInput := by
  unfold mutUZF; split <;> rfl

theorem mutCSC_type (e : EzType) :
    (mutCSC e).type = e.type := by
  unfold mutCSC; split <;> rfl

theorem mutCSC_jsType (e : EzType) :
    (mutCSC e).jsType = e.jsType := by
  unfold mutCSC; split <;> rfl

theorem mutCSC_mysqlType (e : EzType) :
    (mutCSC e).mysqlType = e.mysqlType := by
  unfold mutCSC; split <;> rfl

theorem mutCSC_arrayOfType (e : EzType) :
    (mutCSC e).arrayOfType = e.arrayOfType := by
  unfold mutCSC; split <;> rfl

theorem mutCSC_default (e : EzType) :
    (mutCSC e).default = e.default := by
  unfold mutCSC; split <;> rfl

theorem mutCSC_hasLength (e : EzType) :
    (mutCSC e).hasLength = e.hasLength := by
  unfold mutCSC; split <;> rfl

theorem mutCSC_hasDecimals (e : EzType) :
    (mutCSC e).hasDecimals = e.hasDecimals := by
  unfold mutCSC; split <;> rfl

theorem mutCSC_lengthRequired (e : EzType) :
    (mutCSC e).lengthRequired = e.lengthRequired := by
  unfold mutCSC; split <;> rfl

theorem mutCSC_hasUnsignedAndZeroFill (e : EzType) :
    (mutCSC e).hasUnsignedAndZeroFill = e.hasUnsignedAndZeroFill := by
  unfold mutCSC; split <;> rfl

theorem mutCSC_lengthRequiresDecimals (e : EzType) :
    (mutCSC e).lengthRequiresDecimals = e.lengthRequiresDecimals := by
  unfold mutCSC; split <;> rfl

theorem mutCSC_getTransform (e : EzType) :
    (mutCSC e).getTransform = e.getTransform := by
  unfold mutCSC; split <;> rfl

theorem mutCSC_setTransform (e : EzType) :
    (mutCSC e).setTransform = e.setTransform := by
  unfold mutCSC; split <;> rfl

theorem mutCSC_saveTransform (e : EzType) :
    (mutCSC e).saveTransform = e.saveTransform := by
  unfold mutCSC; split <;> rfl

theorem mutCSC_loadTransform (e : EzType) :
    (mutCSC e).loadTransform = e.loadTransform := by
  unfold mutCSC; split <;> rfl

theorem mutCSC_validateInput (e : EzType) :
    (mutCSC e).validateInput = e.validateInput := by
  unfold mutCSC; split <;> rfl

theorem mutCSC_assignInput (e : EzType) :
    (mutCSC e).assignInput = e.assignInput := by
  unfold mutCSC; split <;> rfl

theorem mutLRD_type (e : EzType) :
    (mutLRD e).type = e.type := by
  unfold mutLRD; split <;> rfl

theorem mutLRD_jsType (e : EzType) :
    (mutLRD e).jsType = e.jsType := by
  unfold mutLRD; split <;> rfl

theorem mutLRD_mysqlType (e : EzType) :
    (mutLRD e).mysqlType = e.mysqlType := by
  unfold mutLRD; split <;> rfl

theorem mutLRD_arrayOfType (e : EzType) :
    (mutLRD e).arrayOfType = e.arrayOfType := by
  unfold mutLRD; split <;> rfl

theorem mutLRD_default (e : EzType) :
    (mutLRD e).default = e.default := by
  unfold mutLRD; split <;> rfl

theorem mutLRD_hasLength (e : EzType) :
    (mutLRD e).hasLength = e.hasLength := by
  unfold mutLRD; split <;> rfl

theorem mutLRD_hasDecimals (e : EzType) :
    (mutLRD e).hasDecimals = e.hasDecimals := by
  unfold mutLRD; split <;> rfl

theorem mutLRD_lengthRequired (e : EzType) :
    (mutLRD e).lengthRequired = e.lengthRequired := by
  unfold mutLRD; split <;> rfl

theorem mutLRD_hasUnsignedAndZeroFill (e : EzType) :
    (mutLRD e).hasUnsignedAndZeroFill = e.hasUnsignedAndZeroFill := by
  unfold mutLRD; split <;> rfl

theorem mutLRD_hasCharacterSetAndCollate (e : EzType) :
    (mutLRD e).hasCharacterSetAndCollate = e.hasCharacterSetAndCollate := by
  unfold mutLRD; split <;> rfl

theorem mutLRD_getTransform (e : EzType) :
    (mutLRD e).getTransform = e.getTransform := by
  unfold mutLRD; split <;> rfl

theorem mutLRD_setTransform (e : EzType) :
    (mutLRD e).setTransform = e.setTransform := by
  unfold mutLRD; split <;> rfl

theorem mutLRD_saveTransform (e : EzType) :
    (mutLRD e).saveTransform = e.saveTransform := by
  unfold mutLRD; split <;> rfl

theorem mutLRD_loadTransform (e : EzType) :
    (mutLRD e).loadTransform = e.loadTransform := by
  unfold mutLRD; split <;> rfl

theorem mutLRD_validateInput (e : EzType) :
    (mutLRD e).validateInput = e.validateInput := by
  unfold mutLRD; split <;> rfl

theorem mutLRD_assignInput (e : EzType) :
    (mutLRD e).assignInput = e.assignInput := by
  unfold mutLRD; split <;> rfl

theorem mutMysql_mysqlType (m : Option String) (e : EzType) :
    (mutMysql m e).mysqlType = m.getD e.mysqlType := by
  unfold mutMysql; cases m <;> rfl

theorem mutHasDec_hasDecimals (e : EzType) :
    (mutHasDec e).hasDecimals =
      if e.hasDecimals.isNone then some false else e.hasDecimals := by
  unfold mutHasDec; split <;> simp_all

theorem mutHasLen_hasDecimals (e : EzType) :
    (mutHasLen e).hasDecimals =
      if e.hasLength.isNone then some false else e.hasDecimals := by
  unfold mutHasLen; split <;> simp_all

theorem mutLenReq_lengthRequired (e : EzType) :
    (mutLenReq e).lengthRequired =
      if e.lengthRequired.isNone then some false else e.lengthRequired := by
  unfold mutLenReq; split <;> simp_all

theorem mutUZF_hasUnsignedAndZeroFill (e : EzType) :
    (mutUZF e).hasUnsignedAndZeroFill =
      if e.hasUnsignedAndZeroFill.isNone then some false
      else e.hasUnsignedAndZeroFill := by
  unfold mutUZF; split <;> simp_all

theorem mutCSC_hasCharacterSetAndCollate (e : EzType) :
    (mutCSC e).hasCharacterSetAndCollate =
      if e.hasCharacterSetAndCollate.isNone then some false
      else e.hasCharacterSetAndCollate := by
  unfold mutCSC; split <;> simp_all

theorem mutLRD_lengthRequiresDecimals (e : EzType) :
    (mutLRD e).lengthRequiresDecimals =
      if e.lengthRequiresDecimals.isNone then some false
      else e.lengthRequiresDecimals := by
  unfold mutLRD; split <;> simp_all

theorem mutateEntry_type (m : Option String) (e : EzType) :
    (mutateEntry m e).type = e.type := by
  unfold mutateEntry
  rw [mutLRD_type, mutCSC_type, mutUZF_type, mutLenReq_type, mutHasLen_type, mutHasDec_type, mutMysql_type]

theorem mutateEntry_jsType (m : Option String) (e : EzType) :
    (mutateEntry m e).jsType = e.jsType := by
  unfold mutateEntry
  rw [mutLRD_jsType, mutCSC_jsType, mutUZF_jsType, mutLenReq_jsType, mutHasLen_jsType, mutHasDec_jsType, mutMysql_jsType]

theorem mutateEntry_arrayOfType (m : Option String) (e : EzType) :
    (mutateEntry m e).arrayOfType = e.arrayOfType := by
  unfold mutateEntry
  rw [mutLRD_arrayOfType, mutCSC_arrayOfType, mutUZF_arrayOfType, mutLenReq_arrayOfType, mutHasLen_arrayOfType, mutHasDec_arrayOfType, mutMysql_arrayOfType]

theorem mutateEntry_default (m : Option String) (e : EzType) :
    (mutateEntry m e).default = e.default := by
  unfold mutateEntry
  rw [mutLRD_default, mutCSC_default, mutUZF_default, mutLenReq_default, mutHasLen_default, mutHasDec_default, mutMysql_default]

theorem mutateEntry_hasLength (m : Option String) (e : EzType) :
    (mutateEntry m e).hasLength = e.hasLength := by
  unfold mutateEntry
  rw [mutLRD_hasLength, mutCSC_hasLength, mutUZF_hasLength, mutLenReq_hasLength, mutHasLen_hasLength, mutHasDec_hasLength, mutMysql_hasLength]

theorem mutateEntry_getTransform (m : Option String) (e : EzType) :
    (mutateEntry m e).getTransform = e.getTransform := by
  unfold mutateEntry
  rw [mutLRD_getTransform, mutCSC_getTransform, mutUZF_getTransform, mutLenReq_getTransform, mutHasLen_getTransform, mutHasDec_getTransform, mutMysql_getTransform]

theorem mutateEntry_setTransform (m : Option String) (e : EzType) :
    (mutateEntry m e).setTransform = e.setTransform := by
  unfold mutateEntry
  rw [mutLRD_setTransform, mutCSC_setTransform, mutUZF_setTransform, mutLenReq_setTransform, mutHasLen_setTransform, mutHasDec_setTransform, mutMysql_setTransform]

theorem mutateEntry_saveTransform (m : Option String) (e : EzType) :
    (mutateEntry m e).saveTransform = e.saveTransform := by
  unfold mutateEntry
  rw [mutLRD_saveTransform, mutCSC_saveTransform, mutUZF_saveTransform, mutLenReq_saveTransform, mutHasLen_saveTransform, mutHasDec_saveTransform, mutMysql_saveTransform]

theorem mutateEntry_loadTransform (m : Option String) (e : EzType) :
    (mutateEntry m e).loadTransform = e.loadTransform := by
  unfold mutateEntry
  rw [mutLRD_loadTransform, mutCSC_loadTransform, mutUZF_loadTransform, mutLenReq_loadTransform, mutHasLen_loadTransform, mutHasDec_loadTransform, mutMysql_loadTransform]

theorem mutateEntry_validateInput (m : Option String) (e : EzType) :
    (mutateEntry m e).validateInput = e.validateInput := by
  unfold mutateEntry
  rw [mutLRD_validateInput, mutCSC_validateInput, mutUZF_validateInput, mutLenReq_validateInput, mutHasLen_validateInput, mutHasDec_validateInput, mutMysql_validateInput]

theorem mutateEntry_assignInput (m : Option String) (e : EzType) :
    (mutateEntry m e).assignInput = e.assignInput := by
  unfold mutateEntry
  rw [mutLRD_assignInput, mutCSC_assignInput, mutUZF_assignInput, mutLenReq_assignInput, mutHasLen_assignInput, mutHasDec_assignInput, mutMysql_assignInput]

theorem mutateEntry_mysqlType (m : Option String) (e : EzType) :
    (mutateEntry m e).mysqlType = m.getD e.mysqlType := by
  unfold mutateEntry
  rw [mutLRD_mysqlType, mutCSC_mysqlType, mutUZF_mysqlType, mutLenReq_mysqlType,
    mutHasLen_mysqlType, mutHasDec_mysqlType, mutMysql_mysqlType]

theorem mutateEntry_hasDecimals (m : Option String) (e : EzType) :
    (mutateEntry m e).hasDecimals =
      if e.hasLength.isNone then some false
      else if e.hasDecimals.isNone then some false
      else e.hasDecimals := by
  unfold mutateEntry
  rw [mutLRD_hasDecimals, mutCSC_hasDecimals, mutUZF_hasDecimals,
    mutLenReq_hasDecimals, mutHasLen_hasDecimals, mutHasDec_hasLength,
    mutMysql_hasLength, mutHasDec_hasDecimals, mutMysql_hasDecimals]

theorem mutateEntry_lengthRequired (m : Option String) (e : EzType) :
    (mutateEntry m e).lengthRequired =
      if e.lengthRequired.isNone then some false else e.lengthRequired := by
  unfold mutateEntry
  rw [mutLRD_lengthRequired, mutCSC_lengthRequired, mutUZF_lengthRequired,
    mutLenReq_lengthRequired, mutHasLen_lengthRequired, mutHasDec_lengthRequired,
    mutMysql_lengthRequired]

theorem mutateEntry_hasUnsignedAndZeroFill (m : Option String) (e : EzType) :
    (mutateEntry m e).hasUnsignedAndZeroFill =
      if e.hasUnsignedAndZeroFill.isNone then some false
      else e.hasUnsignedAndZeroFill := by
  unfold mutateEntry
  rw [mutLRD_hasUnsignedAndZeroFill, mutCSC_hasUnsignedAndZeroFill,
    mutUZF_hasUnsignedAndZeroFill, mutLenReq_hasUnsignedAndZeroFill,
    mutHasLen_hasUnsignedAndZeroFill, mutHasDec_hasUnsignedAndZeroFill,
    mutMysql_hasUnsignedAndZeroFill]

theorem mutateEntry_hasCharacterSetAndCollate (m : Option String) (e : EzType) :
    (mutateEntry m e).hasCharacterSetAndCollate =
      if e.hasCharacterSetAndCollate.isNone then some false
      else e.hasCharacterSetAndCollate := by
  unfold mutateEntry
  rw [mutLRD_hasCharacterSetAndCollate, mutCSC_hasCharacterSetAndCollate,
    mutUZF_hasCharacterSetAndCollate, mutLenReq_hasCharacterSetAndCollate,
    mutHasLen_hasCharacterSetAndCollate, mutHasDec_hasCharacterSetAndCollate,
    mutMysql_hasCharacterSetAndCollate]

theorem mutateEntry_lengthRequiresDecimals (m : Option String) (e : EzType) :
    (mutateEntry m e).lengthRequiresDecimals =
      if e.lengthRequiresDecimals.isNone then some false
      else e.lengthRequiresDecimals := by
  unfold mutateEntry
  rw [mutLRD_lengthRequiresDecimals, mutCSC_lengthRequiresDecimals,
    mutUZF_lengthRequiresDecimals, mutLenReq_lengthRequiresDecimals,
    mutHasLen_lengthRequiresDecimals, mutHasDec_lengthRequiresDecimals,
    mutMysql_lengthRequiresDecimals]

attribute [ext] EzType

theorem mutateEntry_idem (m : Option String) (e : EzType) :
    mutateEntry m (mutateEntry m e) = mutateEntry m e := by
  ext : 1
  · rw [mutateEntry_type]
  · rw [mutateEntry_jsType]
  · rw [mutateEntry_mysqlType, mutateEntry_mysqlType]
    cases m <;> simp
  · rw [mutateEntry_arrayOfType]
  · rw [mutateEntry_default]
  · rw [mutateEntry_hasLength]
  · rw [mutateEntry_hasDecimals, mutateEntry_hasLength, mutateEntry_hasDecimals]
    cases hL : e.hasLength <;> cases hd : e.hasDecimals <;> simp
  · rw [mutateEntry_lengthRequired, mutateEntry_lengthRequired]
    cases h : e.lengthRequired <;> simp
  · rw [mutateEntry_hasUnsignedAndZeroFill, mutateEntry_hasUnsignedAndZeroFill]
    cases h : e.hasUnsignedAndZeroFill <;> simp
  · rw [mutateEntry_hasCharacterSetAndCollate, mutateEntry_hasCharacterSetAndCollate]
    cases h : e.hasCharacterSetAndCollate <;> simp
  · rw [mutateEntry_lengthRequiresDecimals, mutateEntry_lengthRequiresDecimals]
    cases h : e.lengthRequiresDecimals <;> simp
  · rw [mutateEntry_getTransform]
  · rw [mutateEntry_setTransform]
  · rw [mutateEntry_saveTransform]
  · rw [mutateEntry_loadTransform]
  · rw [mutateEntry_validateInput]
  · rw [mutateEntry_assignInput]

theorem list_set_self {α : Type} : ∀ (l : List α) (i : Nat) (x : α),
    l.get? i = some x → l.set i x = l
  | [], i, x, h => by cases i <;> exact Option.noConfusion h
  | a :: t, 0, x, h => by
    obtain rfl := Option.some.inj h
    rfl
  | a :: t, i+1, x, h =>
    congrArg (a :: ·) (list_set_self t i x h)

theorem findIdx_set_congr {α : Type} :
    ∀ (l : List α) (i : Nat) (x : α) (f : α → Bool) (st : Nat),
    (∀ y, l.get? i = some y → f x = f y) →
    (l.set i x).findIdx? f st = l.findIdx? f st
  | [], _, _, _, _, _ => rfl
  | a :: t, 0, x, f, st, h => by
    rw [show (a :: t).set 0 x = x :: t from rfl, List.findIdx?_cons,
      List.findIdx?_cons, h a rfl]
  | a :: t, i+1, x, f, st, h => by
    rw [List.set_cons_succ, List.findIdx?_cons, List.findIdx?_cons,
      findIdx_set_congr t i x f (st+1) (fun y hy => h y hy)]

theorem get_q_set_self {α : Type} (l : List α) (i : Nat) (x y : α)
    (h : l.get? i = some y) : (l.set i x).get? i = some x := by
  rw [List.get?_set, if_pos rfl, h]
  rfl

theorem get_q_set_any {α : Type} (l : List α) (i j : Nat) (x y : α)
    (h : l.get? j = some y) : ∃ z, (l.set i x).get? j = some z := by
  by_cases hij : i = j
  · exact ⟨x, by rw [List.get?_set, if_pos hij, h]; rfl⟩
  · exact ⟨y, by rw [List.get?_set, if_neg hij, h]⟩

theorem regFind_mutate (R : Registry) (q : PropConfig) (f : EzType → Bool)
    (hf : ∀ x, f (mutateEntry q.mysqlType x) = f x) :
    regFind (vpcMutateEntry R q) f = regFind R f := by
  unfold vpcMutateEntry
  cases hz : q.ezobjectType with
  | none => rfl
  | some i =>
    simp only [hz]
    cases hg : R.get? i with
    | none => rfl
    | some e =>
      simp only [hg]
      unfold regFind
      exact findIdx_set_congr R i (mutateEntry q.mysqlType e) f 0
        (fun y hy => by
          obtain rfl := Option.some.inj (hg.symm.trans hy)
          exact hf e)

theorem optStrTruthy_isSome {o : Option String}
    (h : optStrTruthy o = true) : o.isNone = false := by
  cases o <;> simp [optStrTruthy] at h ⊢

theorem norm_name (p : PropConfig) :
    (vpcNormalizeType p).name = p.name := by
  unfold vpcNormalizeType
  split
  all_goals simp only []
  all_goals split <;> rfl

theorem norm_arrayOf (p : PropConfig) :
    (vpcNormalizeType p).arrayOf = p.arrayOf := by
  unfold vpcNormalizeType
  split
  all_goals simp only []
  all_goals split <;> rfl

theorem norm_className (p : PropConfig) :
    (vpcNormalizeType p).className = p.className := by
  unfold vpcNormalizeType
  split
  all_goals simp only []
  all_goals split <;> rfl

theorem norm_mysqlType (p : PropConfig) :
    (vpcNormalizeType p).mysqlType = p.mysqlType := by
  unfold vpcNormalizeType
  split
  all_goals simp only []
  all_goals split <;> rfl

theorem norm_length (p : PropConfig) :
    (vpcNormalizeType p).length = p.length := by
  unfold vpcNormalizeType
  split
  all_goals simp only []
  all_goals split <;> rfl

theorem norm_decimals (p : PropConfig) :
    (vpcNormalizeType p).decimals = p.decimals := by
  unfold vpcNormalizeType
  split
  all_goals simp only []
  all_goals split <;> rfl

theorem norm_values (p : PropConfig) :
    (vpcNormalizeType p).values = p.values := by
  unfold vpcNormalizeType
  split
  all_goals simp only []
  all_goals split <;> rfl

theorem norm_default (p : PropConfig) :
    (vpcNormalizeType p).default = p.default := by
  unfold vpcNormalizeType
  split
  all_goals simp only []
  all_goals split <;> rfl

theorem norm_store (p : PropConfig) :
    (vpcNormalizeType p).store = p.store := by
  unfold vpcNormalizeType
  split
  all_goals simp only []
  all_goals split <;> rfl

theorem norm_ezobjectType (p : PropConfig) :
    (vpcNormalizeType p).ezobjectType = p.ezobjectType := by
  unfold vpcNormalizeType
  split
  all_goals simp only []
  all_goals split <;> rfl

theorem norm_getTransform (p : PropConfig) :
    (vpcNormalizeType p).getTransform = p.getTransform := by
  unfold vpcNormalizeType
  split
  all_goals simp only []
  all_goals split <;> rfl

theorem norm_setTransform (p : PropConfig) :
    (vpcNormalizeType p).setTransform = p.setTransform := by
  unfold vpcNormalizeType
  split
  all_goals simp only []
  all_goals split <;> rfl

theorem norm_saveTransform (p : PropConfig) :
    (vpcNormalizeType p).saveTransform = p.saveTransform := by
  unfold vpcNormalizeType
  split
  all_goals simp only []
  all_goals split <;> rfl

theorem norm_loadTransform (p : PropConfig) :
    (vpcNormalizeType p).loadTransform = p.loadTransform := by
  unfold vpcNormalizeType
  split
  all_goals simp only []
  all_goals split <;> rfl

theorem norm_validateInput (p : PropConfig) :
    (vpcNormalizeType p).validateInput = p.validateInput := by
  unfold vpcNormalizeType
  split
  all_goals simp only []
  all_goals split <;> rfl

theorem norm_assignInput (p : PropConfig) :
    (vpcNormalizeType p).assignInput = p.assignInput := by
  unfold vpcNormalizeType
  split
  all_goals simp only []
  all_goals split <;> rfl

theorem norm_type_isNone (p : PropConfig) :
    (vpcNormalizeType p).type.isNone = p.type.isNone := by
  unfold vpcNormalizeType
  split
  all_goals simp only []
  all_goals split <;>
    first
    | rfl
    | (cases p.type <;> rfl)
    | (cases p.instanceOf <;> rfl)

theorem norm_instanceOf_isNone (p : PropConfig) :
    (vpcNormalizeType p).instanceOf.isNone = p.instanceOf.isNone := by
  unfold vpcNormalizeType
  split
  all_goals simp only []
  all_goals split <;>
    first
    | rfl
    | (cases p.type <;> rfl)
    | (cases p.instanceOf <;> rfl)

theorem norm_g1 (p : PropConfig) :
    (optStrTruthy (vpcNormalizeType p).type &&
      (vpcNormalizeType p).originalType.isNone) = false := by
  unfold vpcNormalizeType
  split
  all_goals simp only []
  all_goals split <;>
    simp_all [optStrTruthy_isSome, Option.isSome_iff_ne_none]

theorem norm_g2 (p : PropConfig) :
    (optStrTruthy (vpcNormalizeType p).instanceOf &&
      (vpcNormalizeType p).originalInstanceOf.isNone) = false := by
  unfold vpcNormalizeType
  split
  all_goals simp only []
  all_goals split <;>
    simp_all [optStrTruthy_isSome, Option.isSome_iff_ne_none]

theorem norm_fix (q : PropConfig)
    (h1 : (optStrTruthy q.type && q.originalType.isNone) = false)
    (h2 : (optStrTruthy q.instanceOf && q.originalInstanceOf.isNone) = false) :
    vpcNormalizeType q = q := by
  unfold vpcNormalizeType
  simp only [h1, h2, Bool.false_eq_true, if_false]

theorem narr_allowNull (a : ArrayOfConfig) :
    (normalizeArrayOf a).allowNull = a.allowNull := by
  unfold normalizeArrayOf
  simp only []
  split <;> split <;> rfl

theorem narr_length (a : ArrayOfConfig) :
    (normalizeArrayOf a).length = a.length := by
  unfold normalizeArrayOf
  simp only []
  split <;> split <;> rfl

theorem narr_ezobjectType (a : ArrayOfConfig) :
    (normalizeArrayOf a).ezobjectType = a.ezobjectType := by
  unfold normalizeArrayOf
  simp only []
  split <;> split <;> rfl

theorem narr_type_isNone (a : ArrayOfConfig) :
    (normalizeArrayOf a).type.isNone = a.type.isNone := by
  unfold normalizeArrayOf
  simp only []
  split <;> split <;>
    first
    | rfl
    | (cases a.type <;> rfl)
    | (cases a.instanceOf <;> rfl)

theorem narr_instanceOf_isNone (a : ArrayOfConfig) :
    (normalizeArrayOf a).instanceOf.isNone = a.instanceOf.isNone := by
  unfold normalizeArrayOf
  simp only []
  split <;> split <;>
    first
    | rfl
    | (cases a.type <;> rfl)
    | (cases a.instanceOf <;> rfl)

theorem narr_g1 (a : ArrayOfConfig) :
    (optStrTruthy (normalizeArrayOf a).type &&
      (normalizeArrayOf a).originalType.isNone) = false := by
  unfold normalizeArrayOf
  simp only []
  split <;> split <;>
    simp_all [optStrTruthy_isSome, Option.isSome_iff_ne_none]

theorem narr_g2 (a : ArrayOfConfig) :
    (optStrTruthy (normalizeArrayOf a).instanceOf &&
      (normalizeArrayOf a).originalInstanceOf.isNone) = false := by
  unfold normalizeArrayOf
  simp only []
  split <;> split <;>
    simp_all [optStrTruthy_isSome, Option.isSome_iff_ne_none]

theorem narr_fix (a : ArrayOfConfig)
    (h1 : (optStrTruthy a.type && a.originalType.isNone) = false)
    (h2 : (optStrTruthy a.instanceOf && a.originalInstanceOf.isNone) = false) :
    normalizeArrayOf a = a := by
  unfold normalizeArrayOf
  simp only [h1, h2, Bool.false_eq_true, if_false]

theorem dfan_type (ae : EzType) (aIdx : Option Nat) (a : ArrayOfConfig) :
    (defaultArrayOfAllowNull ae aIdx a).type = a.type := by
  unfold defaultArrayOfAllowNull
  split
  · rfl
  · split <;> rfl

theorem dfan_instanceOf (ae : EzType) (aIdx : Option Nat) (a : ArrayOfConfig) :
    (defaultArrayOfAllowNull ae aIdx a).instanceOf = a.instanceOf := by
  unfold defaultArrayOfAllowNull
  split
  · rfl
  · split <;> rfl

theorem dfan_originalType (ae : EzType) (aIdx : Option Nat) (a : ArrayOfConfig) :
    (defaultArrayOfAllowNull ae aIdx a).originalType = a.originalType := by
  unfold defaultArrayOfAllowNull
  split
  · rfl
  · split <;> rfl

theorem dfan_originalInstanceOf (ae : EzType) (aIdx : Option Nat) (a : ArrayOfConfig) :
    (defaultArrayOfAllowNull ae aIdx a).originalInstanceOf = a.originalInstanceOf := by
  unfold defaultArrayOfAllowNull
  split
  · rfl
  · split <;> rfl

theorem dfan_length (ae : EzType) (aIdx : Option Nat) (a : ArrayOfConfig) :
    (defaultArrayOfAllowNull ae aIdx a).length = a.length := by
  unfold defaultArrayOfAllowNull
  split
  · rfl
  · split <;> rfl

theorem dfan_ezobjectType (ae : EzType) (aIdx : Option Nat)
    (a : ArrayOfConfig) :
    (defaultArrayOfAllowNull ae aIdx a).ezobjectType = aIdx := by
  unfold defaultArrayOfAllowNull
  split
  · rfl
  · split <;> rfl

theorem dfan_allowNull_isSome (ae : EzType) (aIdx : Option Nat)
    (a : ArrayOfConfig) :
    (defaultArrayOfAllowNull ae aIdx a).allowNull.isNone = false := by
  unfold defaultArrayOfAllowNull
  split
  · rfl
  · split
    · rfl
    · simp_all [Option.isSome_iff_ne_none]

theorem aoc_eta_ez (a : ArrayOfConfig) (v : Option Nat)
    (h : a.ezobjectType = v) : { a with ezobjectType := v } = a := by
  cases a
  cases h
  rfl

theorem pc_eta_ez (q : PropConfig) (v : Option Nat)
    (h : q.ezobjectType = v) : { q with ezobjectType := v } = q := by
  cases q
  cases h
  rfl

theorem pc_eta_arr_ez (q : PropConfig) (a : Option ArrayOfConfig)
    (v : Option Nat) (ha : q.arrayOf = a) (h : q.ezobjectType = v) :
    { q with arrayOf := a, ezobjectType := v } = q := by
  cases q
  cases ha
  cases h
  rfl

theorem mutate_get_any (R : Registry) (pM : PropConfig) (j : Nat)
    (y : EzType) (h : R.get? j = some y) :
    ∃ z, (vpcMutateEntry R pM).get? j = some z := by
  unfold vpcMutateEntry
  cases pM.ezobjectType with
  | none => exact ⟨y, h⟩
  | some i =>
    simp only []
    cases hg : R.get? i with
    | none => exact ⟨y, h⟩
    | some e => exact get_q_set_any R i j (mutateEntry pM.mysqlType e) y h

theorem vpcAttach_fields (R : Registry) (p p2 : PropConfig)
    (h : vpcAttach R p = .ok p2) :
    p2.name = p.name ∧
    p2.type = p.type ∧
    p2.instanceOf = p.instanceOf ∧
    p2.originalType = p.originalType ∧
    p2.originalInstanceOf = p.originalInstanceOf ∧
    p2.className = p.className ∧
    p2.mysqlType = p.mysqlType ∧
    p2.length = p.length ∧
    p2.decimals = p.decimals ∧
    p2.values = p.values ∧
    p2.default = p.default ∧
    p2.allowNull = p.allowNull ∧
    p2.store = p.store ∧
    p2.getTransform = p.getTransform ∧
    p2.setTransform = p.setTransform ∧
    p2.saveTransform = p.saveTransform ∧
    p2.loadTransform = p.loadTransform ∧
    p2.validateInput = p.validateInput ∧
    p2.assignInput = p.assignInput := by
  unfold vpcAttach at h
  split at h
  · split at h
    · exact Except.noConfusion h
    · split at h
      · exact Except.noConfusion h
      · simp only [] at h
        split at h
        · exact Except.noConfusion h
        · obtain rfl := Except.ok.inj h
          exact ⟨rfl, rfl, rfl, rfl, rfl, rfl, rfl, rfl, rfl, rfl, rfl, rfl, rfl, rfl, rfl, rfl, rfl, rfl, rfl⟩
  · obtain rfl := Except.ok.inj h
    exact ⟨rfl, rfl, rfl, rfl, rfl, rfl, rfl, rfl, rfl, rfl, rfl, rfl, rfl, rfl, rfl, rfl, rfl, rfl, rfl⟩

theorem fillSet_name (e : EzType) (p : PropConfig) :
    (fillSet e p).name = p.name := by
  unfold fillSet; split <;> rfl

theorem fillSet_type (e : EzType) (p : PropConfig) :
    (fillSet e p).type = p.type := by
  unfold fillSet; split <;> rfl

theorem fillSet_instanceOf (e : EzType) (p : PropConfig) :
    (fillSet e p).instanceOf = p.instanceOf := by
  unfold fillSet; split <;> rfl

theorem fillSet_originalType (e : EzType) (p : PropConfig) :
    (fillSet e p).originalType = p.originalType := by
  unfold fillSet; split <;> rfl

theorem fillSet_originalInstanceOf (e : EzType) (p : PropConfig) :
    (fillSet e p).originalInstanceOf = p.originalInstanceOf := by
  unfold fillSet; split <;> rfl

theorem fillSet_arrayOf (e : EzType) (p : PropConfig) :
    (fillSet e p).arrayOf = p.arrayOf := by
  unfold fillSet; split <;> rfl

theorem fillSet_className (e : EzType) (p : PropConfig) :
    (fillSet e p).className = p.className := by
  unfold fillSet; split <;> rfl

theorem fillSet_mysqlType (e : EzType) (p : PropConfig) :
    (fillSet e p).mysqlType = p.mysqlType := by
  unfold fillSet; split <;> rfl

theorem fillSet_length (e : EzType) (p : PropConfig) :
    (fillSet e p).length = p.length := by
  unfold fillSet; split <;> rfl

theorem fillSet_decimals (e : EzType) (p : PropConfig) :
    (fillSet e p).decimals = p.decimals := by
  unfold fillSet; split <;> rfl

theorem fillSet_values (e : EzType) (p : PropConfig) :
    (fillSet e p).values = p.values := by
  unfold fillSet; split <;> rfl

theorem fillSet_default (e : EzType) (p : PropConfig) :
    (fillSet e p).default = p.default := by
  unfold fillSet; split <;> rfl

theorem fillSet_store (e : EzType) (p : PropConfig) :
    (fillSet e p).store = p.store := by
  unfold fillSet; split <;> rfl

theorem fillSet_getTransform (e : EzType) (p : PropConfig) :
    (fillSet e p).getTransform = p.getTransform := by
  unfold fillSet; split <;> rfl

theorem fillSet_saveTransform (e : EzType) (p : PropConfig) :
    (fillSet e p).saveTransform = p.saveTransform := by
  unfold fillSet; split <;> rfl

theorem fillSet_loadTransform (e : EzType) (p : PropConfig) :
    (fillSet e p).loadTransform = p.loadTransform := by
  unfold fillSet; split <;> rfl

theorem fillSet_validateInput (e : EzType) (p : PropConfig) :
    (fillSet e p).validateInput = p.validateInput := by
  unfold fillSet; split <;> rfl

theorem fillSet_assignInput (e : EzType) (p : PropConfig) :
    (fillSet e p).assignInput = p.assignInput := by
  unfold fillSet; split <;> rfl

theorem fillSave_name (e : EzType) (p : PropConfig) :
    (fillSave e p).name = p.name := by
  unfold fillSave; split <;> rfl

theorem fillSave_type (e : EzType) (p : PropConfig) :
    (fillSave e p).type = p.type := by
  unfold fillSave; split <;> rfl

theorem fillSave_instanceOf (e : EzType) (p : PropConfig) :
    (fillSave e p).instanceOf = p.instanceOf := by
  unfold fillSave; split <;> rfl

theorem fillSave_originalType (e : EzType) (p : PropConfig) :
    (fillSave e p).originalType = p.originalType := by
  unfold fillSave; split <;> rfl

theorem fillSave_originalInstanceOf (e : EzType) (p : PropConfig) :
    (fillSave e p).originalInstanceOf = p.originalInstanceOf := by
  unfold fillSave; split <;> rfl

theorem fillSave_arrayOf (e : EzType) (p : PropConfig) :
    (fillSave e p).arrayOf = p.arrayOf := by
  unfold fillSave; split <;> rfl

theorem fillSave_className (e : EzType) (p : PropConfig) :
    (fillSave e p).className = p.className := by
  unfold fillSave; split <;> rfl

theorem fillSave_mysqlType (e : EzType) (p : PropConfig) :
    (fillSave e p).mysqlType = p.mysqlType := by
  unfold fillSave; split <;> rfl

theorem fillSave_length (e : EzType) (p : PropConfig) :
    (fillSave e p).length = p.length := by
  unfold fillSave; split <;> rfl

theorem fillSave_decimals (e : EzType) (p : PropConfig) :
    (fillSave e p).decimals = p.decimals := by
  unfold fillSave; split <;> rfl

theorem fillSave_values (e : EzType) (p : PropConfig) :
    (fillSave e p).values = p.values := by
  unfold fillSave; split <;> rfl

theorem fillSave_default (e : EzType) (p : PropConfig) :
    (fillSave e p).default = p.default := by
  unfold fillSave; split <;> rfl

theorem fillSave_store (e : EzType) (p : PropConfig) :
    (fillSave e p).store = p.store := by
  unfold fillSave; split <;> rfl

theorem fillSave_getTransform (e : EzType) (p : PropConfig) :
    (fillSave e p).getTransform = p.getTransform := by
  unfold fillSave; split <;> rfl

theorem fillSave_setTransform (e : EzType) (p : PropConfig) :
    (fillSave e p).setTransform = p.setTransform := by
  unfold fillSave; split <;> rfl

theorem fillSave_loadTransform (e : EzType) (p : PropConfig) :
    (fillSave e p).loadTransform = p.loadTransform := by
  unfold fillSave; split <;> rfl

theorem fillSave_validateInput (e : EzType) (p : PropConfig) :
    (fillSave e p).validateInput = p.validateInput := by
  unfold fillSave; split <;> rfl

theorem fillSave_assignInput (e : EzType) (p : PropConfig) :
    (fillSave e p).assignInput = p.assignInput := by
  unfold fillSave; split <;> rfl

theorem fillLoad_name (e : EzType) (p : PropConfig) :
    (fillLoad e p).name = p.name := by
  unfold fillLoad; split <;> rfl

theorem fillLoad_type (e : EzType) (p : PropConfig) :
    (fillLoad e p).type = p.type := by
  unfold fillLoad; split <;> rfl

theorem fillLoad_instanceOf (e : EzType) (p : PropConfig) :
    (fillLoad e p).instanceOf = p.instanceOf := by
  unfold fillLoad; split <;> rfl

theorem fillLoad_originalType (e : EzType) (p : PropConfig) :
    (fillLoad e p).originalType = p.originalType := by
  unfold fillLoad; split <;> rfl

theorem fillLoad_originalInstanceOf (e : EzType) (p : PropConfig) :
    (fillLoad e p).originalInstanceOf = p.originalInstanceOf := by
  unfold fillLoad; split <;> rfl

theorem fillLoad_arrayOf (e : EzType) (p : PropConfig) :
    (fillLoad e p).arrayOf = p.arrayOf := by
  unfold fillLoad; split <;> rfl

theorem fillLoad_className (e : EzType) (p : PropConfig) :
    (fillLoad e p).className = p.className := by
  unfold fillLoad; split <;> rfl

theorem fillLoad_mysqlType (e : EzType) (p : PropConfig) :
    (fillLoad e p).mysqlType = p.mysqlType := by
  unfold fillLoad; split <;> rfl

theorem fillLoad_length (e : EzType) (p : PropConfig) :
    (fillLoad e p).length = p.length := by
  unfold fillLoad; split <;> rfl

theorem fillLoad_decimals (e : EzType) (p : PropConfig) :
    (fillLoad e p).decimals = p.decimals := by
  unfold fillLoad; split <;> rfl

theorem fillLoad_values (e : EzType) (p : PropConfig) :
    (fillLoad e p).values = p.values := by
  unfold fillLoad; split <;> rfl

theorem fillLoad_default (e : EzType) (p : PropConfig) :
    (fillLoad e p).default = p.default := by
  unfold fillLoad; split <;> rfl

theorem fillLoad_store (e : EzType) (p : PropConfig) :
    (fillLoad e p).store = p.store := by
  unfold fillLoad; split <;> rfl

theorem fillLoad_getTransform (e : EzType) (p : PropConfig) :
    (fillLoad e p).getTransform = p.getTransform := by
  unfold fillLoad; split <;> rfl

theorem fillLoad_setTransform (e : EzType) (p : PropConfig) :
    (fillLoad e p).setTransform = p.setTransform := by
  unfold fillLoad; split <;> rfl

theorem fillLoad_saveTransform (e : EzType) (p : PropConfig) :
    (fillLoad e p).saveTransform = p.saveTransform := by
  unfold fillLoad; split <;> rfl

theorem fillLoad_validateInput (e : EzType) (p : PropConfig) :
    (fillLoad e p).validateInput = p.validateInput := by
  unfold fillLoad; split <;> rfl

theorem fillLoad_assignInput (e : EzType) (p : PropConfig) :
    (fillLoad e p).assignInput = p.assignInput := by
  unfold fillLoad; split <;> rfl

theorem fillValidate_name (e : EzType) (p : PropConfig) :
    (fillValidate e p).name = p.name := by
  unfold fillValidate; split <;> rfl

theorem fillValidate_type (e : EzType) (p : PropConfig) :
    (fillValidate e p).type = p.type := by
  unfold fillValidate; split <;> rfl

theorem fillValidate_instanceOf (e : EzType) (p : PropConfig) :
    (fillValidate e p).instanceOf = p.instanceOf := by
  unfold fillValidate; split <;> rfl

theorem fillValidate_originalType (e : EzType) (p : PropConfig) :
    (fillValidate e p).originalType = p.originalType := by
  unfold fillValidate; split <;> rfl

theorem fillValidate_originalInstanceOf (e : EzType) (p : PropConfig) :
    (fillValidate e p).originalInstanceOf = p.originalInstanceOf := by
  unfold fillValidate; split <;> rfl

theorem fillValidate_arrayOf (e : EzType) (p : PropConfig) :
    (fillValidate e p).arrayOf = p.arrayOf := by
  unfold fillValidate; split <;> rfl

theorem fillValidate_className (e : EzType) (p : PropConfig) :
    (fillValidate e p).className = p.className := by
  unfold fillValidate; split <;> rfl

theorem fillValidate_mysqlType (e : EzType) (p : PropConfig) :
    (fillValidate e p).mysqlType = p.mysqlType := by
  unfold fillValidate; split <;> rfl

theorem fillValidate_length (e : EzType) (p : PropConfig) :
    (fillValidate e p).length = p.length := by
  unfold fillValidate; split <;> rfl

theorem fillValidate_decimals (e : EzType) (p : PropConfig) :
    (fillValidate e p).decimals = p.decimals := by
  unfold fillValidate; split <;> rfl

theorem fillValidate_values (e : EzType) (p : PropConfig) :
    (fillValidate e p).values = p.values := by
  unfold fillValidate; split <;> rfl

theorem fillValidate_default (e : EzType) (p : PropConfig) :
    (fillValidate e p).default = p.default := by
  unfold fillValidate; split <;> rfl

theorem fillValidate_store (e : EzType) (p : PropConfig) :
    (fillValidate e p).store = p.store := by
  unfold fillValidate; split <;> rfl

theorem fillValidate_getTransform (e : EzType) (p : PropConfig) :
    (fillValidate e p).getTransform = p.getTransform := by
  unfold fillValidate; split <;> rfl

theorem fillValidate_setTransform (e : EzType) (p : PropConfig) :
    (fillValidate e p).setTransform = p.setTransform := by
  unfold fillValidate; split <;> rfl

theorem fillValidate_saveTransform (e : EzType) (p : PropConfig) :
    (fillValidate e p).saveTransform = p.saveTransform := by
  unfold fillValidate; split <;> rfl

theorem fillValidate_loadTransform (e : EzType) (p : PropConfig) :
    (fillValidate e p).loadTransform = p.loadTransform := by
  unfold fillValidate; split <;> rfl

theorem fillValidate_assignInput (e : EzType) (p : PropConfig) :
    (fillValidate e p).assignInput = p.assignInput := by
  unfold fillValidate; split <;> rfl

theorem fillAssign_name (e : EzType) (p : PropConfig) :
    (fillAssign e p).name = p.name := by
  unfold fillAssign; split <;> rfl

theorem fillAssign_type (e : EzType) (p : PropConfig) :
    (fillAssign e p).type = p.type := by
  unfold fillAssign; split <;> rfl

theorem fillAssign_instanceOf (e : EzType) (p : PropConfig) :
    (fillAssign e p).instanceOf = p.instanceOf := by
  unfold fillAssign; split <;> rfl

theorem fillAssign_originalType (e : EzType) (p : PropConfig) :
    (fillAssign e p).originalType = p.originalType := by
  unfold fillAssign; split <;> rfl

theorem fillAssign_originalInstanceOf (e : EzType) (p : PropConfig) :
    (fillAssign e p).originalInstanceOf = p.originalInstanceOf := by
  unfold fillAssign; split <;> rfl

theorem fillAssign_arrayOf (e : EzType) (p : PropConfig) :
    (fillAssign e p).arrayOf = p.arrayOf := by
  unfold fillAssign; split <;> rfl

theorem fillAssign_className (e : EzType) (p : PropConfig) :
    (fillAssign e p).className = p.className := by
  unfold fillAssign; split <;> rfl

theorem fillAssign_mysqlType (e : EzType) (p : PropConfig) :
    (fillAssign e p).mysqlType = p.mysqlType := by
  unfold fillAssign; split <;> rfl

theorem fillAssign_length (e : EzType) (p : PropConfig) :
    (fillAssign e p).length = p.length := by
  unfold fillAssign; split <;> rfl

theorem fillAssign_decimals (e : EzType) (p : PropConfig) :
    (fillAssign e p).decimals = p.decimals := by
  unfold fillAssign; split <;> rfl

theorem fillAssign_values (e : EzType) (p : PropConfig) :
    (fillAssign e p).values = p.values := by
  unfold fillAssign; split <;> rfl

theorem fillAssign_default (e : EzType) (p : PropConfig) :
    (fillAssign e p).default = p.default := by
  unfold fillAssign; split <;> rfl

theorem fillAssign_store (e : EzType) (p : PropConfig) :
    (fillAssign e p).store = p.store := by
  unfold fillAssign; split <;> rfl

theorem fillAssign_getTransform (e : EzType) (p : PropConfig) :
    (fillAssign e p).getTransform = p.getTransform := by
  unfold fillAssign; split <;> rfl

theorem fillAssign_setTransform (e : EzType) (p : PropConfig) :
    (fillAssign e p).setTransform = p.setTransform := by
  unfold fillAssign; split <;> rfl

theorem fillAssign_saveTransform (e : EzType) (p : PropConfig) :
    (fillAssign e p).saveTransform = p.saveTransform := by
  unfold fillAssign; split <;> rfl

theorem fillAssign_loadTransform (e : EzType) (p : PropConfig) :
    (fillAssign e p).loadTransform = p.loadTransform := by
  unfold fillAssign; split <;> rfl

theorem fillAssign_validateInput (e : EzType) (p : PropConfig) :
    (fillAssign e p).validateInput = p.validateInput := by
  unfold fillAssign; split <;> rfl

theorem fillStore_name (p : PropConfig) :
    (fillStore p).name = p.name := by
  unfold fillStore; split <;> rfl

theorem fillStore_type (p : PropConfig) :
    (fillStore p).type = p.type := by
  unfold fillStore; split <;> rfl

theorem fillStore_instanceOf (p : PropConfig) :
    (fillStore p).instanceOf = p.instanceOf := by
  unfold fillStore; split <;> rfl

theorem fillStore_originalType (p : PropConfig) :
    (fillStore p).originalType = p.originalType := by
  unfold fillStore; split <;> rfl

theorem fillStore_originalInstanceOf (p : PropConfig) :
    (fillStore p).originalInstanceOf = p.originalInstanceOf := by
  unfold fillStore; split <;> rfl

theorem fillStore_arrayOf (p : PropConfig) :
    (fillStore p).arrayOf = p.arrayOf := by
  unfold fillStore; split <;> rfl

theorem fillStore_className (p : PropConfig) :
    (fillStore p).className = p.className := by
  unfold fillStore; split <;> rfl

theorem fillStore_mysqlType (p : PropConfig) :
    (fillStore p).mysqlType = p.mysqlType := by
  unfold fillStore; split <;> rfl

theorem fillStore_length (p : PropConfig) :
    (fillStore p).length = p.length := by
  unfold fillStore; split <;> rfl

theorem fillStore_decimals (p : PropConfig) :
    (fillStore p).decimals = p.decimals := by
  unfold fillStore; split <;> rfl

theorem fillStore_values (p : PropConfig) :
    (fillStore p).values = p.values := by
  unfold fillStore; split <;> rfl

theorem fillStore_default (p : PropConfig) :
    (fillStore p).default = p.default := by
  unfold fillStore; split <;> rfl

theorem fillStore_getTransform (p : PropConfig) :
    (fillStore p).getTransform = p.getTransform := by
  unfold fillStore; split <;> rfl

theorem fillStore_setTransform (p : PropConfig) :
    (fillStore p).setTransform = p.setTransform := by
  unfold fillStore; split <;> rfl

theorem fillStore_saveTransform (p : PropConfig) :
    (fillStore p).saveTransform = p.saveTransform := by
  unfold fillStore; split <;> rfl

theorem fillStore_loadTransform (p : PropConfig) :
    (fillStore p).loadTransform = p.loadTransform := by
  unfold fillStore; split <;> rfl

theorem fillStore_validateInput (p : PropConfig) :
    (fillStore p).validateInput = p.validateInput := by
  unfold fillStore; split <;> rfl

theorem fillStore_assignInput (p : PropConfig) :
    (fillStore p).assignInput = p.assignInput := by
  unfold fillStore; split <;> rfl

theorem fillAllowNull_name (e : EzType) (p : PropConfig) :
    (fillAllowNull e p).name = p.name := by
  unfold fillAllowNull; split
  · rfl
  · split <;> rfl

theorem fillAllowNull_type (e : EzType) (p : PropConfig) :
    (fillAllowNull e p).type = p.type := by
  unfold fillAllowNull; split
  · rfl
  · split <;> rfl

theorem fillAllowNull_instanceOf (e : EzType) (p : PropConfig) :
    (fillAllowNull e p).instanceOf = p.instanceOf := by
  unfold fillAllowNull; split
  · rfl
  · split <;> rfl

theorem fillAllowNull_originalType (e : EzType) (p : PropConfig) :
    (fillAllowNull e p).originalType = p.originalType := by
  unfold fillAllowNull; split
  · rfl
  · split <;> rfl

theorem fillAllowNull_originalInstanceOf (e : EzType) (p : PropConfig) :
    (fillAllowNull e p).originalInstanceOf = p.originalInstanceOf := by
  unfold fillAllowNull; split
  · rfl
  · split <;> rfl

theorem fillAllowNull_arrayOf (e : EzType) (p : PropConfig) :
    (fillAllowNull e p).arrayOf = p.arrayOf := by
  unfold fillAllowNull; split
  · rfl
  · split <;> rfl

theorem fillAllowNull_className (e : EzType) (p : PropConfig) :
    (fillAllowNull e p).className = p.className := by
  unfold fillAllowNull; split
  · rfl
  · split <;> rfl

theorem fillAllowNull_mysqlType (e : EzType) (p : PropConfig) :
    (fillAllowNull e p).mysqlType = p.mysqlType := by
  unfold fillAllowNull; split
  · rfl
  · split <;> rfl

theorem fillAllowNull_length (e : EzType) (p : PropConfig) :
    (fillAllowNull e p).length = p.length := by
  unfold fillAllowNull; split
  · rfl
  · split <;> rfl

theorem fillAllowNull_decimals (e : EzType) (p : PropConfig) :
    (fillAllowNull e p).decimals = p.decimals := by
  unfold fillAllowNull; split
  · rfl
  · split <;> rfl

theorem fillAllowNull_values (e : EzType) (p : PropConfig) :
    (fillAllowNull e p).values = p.values := by
  unfold fillAllowNull; split
  · rfl
  · split <;> rfl

theorem fillAllowNull_default (e : EzType) (p : PropConfig) :
    (fillAllowNull e p).default = p.default := by
  unfold fillAllowNull; split
  · rfl
  · split <;> rfl

theorem fillAllowNull_store (e : EzType) (p : PropConfig) :
    (fillAllowNull e p).store = p.store := by
  unfold fillAllowNull; split
  · rfl
  · split <;> rfl

theorem fillAllowNull_getTransform (e : EzType) (p : PropConfig) :
    (fillAllowNull e p).getTransform = p.getTransform := by
  unfold fillAllowNull; split
  · rfl
  · split <;> rfl

theorem fillAllowNull_setTransform (e : EzType) (p : PropConfig) :
    (fillAllowNull e p).setTransform = p.setTransform := by
  unfold fillAllowNull; split
  · rfl
  · split <;> rfl

theorem fillAllowNull_saveTransform (e : EzType) (p : PropConfig) :
    (fillAllowNull e p).saveTransform = p.saveTransform := by
  unfold fillAllowNull; split
  · rfl
  · split <;> rfl

theorem fillAllowNull_loadTransform (e : EzType) (p : PropConfig) :
    (fillAllowNull e p).loadTransform = p.loadTransform := by
  unfold fillAllowNull; split
  · rfl
  · split <;> rfl

theorem fillAllowNull_validateInput (e : EzType) (p : PropConfig) :
    (fillAllowNull e p).validateInput = p.validateInput := by
  unfold fillAllowNull; split
  · rfl
  · split <;> rfl

theorem fillAllowNull_assignInput (e : EzType) (p : PropConfig) :
    (fillAllowNull e p).assignInput = p.assignInput := by
  unfold fillAllowNull; split
  · rfl
  · split <;> rfl

theorem fillSet_own_isSome (e : EzType) (p : PropConfig) :
    (fillSet e p).setTransform.isNone = false := by
  unfold fillSet
  split
  · rfl
  · simp_all [Option.isSome_iff_ne_none]

theorem fillSave_own_isSome (e : EzType) (p : PropConfig) :
    (fillSave e p).saveTransform.isNone = false := by
  unfold fillSave
  split
  · rfl
  · simp_all [Option.isSome_iff_ne_none]

theorem fillLoad_own_isSome (e : EzType) (p : PropConfig) :
    (fillLoad e p).loadTransform.isNone = false := by
  unfold fillLoad
  split
  · rfl
  · simp_all [Option.isSome_iff_ne_none]

theorem fillValidate_own_isSome (e : EzType) (p : PropConfig) :
    (fillValidate e p).validateInput.isNone = false := by
  unfold fillValidate
  split
  · rfl
  · simp_all [Option.isSome_iff_ne_none]

theorem fillAssign_own_isSome (e : EzType) (p : PropConfig) :
    (fillAssign e p).assignInput.isNone = false := by
  unfold fillAssign
  split
  · rfl
  · simp_all [Option.isSome_iff_ne_none]

theorem fillStore_own_isSome (p : PropConfig) :
    (fillStore p).store.isNone = false := by
  unfold fillStore
  split
  · rfl
  · simp_all [Option.isSome_iff_ne_none]

theorem fillAllowNull_own_isSome (e : EzType) (p : PropConfig) :
    (fillAllowNull e p).allowNull.isNone = false := by
  unfold fillAllowNull
  split
  · rfl
  · split
    · rfl
    · simp_all [Option.isSome_iff_ne_none]

theorem fillSet_fix (e : EzType) (p : PropConfig) (h : p.setTransform.isNone = false) :
    fillSet e p = p := by
  unfold fillSet
  rw [h]
  simp only [Bool.false_eq_true, if_false]

theorem fillSave_fix (e : EzType) (p : PropConfig) (h : p.saveTransform.isNone = false) :
    fillSave e p = p := by
  unfold fillSave
  rw [h]
  simp only [Bool.false_eq_true, if_false]

theorem fillLoad_fix (e : EzType) (p : PropConfig) (h : p.loadTransform.isNone = false) :
    fillLoad e p = p := by
  unfold fillLoad
  rw [h]
  simp only [Bool.false_eq_true, if_false]

theorem fillValidate_fix (e : EzType) (p : PropConfig) (h : p.validateInput.isNone = false) :
    fillValidate e p = p := by
  unfold fillValidate
  rw [h]
  simp only [Bool.false_eq_true, if_false]

theorem fillAssign_fix (e : EzType) (p : PropConfig) (h : p.assignInput.isNone = false) :
    fillAssign e p = p := by
  unfold fillAssign
  rw [h]
  simp only [Bool.false_eq_true, if_false]

theorem fillStore_fix (p : PropConfig) (h : p.store.isNone = false) :
    fillStore p = p := by
  unfold fillStore
  rw [h]
  simp only [Bool.false_eq_true, if_false]

theorem fillAllowNull_fix (e : EzType) (p : PropConfig) (h : p.allowNull.isNone = false) :
    fillAllowNull e p = p := by
  unfold fillAllowNull
  rw [h]
  simp only [Bool.false_and, Bool.false_eq_true, if_false]

theorem vpcFill_fields (R : Registry) (p p' : PropConfig)
    (h : vpcFill R p = .ok p') :
    p'.name = p.name ∧
    p'.type = p.type ∧
    p'.instanceOf = p.instanceOf ∧
    p'.originalType = p.originalType ∧
    p'.originalInstanceOf = p.originalInstanceOf ∧
    p'.arrayOf = p.arrayOf ∧
    p'.className = p.className ∧
    p'.mysqlType = p.mysqlType ∧
    p'.length = p.length ∧
    p'.decimals = p.decimals ∧
    p'.values = p.values := by
  unfold vpcFill at h
  cases hE : entryOf R p.ezobjectType with
  | error er => rw [hE, except_bind_error] at h; exact Except.noConfusion h
  | ok e =>
    rw [hE, except_bind_ok] at h
    obtain rfl := Except.ok.inj h
    refine ⟨?_, ?_, ?_, ?_, ?_, ?_, ?_, ?_, ?_, ?_, ?_⟩
    · rw [fillAllowNull_name, fillStore_name, fillAssign_name, fillValidate_name, fillLoad_name, fillSave_name, fillSet_name]
    · rw [fillAllowNull_type, fillStore_type, fillAssign_type, fillValidate_type, fillLoad_type, fillSave_type, fillSet_type]
    · rw [fillAllowNull_instanceOf, fillStore_instanceOf, fillAssign_instanceOf, fillValidate_instanceOf, fillLoad_instanceOf, fillSave_instanceOf, fillSet_instanceOf]
    · rw [fillAllowNull_originalType, fillStore_originalType, fillAssign_originalType, fillValidate_originalType, fillLoad_originalType, fillSave_originalType, fillSet_originalType]
    · rw [fillAllowNull_originalInstanceOf, fillStore_originalInstanceOf, fillAssign_originalInstanceOf, fillValidate_originalInstanceOf, fillLoad_originalInstanceOf, fillSave_originalInstanceOf, fillSet_originalInstanceOf]
    · rw [fillAllowNull_arrayOf, fillStore_arrayOf, fillAssign_arrayOf, fillValidate_arrayOf, fillLoad_arrayOf, fillSave_arrayOf, fillSet_arrayOf]
    · rw [fillAllowNull_className, fillStore_className, fillAssign_className, fillValidate_className, fillLoad_className, fillSave_className, fillSet_className]
    · rw [fillAllowNull_mysqlType, fillStore_mysqlType, fillAssign_mysqlType, fillValidate_mysqlType, fillLoad_mysqlType, fillSave_mysqlType, fillSet_mysqlType]
    · rw [fillAllowNull_length, fillStore_length, fillAssign_length, fillValidate_length, fillLoad_length, fillSave_length, fillSet_length]
    · rw [fillAllowNull_decimals, fillStore_decimals, fillAssign_decimals, fillValidate_decimals, fillLoad_decimals, fillSave_decimals, fillSet_decimals]
    · rw [fillAllowNull_values, fillStore_values, fillAssign_values, fillValidate_values, fillLoad_values, fillSave_values, fillSet_values]

theorem vpcFill_ezty (R : Registry) (p p' : PropConfig)
    (h : vpcFill R p = .ok p') : p'.ezobjectType = p.ezobjectType := by
  unfold vpcFill at h
  cases hE : entryOf R p.ezobjectType with
  | error er => rw [hE, except_bind_error] at h; exact Except.noConfusion h
  | ok e =>
    rw [hE, except_bind_ok] at h
    obtain rfl := Except.ok.inj h
    rw [fillAllowNull_ezty, fillStore_ezty, fillAssign_ezty, fillValidate_ezty,
      fillLoad_ezty, fillSave_ezty, fillSet_ezty]

theorem vpcFill_isSome (R : Registry) (p p' : PropConfig)
    (h : vpcFill R p = .ok p') :
    p'.setTransform.isNone = false ∧ p'.saveTransform.isNone = false ∧
    p'.loadTransform.isNone = false ∧ p'.validateInput.isNone = false ∧
    p'.assignInput.isNone = false ∧ p'.store.isNone = false ∧
    p'.allowNull.isNone = false := by
  unfold vpcFill at h
  cases hE : entryOf R p.ezobjectType with
  | error er => rw [hE, except_bind_error] at h; exact Except.noConfusion h
  | ok e =>
    rw [hE, except_bind_ok] at h
    obtain rfl := Except.ok.inj h
    refine ⟨?_, ?_, ?_, ?_, ?_, ?_, ?_⟩
    · rw [fillAllowNull_setTransform, fillStore_setTransform,
        fillAssign_setTransform, fillValidate_setTransform,
        fillLoad_setTransform, fillSave_setTransform]
      exact fillSet_own_isSome e p
    · rw [fillAllowNull_saveTransform, fillStore_saveTransform,
        fillAssign_saveTransform, fillValidate_saveTransform,
        fillLoad_saveTransform]
      exact fillSave_own_isSome e (fillSet e p)
    · rw [fillAllowNull_loadTransform, fillStore_loadTransform,
        fillAssign_loadTransform, fillValidate_loadTransform]
      exact fillLoad_own_isSome e (fillSave e (fillSet e p))
    · rw [fillAllowNull_validateInput, fillStore_validateInput,
        fillAssign_validateInput]
      exact fillValidate_own_isSome e (fillLoad e (fillSave e (fillSet e p)))
    · rw [fillAllowNull_assignInput, fillStore_assignInput]
      exact fillAssign_own_isSome e (fillValidate e (fillLoad e (fillSave e (fillSet e p))))
    · rw [fillAllowNull_store]
      exact fillStore_own_isSome (fillAssign e (fillValidate e (fillLoad e (fillSave e (fillSet e p)))))
    · exact fillAllowNull_own_isSome e (fillStore (fillAssign e (fillValidate e (fillLoad e (fillSave e (fillSet e p))))))

theorem vpcFill_second (R2 : Registry) (q : PropConfig) (e2 : EzType)
    (hE : entryOf R2 q.ezobjectType = .ok e2)
    (h1 : q.setTransform.isNone = false) (h2 : q.saveTransform.isNone = false)
    (h3 : q.loadTransform.isNone = false) (h4 : q.validateInput.isNone = false)
    (h5 : q.assignInput.isNone = false) (h6 : q.store.isNone = false)
    (h7 : q.allowNull.isNone = false) :
    vpcFill R2 q = .ok q := by
  unfold vpcFill
  rw [hE, except_bind_ok, fillSet_fix e2 q h1, fillSave_fix e2 q h2,
    fillLoad_fix e2 q h3, fillValidate_fix e2 q h4, fillAssign_fix e2 q h5,
    fillStore_fix q h6, fillAllowNull_fix e2 q h7]
  rfl

theorem vpcChecks_congr (R : Registry) (q p : PropConfig)
    (h1 : q.ezobjectType = p.ezobjectType) (h2 : q.length = p.length)
    (h3 : q.decimals = p.decimals) (h4 : q.type = p.type)
    (h5 : q.values = p.values) :
    vpcChecks R q = vpcChecks R p := by
  unfold vpcChecks
  rw [h1, h2, h3, h4, h5]

theorem vpcCheckName_congr (q p : PropConfig) (h1 : q.name = p.name)
    (h2 : q.type.isNone = p.type.isNone)
    (h3 : q.instanceOf.isNone = p.instanceOf.isNone) :
    vpcCheckName q = vpcCheckName p := by
  unfold vpcCheckName
  rw [h1, h2, h3]

theorem scalarIdxOf_congr (R : Registry) (q p : PropConfig)
    (h : q.type = p.type) : scalarIdxOf R q = scalarIdxOf R p := by
  unfold scalarIdxOf
  rw [h]

theorem scalarIdxOf_mutate (R : Registry) (pM q : PropConfig) :
    scalarIdxOf (vpcMutateEntry R pM) q = scalarIdxOf R q := by
  unfold scalarIdxOf
  have hb : (fun t => regFind (vpcMutateEntry R pM) (fun e => e.type == t)) =
      (fun t => regFind R (fun e => e.type == t)) :=
    funext fun t => regFind_mutate R pM _ (fun x => by rw [mutateEntry_type])
  rw [hb, regFind_mutate R pM _ (fun x => by rw [mutateEntry_type])]

theorem elemIdxOf_congr (R : Registry) (a b : ArrayOfConfig)
    (h : a.type = b.type) : elemIdxOf R a = elemIdxOf R b := by
  unfold elemIdxOf
  rw [h]

theorem elemIdxOf_mutate (R : Registry) (pM : PropConfig)
    (a : ArrayOfConfig) :
    elemIdxOf (vpcMutateEntry R pM) a = elemIdxOf R a := by
  unfold elemIdxOf
  have hb : (fun t => regFind (vpcMutateEntry R pM) (fun e => e.type == t)) =
      (fun t => regFind R (fun e => e.type == t)) :=
    funext fun t => regFind_mutate R pM _ (fun x => by rw [mutateEntry_type])
  rw [hb, regFind_mutate R pM _ (fun x => by rw [mutateEntry_type])]

theorem arrIdxOf_congr (R : Registry) (q p : PropConfig)
    (a b : ArrayOfConfig) (hq : q.type = p.type) (hab : a.type = b.type) :
    arrIdxOf R q a = arrIdxOf R p b := by
  unfold arrIdxOf
  rw [hq, hab]

theorem arrIdxOf_mutate (R : Registry) (pM q : PropConfig)
    (a : ArrayOfConfig) :
    arrIdxOf (vpcMutateEntry R pM) q a = arrIdxOf R q a := by
  unfold arrIdxOf
  rw [regFind_mutate R pM _
      (fun x => by rw [mutateEntry_type, mutateEntry_arrayOfType]),
    regFind_mutate R pM _
      (fun x => by rw [mutateEntry_type, mutateEntry_arrayOfType])]

theorem dfan_fix (ae : EzType) (v : Option Nat) (b : ArrayOfConfig)
    (h1 : b.allowNull.isNone = false) (h2 : b.ezobjectType = v) :
    defaultArrayOfAllowNull ae v b = b := by
  unfold defaultArrayOfAllowNull
  rw [h1]
  simp only [Bool.false_and, Bool.false_eq_true, if_false]
  exact aoc_eta_ez b v h2

theorem vpcAttach_scalar_char (R : Registry) (p p2 : PropConfig)
    (harr : (p.type == some "array") = false)
    (hA : vpcAttach R p = .ok p2) :
    p2 = { p with ezobjectType := scalarIdxOf R p } := by
  unfold vpcAttach at hA
  rw [harr] at hA
  simp only [Bool.false_eq_true, if_false] at hA
  exact (Except.ok.inj hA).symm

theorem vpcAttach_array_char (R : Registry) (p p2 : PropConfig)
    (a0 : ArrayOfConfig)
    (harr : (p.type == some "array") = true) (harrOf : p.arrayOf = some a0)
    (hA : vpcAttach R p = .ok p2) :
    (a0.type.isNone && a0.instanceOf.isNone) = false ∧
    ∃ ae, (elemIdxOf R (normalizeArrayOf a0)).bind (fun i => R.get? i) = some ae ∧
      p2 = { p with
        arrayOf := some (defaultArrayOfAllowNull ae
          (elemIdxOf R (normalizeArrayOf a0)) (normalizeArrayOf a0)),
        ezobjectType := arrIdxOf R p (normalizeArrayOf a0) } := by
  unfold vpcAttach at hA
  rw [harr, if_pos rfl, harrOf] at hA
  simp only [] at hA
  cases hchk : (a0.type.isNone && a0.instanceOf.isNone) with
  | true =>
    rw [hchk, if_pos rfl] at hA
    exact Except.noConfusion hA
  | false =>
    rw [hchk] at hA
    simp only [Bool.false_eq_true, if_false] at hA
    refine ⟨rfl, ?_⟩
    cases hbind : (elemIdxOf R (normalizeArrayOf a0)).bind (fun i => R.get? i) with
    | none =>
      rw [hbind] at hA
      exact Except.noConfusion hA
    | some ae =>
      rw [hbind] at hA
      simp only [] at hA
      exact ⟨ae, rfl, (Except.ok.inj hA).symm⟩

theorem vpcAttach_array_none_contra (R : Registry) (p p2 : PropConfig)
    (harr : (p.type == some "array") = true) (harrOf : p.arrayOf = none)
    (hA : vpcAttach R p = .ok p2) : False := by
  unfold vpcAttach at hA
  rw [harr, if_pos rfl, harrOf] at hA
  exact Except.noConfusion hA

theorem vpcAttach_second (R : Registry) (pM p p2 q : PropConfig)
    (hA : vpcAttach R p = .ok p2)
    (ht : q.type = p2.type) (ha : q.arrayOf = p2.arrayOf)
    (he : q.ezobjectType = p2.ezobjectType) :
    vpcAttach (vpcMutateEntry R pM) q = .ok q := by
  cases harr : (p.type == some "array") with
  | false =>
    have hchar := vpcAttach_scalar_char R p p2 harr hA
    have hqt : q.type = p.type := by rw [ht, hchar]
    have hqe : q.ezobjectType = scalarIdxOf R p := by rw [he, hchar]
    unfold vpcAttach
    rw [show (q.type == some "array") = false from by rw [hqt]; exact harr]
    simp only [Bool.false_eq_true, if_false]
    rw [scalarIdxOf_mutate, scalarIdxOf_congr _ q p hqt,
      pc_eta_ez q _ hqe]
    rfl
  | true =>
    cases harrOf : p.arrayOf with
    | none => exact absurd (vpcAttach_array_none_contra R p p2 harr harrOf hA) id
    | some a0 =>
      obtain ⟨hchk, ae, hbind, hchar⟩ :=
        vpcAttach_array_char R p p2 a0 harr harrOf hA
      have hqt : q.type = p.type := by rw [ht, hchar]
      have hqa : q.arrayOf = some (defaultArrayOfAllowNull ae
          (elemIdxOf R (normalizeArrayOf a0)) (normalizeArrayOf a0)) := by
        rw [ha, hchar]
      have hqe : q.ezobjectType = arrIdxOf R p (normalizeArrayOf a0) := by
        rw [he, hchar]
      unfold vpcAttach
      rw [show (q.type == some "array") = true from by rw [hqt]; exact harr,
        if_pos rfl, hqa]
      simp only []
      rw [show ((defaultArrayOfAllowNull ae
            (elemIdxOf R (normalizeArrayOf a0)) (normalizeArrayOf a0)).type.isNone &&
          (defaultArrayOfAllowNull ae
            (elemIdxOf R (normalizeArrayOf a0)) (normalizeArrayOf a0)).instanceOf.isNone) = false
        from by rw [dfan_type, dfan_instanceOf, narr_type_isNone, narr_instanceOf_isNone]; exact hchk]
      simp only [Bool.false_eq_true, if_false]
      rw [show normalizeArrayOf (defaultArrayOfAllowNull ae
            (elemIdxOf R (normalizeArrayOf a0)) (normalizeArrayOf a0)) =
          defaultArrayOfAllowNull ae
            (elemIdxOf R (normalizeArrayOf a0)) (normalizeArrayOf a0)
        from narr_fix _
          (by rw [dfan_type, dfan_originalType]; exact narr_g1 a0)
          (by rw [dfan_instanceOf, dfan_originalInstanceOf]; exact narr_g2 a0)]
      rw [show elemIdxOf (vpcMutateEntry R pM) (defaultArrayOfAllowNull ae
            (elemIdxOf R (normalizeArrayOf a0)) (normalizeArrayOf a0)) =
          elemIdxOf R (normalizeArrayOf a0)
        from by rw [elemIdxOf_mutate]; exact elemIdxOf_congr R _ _ (dfan_type _ _ _)]
      cases hEI : elemIdxOf R (normalizeArrayOf a0) with
      | none =>
        rw [hEI] at hbind
        exact Option.noConfusion hbind
      | some j =>
        rw [hEI] at hbind hqa
        have hRg : R.get? j = some ae := hbind
        obtain ⟨ae2, hae2⟩ := mutate_get_any R pM j ae hRg
        rw [show (some j).bind (fun i => (vpcMutateEntry R pM).get? i) =
            (vpcMutateEntry R pM).get? j from rfl, hae2]
        simp only []
        rw [dfan_fix ae2 (some j)
            (defaultArrayOfAllowNull ae (some j) (normalizeArrayOf a0))
            (dfan_allowNull_isSome ae (some j) (normalizeArrayOf a0))
            (dfan_ezobjectType ae (some j) (normalizeArrayOf a0))]
        rw [show arrIdxOf (vpcMutateEntry R pM) q
            (defaultArrayOfAllowNull ae (some j) (normalizeArrayOf a0)) =
          arrIdxOf R p (normalizeArrayOf a0) from by
            rw [arrIdxOf_mutate]
            exact arrIdxOf_congr R q p _ _ hqt (dfan_type _ _ _)]
        rw [pc_eta_arr_ez q _ _ hqa hqe]
        rfl

theorem vpcFill_entry (R : Registry) (p p' : PropConfig)
    (h : vpcFill R p = .ok p') :
    ∃ e, entryOf R p.ezobjectType = .ok e := by
  unfold vpcFill at h
  cases hE : entryOf R p.ezobjectType with
  | error er => rw [hE, except_bind_error] at h; exact Except.noConfusion h
  | ok e => exact ⟨e, rfl⟩

theorem mutate_structure (R : Registry) (p2 : PropConfig) (i : Nat)
    (hez : p2.ezobjectType = some i) (e' : EzType)
    (hE : (vpcMutateEntry R p2).get? i = some e') :
    ∃ e0, R.get? i = some e0 ∧
      vpcMutateEntry R p2 = R.set i (mutateEntry p2.mysqlType e0) ∧
      e' = mutateEntry p2.mysqlType e0 := by
  unfold vpcMutateEntry at hE ⊢
  rw [hez] at hE ⊢
  simp only [] at hE ⊢
  cases hg : R.get? i with
  | none =>
    rw [hg] at hE
    simp only [] at hE
    rw [hg] at hE
    exact Option.noConfusion hE
  | some e0 =>
    rw [hg] at hE
    simp only [] at hE
    rw [get_q_set_self R i (mutateEntry p2.mysqlType e0) e0 hg] at hE
    exact ⟨e0, rfl, rfl, (Option.some.inj hE).symm⟩

theorem vpcMutateEntry_second (R : Registry) (p2 q : PropConfig)
    (i : Nat) (e0 : EzType)
    (hez : p2.ezobjectType = some i) (hqez : q.ezobjectType = some i)
    (hqm : q.mysqlType = p2.mysqlType) (hg : R.get? i = some e0) :
    vpcMutateEntry (vpcMutateEntry R p2) q = vpcMutateEntry R p2 := by
  unfold vpcMutateEntry
  rw [hez, hqez, hqm]
  simp only []
  rw [hg]
  simp only []
  rw [get_q_set_self R i (mutateEntry p2.mysqlType e0) e0 hg]
  simp only []
  rw [List.set_set, mutateEntry_idem]

/-- C9 (amended): property-level re-validation is idempotent — running
`validatePropertyConfig` again on an already-validated property, against the
registry exactly as the first run left it, succeeds and returns the very same
registry and property configuration.  (Class-level re-validation is not safe
in general; see the counterexample.) -/
theorem c9_property_validation_idempotent (R R' : Registry)
    (p p' : PropConfig)
    (h : validatePropertyConfig R p = .ok (R', p')) :
    validatePropertyConfig R' p' = .ok (R', p') := by
  unfold validatePropertyConfig at h
  cases hN : vpcCheckName p with
  | error er => rw [hN, except_bind_error] at h; exact Except.noConfusion h
  | ok u =>
    rw [hN, except_bind_ok] at h
    simp only [] at h
    cases hA : vpcAttach R (vpcNormalizeType p) with
    | error er => rw [hA, except_bind_error] at h; exact Except.noConfusion h
    | ok p2 =>
      rw [hA, except_bind_ok] at h
      cases hC : vpcChecks (vpcMutateEntry R p2) p2 with
      | error er => rw [hC, except_bind_error] at h; exact Except.noConfusion h
      | ok u2 =>
        rw [hC, except_bind_ok] at h
        cases hF : vpcFill (vpcMutateEntry R p2) p2 with
        | error er => rw [hF, except_bind_error] at h; exact Except.noConfusion h
        | ok p3 =>
          rw [hF, except_bind_ok] at h
          have hp := Except.ok.inj h
          have hR : vpcMutateEntry R p2 = R' := congrArg Prod.fst hp
          have hP : p3 = p' := congrArg Prod.snd hp
          subst hR
          subst hP
          obtain ⟨f_name, f_type, f_inst, f_oty, f_oin, f_arr, f_cls, f_mys,
            f_len, f_dec, f_val⟩ := vpcFill_fields _ _ _ hF
          have f_ez := vpcFill_ezty _ _ _ hF
          obtain ⟨s1, s2, s3, s4, s5, s6, s7⟩ := vpcFill_isSome _ _ _ hF
          obtain ⟨a_name, a_type, a_inst, a_oty, a_oin, a_cls, a_mys, a_len,
            a_dec, a_val, a_def, a_an, a_st, a_gt, a_set, a_sav, a_loa, a_vi, a_ai⟩ :=
            vpcAttach_fields _ _ _ hA
          obtain ⟨e', hE'⟩ := vpcFill_entry _ _ _ hF
          cases hez : p2.ezobjectType with
          | none => rw [hez] at hE'; exact Except.noConfusion hE'
          | some i =>
            rw [hez] at hE'
            have hgi : (vpcMutateEntry R p2).get? i = some e' := by
              unfold entryOf at hE'
              simp only [] at hE'
              cases hg2 : (vpcMutateEntry R p2).get? i with
              | none => rw [hg2] at hE'; exact Except.noConfusion hE'
              | some e2 =>
                rw [hg2] at hE'
                exact congrArg some (Except.ok.inj hE')
            obtain ⟨e0, hg0, hmutEq, he'def⟩ :=
              mutate_structure R p2 i hez e' hgi
            unfold validatePropertyConfig
            rw [show vpcCheckName p3 = .ok u from
              (vpcCheckName_congr p3 p
                (by rw [f_name, a_name, norm_name])
                (by rw [f_type, a_type]; exact norm_type_isNone p)
                (by rw [f_inst, a_inst]; exact norm_instanceOf_isNone p)).trans hN,
              except_bind_ok]
            simp only []
            rw [show vpcNormalizeType p3 = p3 from norm_fix p3
              (by rw [f_type, a_type, f_oty, a_oty]; exact norm_g1 p)
              (by rw [f_inst, a_inst, f_oin, a_oin]; exact norm_g2 p)]
            rw [show vpcAttach (vpcMutateEntry R p2) p3 = .ok p3 from
              vpcAttach_second R p2 (vpcNormalizeType p) p2 p3 hA f_type f_arr f_ez,
              except_bind_ok]
            rw [show vpcMutateEntry (vpcMutateEntry R p2) p3 = vpcMutateEntry R p2
              from vpcMutateEntry_second R p2 p3 i e0 hez (f_ez.trans hez)
                f_mys hg0]
            rw [show vpcChecks (vpcMutateEntry R p2) p3 =
                vpcChecks (vpcMutateEntry R p2) p2 from
              vpcChecks_congr _ p3 p2 f_ez f_len f_dec f_type f_val,
              hC, except_bind_ok]
            rw [show vpcFill (vpcMutateEntry R p2) p3 = .ok p3 from
              vpcFill_second _ p3 e' (by rw [f_ez, hez]; exact hE')
                s1 s2 s3 s4 s5 s6 s7,
              except_bind_ok]
            rfl

/-- C9 witness: re-validating the validated scalar `int` property `n` against
the once-mutated registry reproduces exactly the same registry and
configuration. -/
theorem c9_property_validation_idempotent_witness :
    validatePropertyConfig rInt vInt = .ok (rInt, vInt) :=
  c9_property_validation_idempotent ezobjectTypes rInt pIntRaw vInt rfl

end EzObjects
